import Mathlib

/-!
# Trendyx order controller

A shallow embedding of `server/controllers/shop/order-controller.js` and of the
collaborators it talks to (the Mongoose models `Product`, `Cart`, `Order` and the
`stripe` helper), of the mock of `server/helpers/stripe.js`, and of the parts of the
client that build the requests (`checkout.jsx`, `stripe-checkout.jsx`), followed by
their properties.

Modelling conventions

* JavaScript numbers are IEEE 754 doubles (`JsNum`): `NaN`, the two infinities, and the
  finite doubles, each kept as the rational number it is. The result of `+`, `-` and `*`
  on finite doubles is the exact result rounded to the nearest double, a tie going to
  the even significand and an overflow to an infinity (`JsNum.round`); comparisons,
  `Math.round` and `toFixed` read the exact value of a double. The two zeros are one
  value: the program never divides, and its comparisons, `toFixed` and JSON treat them
  alike. The operations return doubles; the theorems are stated for every `fin x`, the
  doubles among them, and the examples use doubles only.
* The document store is a record of three lists. `Model.findById` returns the first
  document with the given `_id`; saving a new document appends it.
* Everything a handler cannot compute by itself is read from an `Env`: which store
  operations reject, what the payment collaborator answers, the `_id` Mongoose gives
  to a new document, the clock.
* A handler is a function from `Env`, request body and store to an `Outcome`: the
  response it sends, the store afterwards, and the calls it made to the payment
  collaborator.
-/

namespace Trendyx

/-! ## Values -/

/-- A JavaScript number. -/
inductive JsNum where
  | nan
  /-- The value `-Infinity` when `neg`, `Infinity` otherwise. -/
  | inf (neg : Bool)
  /-- A finite double, as the rational number it is. -/
  | fin (x : ℚ)
  deriving DecidableEq

/-- The integer nearest to `y`, the even one of the two when `y` is halfway. -/
def roundHalfEven (y : ℚ) : ℤ :=
  if y - ⌊y⌋ < 1 / 2 then ⌊y⌋
  else if 1 / 2 < y - ⌊y⌋ then ⌊y⌋ + 1
  else if ⌊y⌋ % 2 = 0 then ⌊y⌋ else ⌊y⌋ + 1

/-- The double that an operation returns when its exact result is `x` (IEEE 754,
round to nearest, ties to even). With `2^e ≤ |x| < 2^(e+1)`, and `e` not below the
exponent -1022 of the smallest normal double, the doubles around `x` are the multiples
of `2^(e-52)`; a rounded magnitude of `2^1024` or more is an infinity. -/
def JsNum.round (x : ℚ) : JsNum :=
  if x = 0 then JsNum.fin 0
  else
    let e : ℤ := max (Int.log 2 |x|) (-1022)
    let q : ℚ := 2 ^ (e - 52)
    let r : ℚ := roundHalfEven (|x| / q) * q
    if 2 ^ 1024 ≤ r then JsNum.inf (decide (x < 0))
    else JsNum.fin (if x < 0 then -r else r)

/-- The operator `-a`. -/
def JsNum.neg : JsNum → JsNum
  | JsNum.nan => JsNum.nan
  | JsNum.inf neg => JsNum.inf (!neg)
  | JsNum.fin x => JsNum.fin (-x)

/-- The operator `a + b` on numbers. -/
def JsNum.add : JsNum → JsNum → JsNum
  | JsNum.fin a, JsNum.fin b => JsNum.round (a + b)
  | JsNum.fin _, JsNum.inf t => JsNum.inf t
  | JsNum.inf s, JsNum.fin _ => JsNum.inf s
  | JsNum.inf s, JsNum.inf t => if s = t then JsNum.inf s else JsNum.nan
  | JsNum.nan, _ => JsNum.nan
  | _, JsNum.nan => JsNum.nan

/-- The operator `a - b` on numbers. -/
def JsNum.sub : JsNum → JsNum → JsNum
  | JsNum.fin a, JsNum.fin b => JsNum.round (a - b)
  | JsNum.fin _, JsNum.inf t => JsNum.inf (!t)
  | JsNum.inf s, JsNum.fin _ => JsNum.inf s
  | JsNum.inf s, JsNum.inf t => if s = t then JsNum.nan else JsNum.inf s
  | JsNum.nan, _ => JsNum.nan
  | _, JsNum.nan => JsNum.nan

/-- The operator `a * b` on numbers. -/
def JsNum.mul : JsNum → JsNum → JsNum
  | JsNum.fin a, JsNum.fin b => JsNum.round (a * b)
  | JsNum.fin a, JsNum.inf t =>
    if a = 0 then JsNum.nan else JsNum.inf (xor (decide (a < 0)) t)
  | JsNum.inf s, JsNum.fin b =>
    if b = 0 then JsNum.nan else JsNum.inf (xor s (decide (b < 0)))
  | JsNum.inf s, JsNum.inf t => JsNum.inf (xor s t)
  | JsNum.nan, _ => JsNum.nan
  | _, JsNum.nan => JsNum.nan

/-- The comparison `a < b` on numbers; it is false when one of them is `NaN`. -/
def JsNum.lt : JsNum → JsNum → Bool
  | JsNum.fin a, JsNum.fin b => decide (a < b)
  | JsNum.fin _, JsNum.inf t => !t
  | JsNum.inf s, JsNum.fin _ => s
  | JsNum.inf s, JsNum.inf t => s && !t
  | JsNum.nan, _ => false
  | _, JsNum.nan => false

/-- The comparison `a > b` on numbers. -/
def JsNum.gt (a b : JsNum) : Bool := b.lt a

/-- A scalar of a JSON request body as a handler sees it after destructuring:
a field that is absent reads as `undefined`. -/
inductive JsVal where
  | undefined
  | null
  | str (s : String)
  | num (x : JsNum)
  deriving DecidableEq

/-- The string `Number.prototype.toFixed(2)` returns, kept structured. For a finite
number below `10^21` the string is the sign, then the decimal digits of the integer `n`
of hundredths with a point before the last two digits (`small neg n`); from `10^21` up
the method prints the number itself with `Number::toString` (`large neg x`), and so it
does for `NaN` and the infinities. Two such strings are equal exactly when the
structured values are. -/
inductive Fixed2 where
  | small (neg : Bool) (n : ℕ)
  | large (neg : Bool) (x : ℚ)
  | notANumber
  | infinity (neg : Bool)
  deriving DecidableEq

/-- The integer nearest to `x`, the larger one of the two when `x` is halfway. -/
def nearestInt (x : ℚ) : ℤ := ⌊x + 1 / 2⌋

/-- The function `Math.round`: the nearest integer, a tie going up; `NaN` and the
infinities are returned as they are. The result is a double whenever `x` is. -/
def mathRound : JsNum → JsNum
  | JsNum.fin x => JsNum.fin (nearestInt x)
  | x => x

/-- The string `x.toFixed(2)` for a finite number `x` (ECMAScript, Number.prototype.toFixed):
the sign is taken off a negative `x` first; then, below `10^21`, `n` is the integer for
which `n / 100 - x` is closest to zero, the larger one when there are two. -/
def toFixed2 (x : ℚ) : Fixed2 :=
  let neg : Bool := decide (x < 0)
  let a : ℚ := if x < 0 then -x else x
  if (10 : ℚ) ^ 21 ≤ a then Fixed2.large neg a
  else Fixed2.small neg (nearestInt (a * 100)).toNat

/-- The string `x.toFixed(2)` for a number `x`. -/
def JsNum.toFixed2 : JsNum → Fixed2
  | JsNum.nan => Fixed2.notANumber
  | JsNum.inf neg => Fixed2.infinity neg
  | JsNum.fin x => Trendyx.toFixed2 x

/-- The call `v.toFixed(2)` for any value: only a number has the method, anything else
raises a `TypeError` (`none`). -/
def JsVal.toFixed2 : JsVal → Option Fixed2
  | JsVal.num x => some x.toFixed2
  | _ => none

/-! ## Documents -/

/-- A `Product` document, with the fields the controller reads or writes. -/
structure Product where
  _id : String
  title : String
  price : JsNum
  salePrice : JsNum
  totalStock : JsNum
  deriving DecidableEq

/-- A line item, as sent in `cartItems` and as stored on an `Order`. -/
structure CartItem where
  productId : String
  title : String
  image : String
  price : JsNum
  quantity : JsNum
  deriving DecidableEq

/-- The `addressInfo` object of an order. -/
structure AddressInfo where
  addressId : String
  address : String
  city : String
  pincode : String
  phone : String
  notes : String
  deriving DecidableEq

/-- An entry of a `Cart` document. -/
structure CartLine where
  productId : String
  quantity : JsNum
  deriving DecidableEq

/-- A `Cart` document. -/
structure Cart where
  _id : String
  userId : JsVal
  items : List CartLine
  deriving DecidableEq

/-- An `Order` document. -/
structure Order where
  _id : String
  userId : JsVal
  cartId : JsVal
  cartItems : List CartItem
  addressInfo : Option AddressInfo
  orderStatus : String
  paymentMethod : String
  paymentStatus : String
  totalAmount : JsNum
  orderDate : ℕ
  orderUpdateDate : ℕ
  paymentId : JsVal
  payerId : JsVal
  deriving DecidableEq

/-- The three collections of the document store. -/
structure Store where
  products : List Product
  carts : List Cart
  orders : List Order
  deriving DecidableEq

/-- The query `Product.findById(id)` on a store that answers. -/
def Product.findById (products : List Product) (id : String) : Option Product :=
  products.find? (fun p => p._id == id)

/-! ## Collaborators -/

/-- The `metadata` object sent with a payment intent. -/
structure Metadata where
  orderId : String
  userId : JsVal
  deriving DecidableEq

/-- The argument of `stripe.paymentIntents.create`. -/
structure PaymentIntentParams where
  amount : JsNum
  currency : String
  metadata : Metadata
  deriving DecidableEq

/-- What the controller reads of a created payment intent. -/
structure PaymentIntent where
  id : String
  client_secret : String
  deriving DecidableEq

/-- What the controller reads of a confirmed payment intent. -/
structure PaymentConfirmation where
  id : JsVal
  status : String
  deriving DecidableEq

/-- The `stripe` helper as the controller uses it; `none` is a rejected promise. -/
structure Stripe where
  create : PaymentIntentParams → Option PaymentIntent
  confirm : JsVal → String → Option PaymentConfirmation

/-- The store operations of the controller that can reject. -/
inductive DbOp where
  | productFindById (id : String)
  | productSave (id : String)
  | orderFindById (id : JsVal)
  | orderFind (userId : JsVal)
  | orderSave (id : String)
  | cartFindById (id : JsVal)
  | cartSave (id : String)
  deriving DecidableEq

/-- What a request finds around it. -/
structure Env where
  /-- The store operations that reject during this request. -/
  dbFails : DbOp → Bool
  /-- The payment collaborator. -/
  stripe : Stripe
  /-- The `_id` given to a document made with `new Order(...)`. -/
  newOrderId : String
  /-- The successive readings of `new Date()`. -/
  now : ℕ → ℕ

/-! ## Responses -/

/-- The JSON bodies the controller sends. -/
inductive ResBody where
  /-- The body `{ success: false, message }`. -/
  | failure (message : String)
  /-- The body `{ success: true, clientSecret, orderId, paymentIntentId }`. -/
  | created (clientSecret : String) (orderId : String) (paymentIntentId : String)
  /-- The body `{ success: true, message, data, orderStatus, cartCleared }`. -/
  | captured (message : String) (data : Order) (orderStatus : String) (cartCleared : Bool)
  /-- The body `{ success: true, data }` with a list of orders. -/
  | orders (data : List Order)
  /-- The body `{ success: true, data }` with one order. -/
  | order (data : Order)
  deriving DecidableEq

/-- The `success` field of a body. -/
def ResBody.success : ResBody → Bool
  | ResBody.failure _ => false
  | _ => true

/-- The `message` field of a body, when it has one. -/
def ResBody.message : ResBody → Option String
  | ResBody.failure m => some m
  | ResBody.captured m _ _ _ => some m
  | _ => none

/-- A response: `res.status(status).json(body)`. -/
structure Response where
  status : ℕ
  body : ResBody
  deriving DecidableEq

/-- What a handler did: its response, the store it leaves, and its calls to the
payment collaborator, in order. -/
structure Outcome where
  res : Response
  store : Store
  stripeCreateCalls : List PaymentIntentParams
  stripeConfirmCalls : List (JsVal × String)
  deriving DecidableEq

/-! ## createOrder -/

/-- The body of `POST /order/create` after destructuring (lines 8-19). `cartItems` is
`none` when the field is absent. -/
structure CreateOrderBody where
  userId : JsVal
  cartItems : Option (List CartItem)
  addressInfo : Option AddressInfo
  orderStatus : JsVal
  paymentMethod : JsVal
  paymentStatus : JsVal
  totalAmount : JsVal
  orderDate : JsVal
  orderUpdateDate : JsVal
  cartId : JsVal
  deriving DecidableEq

/-- Line 31: `product.salePrice > 0 ? product.salePrice : product.price`. -/
def effectivePrice (product : Product) : JsNum :=
  if product.salePrice.gt (JsNum.fin 0) then product.salePrice else product.price

/-- How the loop of lines 23-33 ends. -/
inductive TotalResult where
  /-- The loop ran to its end with this `serverTotalAmount`. -/
  | total (serverTotalAmount : JsNum)
  /-- Line 25: `Product.findById` returned nothing for this `productId`. -/
  | notFound (productId : String)
  /-- The call `Product.findById` rejected. -/
  | threw
  deriving DecidableEq

/-- Lines 23-33: the loop over `cartItems`, started with the running total `acc`. Line 32
multiplies and adds doubles. -/
def serverTotalAmount (env : Env) (products : List Product) :
    List CartItem → JsNum → TotalResult
  | [], acc => TotalResult.total acc
  | item :: rest, acc =>
    if env.dbFails (DbOp.productFindById item.productId) then TotalResult.threw
    else
      match Product.findById products item.productId with
      | none => TotalResult.notFound item.productId
      | some product =>
        serverTotalAmount env products rest
          (acc.add ((effectivePrice product).mul item.quantity))

/-- The `catch` block of `createOrder` (lines 77-83). -/
def createOrderCatch : Response :=
  { status := 500, body := ResBody.failure "Error while creating payment intent!" }

/-- Lines 43-50: the argument of `stripe.paymentIntents.create`. Line 44 is
`Math.round(serverTotalAmount * 100)`, the product being a product of doubles. -/
def paymentIntentParams (userId : JsVal) (total : JsNum) : PaymentIntentParams :=
  { amount := mathRound (total.mul (JsNum.fin 100)), currency := "usd",
    metadata := { orderId := "temp_order_id", userId := userId } }

/-- Lines 53-66: `new Order({...})`. -/
def newlyCreatedOrder (env : Env) (body : CreateOrderBody) (items : List CartItem)
    (total : JsNum) (paymentIntent : PaymentIntent) : Order :=
  { _id := env.newOrderId
    userId := body.userId
    cartId := body.cartId
    cartItems := items
    addressInfo := body.addressInfo
    orderStatus := "pending"
    paymentMethod := "stripe"
    paymentStatus := "pending"
    totalAmount := total
    orderDate := env.now 0
    orderUpdateDate := env.now 1
    paymentId := JsVal.str paymentIntent.id
    payerId := JsVal.null }

/-- The handler `createOrder` (lines 6-84). -/
def createOrder (env : Env) (body : CreateOrderBody) (store : Store) : Outcome :=
  match body.cartItems with
  | none =>
    -- `for (const item of undefined)` raises a TypeError
    { res := createOrderCatch, store := store, stripeCreateCalls := [],
      stripeConfirmCalls := [] }
  | some items =>
    match serverTotalAmount env store.products items (JsNum.fin 0) with
    | TotalResult.threw =>
      { res := createOrderCatch, store := store, stripeCreateCalls := [],
        stripeConfirmCalls := [] }
    | TotalResult.notFound productId =>
      { res := { status := 404,
                 body := ResBody.failure ("Product with ID " ++ productId ++ " not found") },
        store := store, stripeCreateCalls := [], stripeConfirmCalls := [] }
    | TotalResult.total total =>
      match body.totalAmount.toFixed2 with
      | none =>
        -- `totalAmount.toFixed` on something that is not a number raises a TypeError
        { res := createOrderCatch, store := store, stripeCreateCalls := [],
          stripeConfirmCalls := [] }
      | some declared =>
        if declared ≠ total.toFixed2 then
          { res := { status := 400,
                     body := ResBody.failure "Total amount mismatch. Please try again." },
            store := store, stripeCreateCalls := [], stripeConfirmCalls := [] }
        else
          let params := paymentIntentParams body.userId total
          match env.stripe.create params with
          | none =>
            { res := createOrderCatch, store := store, stripeCreateCalls := [params],
              stripeConfirmCalls := [] }
          | some paymentIntent =>
            let order := newlyCreatedOrder env body items total paymentIntent
            if env.dbFails (DbOp.orderSave order._id) then
              { res := createOrderCatch, store := store, stripeCreateCalls := [params],
                stripeConfirmCalls := [] }
            else
              { res := { status := 201,
                         body := ResBody.created paymentIntent.client_secret order._id
                           paymentIntent.id },
                store := { store with orders := store.orders ++ [order] },
                stripeCreateCalls := [params], stripeConfirmCalls := [] }

/-! ## capturePayment -/

/-- The body of `POST /order/capture` after destructuring (line 88). -/
structure CaptureBody where
  paymentIntentId : JsVal
  orderId : JsVal
  deriving DecidableEq

/-- The query `Order.findById(id)` on a store that answers: the first order whose `_id`
is the string `id`; an `id` that is not a string matches nothing. -/
def Order.findById (orders : List Order) (id : JsVal) : Option Order :=
  orders.find? (fun o => JsVal.str o._id == id)

/-- The query `Cart.findById(id)` on a store that answers. -/
def Cart.findById (carts : List Cart) (id : JsVal) : Option Cart :=
  carts.find? (fun c => JsVal.str c._id == id)

/-- The call `product.save()` on a document read from the collection: the first
document with its `_id` is replaced by it. -/
def Product.save : List Product → Product → List Product
  | [], _ => []
  | p :: ps, doc => if p._id = doc._id then doc :: ps else p :: Product.save ps doc

/-- The call `cart.save()` on a document read from the collection. -/
def Cart.save : List Cart → Cart → List Cart
  | [], _ => []
  | c :: cs, doc => if c._id = doc._id then doc :: cs else c :: Cart.save cs doc

/-- The call `order.save()` on a document read from the collection. -/
def Order.save : List Order → Order → List Order
  | [], _ => []
  | o :: os, doc => if o._id = doc._id then doc :: os else o :: Order.save os doc

/-- How the loop of lines 111-130 ends. -/
inductive StockEnd where
  /-- Every line item was processed. -/
  | done
  /-- Line 114: no product for a line item with this `title`. -/
  | notFound (title : String)
  /-- Line 121: the product with this `title` has less stock than the line item asks. -/
  | notEnough (title : String)
  /-- A store operation rejected. -/
  | threw
  deriving DecidableEq

/-- The state in which the loop of lines 111-130 ends: the products as persisted so
far, and the way it ended. -/
structure StockResult where
  products : List Product
  outcome : StockEnd
  deriving DecidableEq

/-- Lines 111-130: the loop over `order.cartItems`, started on the persisted
`products`. Each item that passes is saved before the next one is looked at. Line 121
compares doubles and line 128 subtracts them. -/
def updateStock (env : Env) : List Product → List CartItem → StockResult
  | products, [] => { products := products, outcome := StockEnd.done }
  | products, item :: rest =>
    if env.dbFails (DbOp.productFindById item.productId) then
      { products := products, outcome := StockEnd.threw }
    else
      match Product.findById products item.productId with
      | none => { products := products, outcome := StockEnd.notFound item.title }
      | some product =>
        if product.totalStock.lt item.quantity then
          { products := products, outcome := StockEnd.notEnough product.title }
        else if env.dbFails (DbOp.productSave product._id) then
          { products := products, outcome := StockEnd.threw }
        else
          updateStock env
            (Product.save products
              { product with totalStock := product.totalStock.sub item.quantity })
            rest

/-- The `catch` block of `capturePayment` (lines 155-161). -/
def capturePaymentCatch : Response :=
  { status := 500, body := ResBody.failure "Some error occurred!" }

/-- Lines 105-108: the assignments to the order read from the store. -/
def paidOrder (env : Env) (order : Order) (paymentIntentId : JsVal) : Order :=
  { order with
    paymentStatus := "paid"
    orderStatus := "confirmed"
    paymentId := paymentIntentId
    orderUpdateDate := env.now 0 }

/-- Lines 133-138: the cart of the order is emptied, when there is one. `none` when
`cart.save()` rejects. -/
def clearCart (env : Env) (carts : List Cart) (cartId : JsVal) : Option (List Cart) :=
  match Cart.findById carts cartId with
  | none => some carts
  | some cart =>
    if env.dbFails (DbOp.cartSave cart._id) then none
    else some (Cart.save carts { cart with items := [] })

/-- The handler `capturePayment` (lines 86-162). -/
def capturePayment (env : Env) (body : CaptureBody) (store : Store) : Outcome :=
  if env.dbFails (DbOp.orderFindById body.orderId) then
    { res := capturePaymentCatch, store := store, stripeCreateCalls := [],
      stripeConfirmCalls := [] }
  else
    match Order.findById store.orders body.orderId with
    | none =>
      { res := { status := 404, body := ResBody.failure "Order can not be found" },
        store := store, stripeCreateCalls := [], stripeConfirmCalls := [] }
    | some order =>
      let call : JsVal × String := (body.paymentIntentId, "pm_card_visa")
      match env.stripe.confirm body.paymentIntentId "pm_card_visa" with
      | none =>
        { res := capturePaymentCatch, store := store, stripeCreateCalls := [],
          stripeConfirmCalls := [call] }
      | some paymentIntent =>
        if paymentIntent.status = "succeeded" then
          let order := paidOrder env order body.paymentIntentId
          let stock := updateStock env store.products order.cartItems
          let store1 : Store := { store with products := stock.products }
          match stock.outcome with
          | StockEnd.threw =>
            { res := capturePaymentCatch, store := store1, stripeCreateCalls := [],
              stripeConfirmCalls := [call] }
          | StockEnd.notFound title =>
            { res := { status := 404,
                       body := ResBody.failure ("Product not found: " ++ title) },
              store := store1, stripeCreateCalls := [], stripeConfirmCalls := [call] }
          | StockEnd.notEnough title =>
            { res := { status := 400,
                       body := ResBody.failure ("Not enough stock for product: " ++ title) },
              store := store1, stripeCreateCalls := [], stripeConfirmCalls := [call] }
          | StockEnd.done =>
            if env.dbFails (DbOp.cartFindById order.cartId) then
              { res := capturePaymentCatch, store := store1, stripeCreateCalls := [],
                stripeConfirmCalls := [call] }
            else
              match clearCart env store.carts order.cartId with
              | none =>
                { res := capturePaymentCatch, store := store1, stripeCreateCalls := [],
                  stripeConfirmCalls := [call] }
              | some carts =>
                let store2 : Store := { store1 with carts := carts }
                if env.dbFails (DbOp.orderSave order._id) then
                  { res := capturePaymentCatch, store := store2, stripeCreateCalls := [],
                    stripeConfirmCalls := [call] }
                else
                  { res := { status := 200,
                             body := ResBody.captured "Payment successful and order confirmed"
                               order order.orderStatus true },
                    store := { store2 with orders := Order.save store.orders order },
                    stripeCreateCalls := [], stripeConfirmCalls := [call] }
        else
          { res := { status := 400, body := ResBody.failure "Payment failed" },
            store := store, stripeCreateCalls := [], stripeConfirmCalls := [call] }

/-! ## getAllOrdersByUser, getOrderDetails -/

/-- The handler `getAllOrdersByUser` (lines 164-188); `userId` is the route parameter. -/
def getAllOrdersByUser (env : Env) (userId : String) (store : Store) : Outcome :=
  if env.dbFails (DbOp.orderFind (JsVal.str userId)) then
    { res := { status := 500, body := ResBody.failure "Some error occured!" },
      store := store, stripeCreateCalls := [], stripeConfirmCalls := [] }
  else
    let orders := store.orders.filter (fun o => o.userId == JsVal.str userId)
    if orders.length = 0 then
      { res := { status := 404, body := ResBody.failure "No orders found!" },
        store := store, stripeCreateCalls := [], stripeConfirmCalls := [] }
    else
      { res := { status := 200, body := ResBody.orders orders },
        store := store, stripeCreateCalls := [], stripeConfirmCalls := [] }

/-- The handler `getOrderDetails` (lines 190-214); `id` is the route parameter. -/
def getOrderDetails (env : Env) (id : String) (store : Store) : Outcome :=
  if env.dbFails (DbOp.orderFindById (JsVal.str id)) then
    { res := { status := 500, body := ResBody.failure "Some error occured!" },
      store := store, stripeCreateCalls := [], stripeConfirmCalls := [] }
  else
    match Order.findById store.orders (JsVal.str id) with
    | none =>
      { res := { status := 404, body := ResBody.failure "Order not found!" },
        store := store, stripeCreateCalls := [], stripeConfirmCalls := [] }
    | some order =>
      { res := { status := 200, body := ResBody.order order },
        store := store, stripeCreateCalls := [], stripeConfirmCalls := [] }

/-! ## The mock of `helpers/stripe.js` -/

/-- What a call of the mock reads from outside: the successive values of `Date.now()`
and the successive strings `Math.random().toString(36).substr(2, 9)`. -/
structure Entropy where
  now : ℕ → ℕ
  random : ℕ → String

/-- The argument of `mockStripe.paymentIntents.create`, any object: `metadata` is
`none` when it is absent. -/
structure CreateParams where
  amount : JsVal
  currency : JsVal
  metadata : Option Metadata
  deriving DecidableEq

/-- The object `mockStripe.paymentIntents.create` returns (lines 11-18), with its six
properties. -/
structure MockPaymentIntent where
  id : String
  amount : JsVal
  currency : JsVal
  status : String
  client_secret : String
  /-- The value `params.metadata || {}`; `none` is the empty object. -/
  metadata : Option Metadata
  deriving DecidableEq

/-- An entry of `charges.data` in a confirmed intent (lines 26-31). -/
structure Charge where
  id : String
  amount : JsNum
  currency : String
  status : String
  deriving DecidableEq

/-- The object `mockStripe.paymentIntents.confirm` returns (lines 22-33). -/
structure MockConfirmation where
  id : JsVal
  status : String
  charges : List Charge
  deriving DecidableEq

/-- Lines 9-19: `mockStripe.paymentIntents.create`. -/
def paymentIntents.create (entropy : Entropy) (params : CreateParams) : MockPaymentIntent :=
  { id := "pi_" ++ toString (entropy.now 0) ++ "_" ++ entropy.random 0
    amount := params.amount
    currency := params.currency
    status := "requires_payment_method"
    client_secret := "pi_" ++ toString (entropy.now 1) ++ "_secret_" ++ entropy.random 1
    metadata := params.metadata }

/-- Lines 20-34: `mockStripe.paymentIntents.confirm`; the second argument is not
read. -/
def paymentIntents.confirm (entropy : Entropy) (paymentIntentId : JsVal) (_params : String) :
    MockConfirmation :=
  { id := paymentIntentId
    status := "succeeded"
    charges := [{ id := "ch_" ++ toString (entropy.now 0) ++ "_" ++ entropy.random 0
                  amount := JsNum.fin 0, currency := "usd", status := "succeeded" }] }

/-- Lines 39-43: the export of the module when no secret key is configured, as the
controller uses it. The promises of the mock never reject. -/
def stripeInstance (entropy : Entropy) : Stripe :=
  { create := fun params =>
      let paymentIntent := paymentIntents.create entropy
        { amount := JsVal.num params.amount, currency := JsVal.str params.currency,
          metadata := some params.metadata }
      some { id := paymentIntent.id, client_secret := paymentIntent.client_secret }
    confirm := fun paymentIntentId params =>
      let paymentIntent := paymentIntents.confirm entropy paymentIntentId params
      some { id := paymentIntent.id, status := paymentIntent.status } }

/-! ## The card form of `stripe-checkout.jsx` -/

/-- The state `paymentForm`: an object, as the list of its properties. -/
abbrev PaymentForm := List (String × String)

/-- Line 16-21: the initial `paymentForm`. -/
def initialPaymentForm : PaymentForm :=
  [("cardNumber", "4242 4242 4242 4242"), ("expiry", "12/25"), ("cvc", "123"),
   ("name", "Demo User")]

/-- The read `paymentForm[key]`, which is the `value` of the input named `key`. -/
def PaymentForm.get (paymentForm : PaymentForm) (key : String) : Option String :=
  (paymentForm.find? (fun kv => kv.1 == key)).map (fun kv => kv.2)

/-- Lines 27-32: `handleInputChange` for an event whose target has the given `name` and
`value`: the new state is `{...paymentForm, [name]: value}`. -/
def handleInputChange (paymentForm : PaymentForm) (name value : String) : PaymentForm :=
  if paymentForm.any (fun kv => kv.1 == name) then
    paymentForm.map (fun kv => if kv.1 == name then (kv.1, value) else kv)
  else paymentForm ++ [(name, value)]

/-! ## The checkout page `checkout.jsx` -/

/-- An item of the cart as the client holds it. -/
structure ClientCartItem where
  productId : String
  title : String
  image : String
  price : JsNum
  salePrice : JsNum
  quantity : JsNum
  deriving DecidableEq

/-- The value of `state.shopCart.cartItems`: an array (it has a `length`), or the cart
object `{_id, items}` (it has none); `items` is `none` when the property is absent. -/
inductive ClientCart where
  | array (elements : List ClientCartItem)
  | cart (_id : JsVal) (items : Option (List ClientCartItem))
  deriving DecidableEq

/-- An address of the user, as selected on the page. -/
structure ClientAddress where
  _id : String
  address : String
  city : String
  pincode : String
  phone : String
  notes : String
  deriving DecidableEq

/-- Lines 25-36: `totalCartAmount`, a `reduce` that multiplies and adds doubles. -/
def totalCartAmount (cartItems : ClientCart) : JsNum :=
  match cartItems with
  | ClientCart.cart _ (some (item :: rest)) =>
    (item :: rest).foldl
      (fun sum currentItem =>
        sum.add ((if currentItem.salePrice.gt (JsNum.fin 0) then currentItem.salePrice
          else currentItem.price).mul currentItem.quantity))
      (JsNum.fin 0)
  | _ => JsNum.fin 0

/-- What `handleInitiateStripePayment` does. -/
inductive CheckoutAction where
  /-- A toast with this title, and nothing else. -/
  | toast (title : String)
  /-- The dispatch of `createNewOrder(orderData)`. -/
  | createNewOrder (orderData : CreateOrderBody)
  /-- A `TypeError` raised by the function. -/
  | typeError
  deriving DecidableEq

/-- Lines 59-68: a cart item as a line item of the order. -/
def singleCartItem (item : ClientCartItem) : CartItem :=
  { productId := item.productId, title := item.title, image := item.image,
    price := if item.salePrice.gt (JsNum.fin 0) then item.salePrice else item.price,
    quantity := item.quantity }

/-- Lines 38-104: `handleInitiateStripePayment`, up to the dispatch. `user` is the id of
the logged-in user, `date` the value of `new Date()` as it is sent. -/
def handleInitiateStripePayment (cartItems : ClientCart)
    (currentSelectedAddress : Option ClientAddress) (user : Option String) (date : JsVal) :
    CheckoutAction :=
  -- line 39: `cartItems.length === 0`; an object has no `length`
  let length : Option ℕ :=
    match cartItems with
    | ClientCart.array elements => some elements.length
    | ClientCart.cart _ _ => none
  if length = some 0 then
    CheckoutAction.toast "Your cart is empty. Please add items to proceed"
  else
    match currentSelectedAddress with
    | none => CheckoutAction.toast "Please select one address to proceed."
    | some address =>
      match cartItems with
      | ClientCart.array _ => CheckoutAction.typeError
      | ClientCart.cart _ none => CheckoutAction.typeError
      | ClientCart.cart _id (some items) =>
        CheckoutAction.createNewOrder
          { userId := match user with
              | some id => JsVal.str id
              | none => JsVal.undefined
            cartId := _id
            cartItems := some (items.map singleCartItem)
            addressInfo := some
              { addressId := address._id, address := address.address, city := address.city,
                pincode := address.pincode, phone := address.phone, notes := address.notes }
            orderStatus := JsVal.str "pending"
            paymentMethod := JsVal.str "stripe"
            paymentStatus := JsVal.str "pending"
            totalAmount := JsVal.num (totalCartAmount cartItems)
            orderDate := date
            orderUpdateDate := date }

/-! ## Repeated requests -/

/-- The store after `n` capture requests with the same body, one after the other. -/
def captureTimes (env : Env) (body : CaptureBody) : ℕ → Store → Store
  | 0, store => store
  | n + 1, store => captureTimes env body n (capturePayment env body store).store

/-! ## Vocabulary of the specification -/

/-- The amount of a line item: effective unit price times quantity, a product of
doubles, the effective unit price of a product being its `salePrice` when that is
positive and its `price` otherwise. A line item without product counts 0. -/
def lineAmount (products : List Product) (item : CartItem) : JsNum :=
  match Product.findById products item.productId with
  | some product =>
    (if product.salePrice.gt (JsNum.fin 0) then product.salePrice else product.price).mul
      item.quantity
  | none => JsNum.fin 0

/-- The total of the specification as JavaScript computes a sum: the amounts of the
line items added one after the other, from 0 and in the order of the list, each sum
being a sum of doubles. -/
def specTotal (products : List Product) (items : List CartItem) : JsNum :=
  items.foldl (fun sum item => sum.add (lineAmount products item)) (JsNum.fin 0)

/-- The exact value of a finite number (0 for the others). -/
def JsNum.toRat : JsNum → ℚ
  | JsNum.fin x => x
  | _ => 0

/-- The total of the specification in exact arithmetic: the sum over the line items of
effective unit price times quantity, nothing being rounded. -/
def exactTotal (products : List Product) (items : List CartItem) : ℚ :=
  (items.map (fun item =>
    match Product.findById products item.productId with
    | some product =>
      (if product.salePrice.gt (JsNum.fin 0) then product.salePrice else product.price).toRat
        * item.quantity.toRat
    | none => 0)).sum

/-- Whole amounts: every line item has a product, the effective unit price of that
product is a whole number that is not negative, and so is the quantity asked. -/
def wholeAmounts (products : List Product) (items : List CartItem) : Prop :=
  ∀ item ∈ items, ∃ (product : Product) (p q : ℕ),
    Product.findById products item.productId = some product ∧
    (if product.salePrice.gt (JsNum.fin 0) then product.salePrice else product.price) =
      JsNum.fin p ∧
    item.quantity = JsNum.fin q

/-- Every line item's product exists: each lookup is answered, with a product. -/
def productsExist (env : Env) (products : List Product) (items : List CartItem) : Prop :=
  ∀ item ∈ items, env.dbFails (DbOp.productFindById item.productId) = false ∧
    ∃ product, Product.findById products item.productId = some product

/-- A number with at most two decimal places: a whole number of hundredths. -/
def atMostTwoDecimals (x : JsNum) : Prop := ∃ n : ℤ, x = JsNum.fin (n / 100)

/-- The response to a declared total that fails the amount check (lines 36-39). -/
def amountMismatch : Response :=
  { status := 400, body := ResBody.failure "Total amount mismatch. Please try again." }

/-- A product with its stock lowered by `quantity` (line 128): the difference of two
doubles. -/
def Product.lowered (product : Product) (quantity : JsNum) : Product :=
  { product with totalStock := product.totalStock.sub quantity }

/-- A product with another stock. -/
def Product.withStock (product : Product) (stock : JsNum) : Product :=
  { product with totalStock := stock }

/-- What is left of the `stock` of the product `id` once the quantities that the line
items `items` ask of it are taken off, one after the other and in the order of the
list, each difference being a difference of doubles. -/
def stockAfter (id : String) : JsNum → List CartItem → JsNum
  | stock, [] => stock
  | stock, item :: rest =>
    stockAfter id (if item.productId = id then stock.sub item.quantity else stock) rest

/-- The comparison `x >= 0` of the specification: `x` is a number that is not negative.
It differs from the negation of `x < 0` on `NaN` only. -/
def JsNum.geZero : JsNum → Bool
  | JsNum.fin x => decide (0 ≤ x)
  | JsNum.inf neg => !neg
  | JsNum.nan => false

/-- The quantity of the product `id` that the line items `items` ask for, in all and in
exact arithmetic. -/
def orderedQuantity (id : String) (items : List CartItem) : ℚ :=
  ((items.filter (fun item => item.productId == id)).map
    (fun item => item.quantity.toRat)).sum

/-- The line items `items` are in stock, one after the other: each has a product, and
the comparison of line 121 finds that what the line items before it leave of that
product is not less than the quantity it asks. -/
def inStock (products : List Product) (items : List CartItem) : Prop :=
  ∀ (earlier later : List CartItem) (item : CartItem), items = earlier ++ item :: later →
    ∃ product, Product.findById products item.productId = some product ∧
      (stockAfter item.productId product.totalStock earlier).lt item.quantity = false

/-- The store answers: no store operation rejects during the request. -/
def storeAnswers (env : Env) : Prop := ∀ op : DbOp, env.dbFails op = false

/-- The two states of an order: `pending`/`pending` and `confirmed`/`paid`. -/
def Order.validStatus (order : Order) : Prop :=
  (order.orderStatus = "pending" ∧ order.paymentStatus = "pending") ∨
  (order.orderStatus = "confirmed" ∧ order.paymentStatus = "paid")

/-- A request to one of the four routes of the controller. -/
inductive Request where
  | createOrder (body : CreateOrderBody)
  | capturePayment (body : CaptureBody)
  | getAllOrdersByUser (userId : String)
  | getOrderDetails (id : String)

/-- The handler of a request. -/
def handle (env : Env) : Request → Store → Outcome
  | Request.createOrder body, store => createOrder env body store
  | Request.capturePayment body, store => capturePayment env body store
  | Request.getAllOrdersByUser userId, store => getAllOrdersByUser env userId store
  | Request.getOrderDetails id, store => getOrderDetails env id store

/-- The stores reachable from a store without orders by requests to the four routes,
each in an environment of its own. -/
inductive Reachable : Store → Prop where
  | init (products : List Product) (carts : List Cart) :
      Reachable { products := products, carts := carts, orders := [] }
  | step {store : Store} (env : Env) (request : Request) :
      Reachable store → Reachable (handle env request store).store

/-- The test `s.startsWith(start)`. -/
def startsWith (s start : String) : Bool := start.data.isPrefixOf s.data

/-- The value of a decimal digit. -/
def digitValue (c : Char) : ℕ := c.toNat - 48

/-- The number that a list of decimal digits writes. -/
def decodeDigits (cs : List Char) : ℕ := cs.foldl (fun acc c => acc * 10 + digitValue c) 0

/-- The line items `items`, `n` times over. -/
def repeated : ℕ → List CartItem → List CartItem
  | 0, _ => []
  | n + 1, items => items ++ repeated n items

/-- A response to an unexpected failure: 500 with one of the generic messages of the
`catch` blocks. -/
def Response.isInternalError (r : Response) : Prop :=
  r.status = 500 ∧
  (r.body = ResBody.failure "Error while creating payment intent!" ∨
    r.body = ResBody.failure "Some error occurred!" ∨
    r.body = ResBody.failure "Some error occured!")

/-- A response to an expected business error: 400 or 404 with the message that
describes it. -/
def Response.isBusinessError (r : Response) : Prop :=
  r = { status := 400, body := ResBody.failure "Total amount mismatch. Please try again." } ∨
  (∃ productId : String,
    r = { status := 404,
          body := ResBody.failure ("Product with ID " ++ productId ++ " not found") }) ∨
  r = { status := 404, body := ResBody.failure "Order can not be found" } ∨
  (∃ title : String,
    r = { status := 404, body := ResBody.failure ("Product not found: " ++ title) }) ∨
  (∃ title : String,
    r = { status := 400,
          body := ResBody.failure ("Not enough stock for product: " ++ title) }) ∨
  r = { status := 400, body := ResBody.failure "Payment failed" } ∨
  r = { status := 404, body := ResBody.failure "No orders found!" } ∨
  r = { status := 404, body := ResBody.failure "Order not found!" }

/-- A response to a request that went through: 200 or 201 with `success: true`. -/
def Response.isSuccess (r : Response) : Prop :=
  (r.status = 200 ∨ r.status = 201) ∧ r.body.success = true

/-! ## Fixtures, after `order-controller-unit.test.js` -/

/-- The product of the unit tests: price 50, no sale price, 10 in stock. -/
def mockProduct : Product :=
  { _id := "prod1", title := "Test Product", price := JsNum.fin 50, salePrice := JsNum.fin 0,
    totalStock := JsNum.fin 10 }

/-- A payment collaborator that answers as the mocks of the unit tests do. -/
def mockStripe : Stripe :=
  { create := fun _ => some { id := "pi_test123", client_secret := "pi_test123_secret_test" }
    confirm := fun paymentIntentId _ => some { id := paymentIntentId, status := "succeeded" } }

/-- A payment collaborator whose `create` rejects (`mockRejectedValue`). -/
def rejectingStripe : Stripe :=
  { create := fun _ => none
    confirm := fun paymentIntentId _ => some { id := paymentIntentId, status := "succeeded" } }

/-- An environment in which no store operation rejects. -/
def testEnv (stripe : Stripe) : Env :=
  { dbFails := fun _ => false, stripe := stripe, newOrderId := "order123", now := fun n => n }

/-- A store holding `mockProduct` only. -/
def testStore : Store := { products := [mockProduct], carts := [], orders := [] }

/-- A line item for `quantity` units of the product `productId`, priced 50 by the client. -/
def lineItem (productId : String) (quantity : JsNum) : CartItem :=
  { productId := productId, title := "Test Product", image := "test.jpg",
    price := JsNum.fin 50, quantity := quantity }

/-- The request body of the unit tests with the given `cartItems` and `totalAmount`. -/
def orderData (cartItems : Option (List CartItem)) (totalAmount : JsVal) : CreateOrderBody :=
  { userId := JsVal.str "user123", cartItems := cartItems, addressInfo := none,
    orderStatus := JsVal.str "pending", paymentMethod := JsVal.str "stripe",
    paymentStatus := JsVal.str "pending", totalAmount := totalAmount,
    orderDate := JsVal.undefined, orderUpdateDate := JsVal.undefined,
    cartId := JsVal.str "cart123" }

/-- The request body of the test "should handle missing data gracefully": only
`cartItems: []` and `totalAmount: 100` are present. -/
def missingFieldsBody : CreateOrderBody :=
  { userId := JsVal.undefined, cartItems := some [], addressInfo := none,
    orderStatus := JsVal.undefined, paymentMethod := JsVal.undefined,
    paymentStatus := JsVal.undefined, totalAmount := JsVal.num (JsNum.fin 100),
    orderDate := JsVal.undefined, orderUpdateDate := JsVal.undefined,
    cartId := JsVal.undefined }

/-- A second product: 5 in stock. -/
def secondProduct : Product :=
  { _id := "prod2", title := "Second Product", price := JsNum.fin 20,
    salePrice := JsNum.fin 0, totalStock := JsNum.fin 5 }

/-- The order of the capture tests, with the given line items. -/
def mockOrder (cartItems : List CartItem) : Order :=
  { _id := "order123", userId := JsVal.str "user123", cartId := JsVal.str "cart123",
    cartItems := cartItems, addressInfo := none, orderStatus := "pending",
    paymentMethod := "stripe", paymentStatus := "pending", totalAmount := JsNum.fin 100,
    orderDate := 0, orderUpdateDate := 0, paymentId := JsVal.str "pi_test123",
    payerId := JsVal.null }

/-- The cart of the capture tests. -/
def mockCart : Cart :=
  { _id := "cart123", userId := JsVal.str "user123",
    items := [{ productId := "prod1", quantity := JsNum.fin 2 }] }

/-- A store holding both products, the cart and the order with the given line items. -/
def captureStore (cartItems : List CartItem) : Store :=
  { products := [mockProduct, secondProduct], carts := [mockCart],
    orders := [mockOrder cartItems] }

/-- The request body of the capture tests. -/
def paymentData : CaptureBody :=
  { paymentIntentId := JsVal.str "pi_test123", orderId := JsVal.str "order123" }

/-- A payment collaborator whose `confirm` reports a payment that needs an action. -/
def decliningStripe : Stripe :=
  { create := fun _ => some { id := "pi_test123", client_secret := "pi_test123_secret_test" }
    confirm := fun paymentIntentId _ =>
      some { id := paymentIntentId, status := "requires_action" } }

/-- A clock and a random source that always give the same values. -/
def testEntropy : Entropy :=
  { now := fun _ => 1700000000000, random := fun _ => "abc123xyz" }

/-- An environment in which every store operation rejects. -/
def brokenEnv : Env :=
  { dbFails := fun _ => true, stripe := mockStripe, newOrderId := "order123",
    now := fun n => n }

/-- The order of the capture tests once confirmed and paid. -/
def confirmedOrder (cartItems : List CartItem) : Order :=
  { mockOrder cartItems with orderStatus := "confirmed", paymentStatus := "paid" }

/-- The store of the capture tests with the order already confirmed and paid. -/
def confirmedStore (cartItems : List CartItem) : Store :=
  { products := [mockProduct, secondProduct], carts := [mockCart],
    orders := [confirmedOrder cartItems] }

/-- An address of the user. -/
def testAddress : ClientAddress :=
  { _id := "addr1", address := "123 Main St", city := "Test City", pincode := "12345",
    phone := "5550100", notes := "" }

/-- The cart item of the client for `quantity` units of the mock product. -/
def clientItem (quantity : JsNum) : ClientCartItem :=
  { productId := "prod1", title := "Test Product", image := "test.jpg",
    price := JsNum.fin 50, salePrice := JsNum.fin 0, quantity := quantity }

/-- A product priced 9007199254740991, the largest odd whole number that is a double. -/
def costlyProduct : Product :=
  { _id := "prod3", title := "Costly Product", price := JsNum.fin 9007199254740991,
    salePrice := JsNum.fin 0, totalStock := JsNum.fin 10 }

/-- A product with 9007199254740994 in stock: the doubles around that stock are the even
whole numbers. -/
def bulkProduct : Product :=
  { _id := "prod4", title := "Bulk Product", price := JsNum.fin 1, salePrice := JsNum.fin 0,
    totalStock := JsNum.fin 9007199254740994 }

/-- A product priced at the double nearest to 0.015, which is
1080863910568919 / 2^56 = 0.01499999999999999944488848768742172978818416595458984375. -/
def fractionProduct : Product :=
  { _id := "prod5", title := "Fraction Product",
    price := JsNum.fin (1080863910568919 / 72057594037927936), salePrice := JsNum.fin 0,
    totalStock := JsNum.fin 10 }

/-- A store holding the mock product, the costly product, the bulk product and the
fraction product, the cart, and the order of the capture tests with the given line
items. -/
def wideStore (cartItems : List CartItem) : Store :=
  { products := [mockProduct, costlyProduct, bulkProduct, fractionProduct],
    carts := [mockCart], orders := [mockOrder cartItems] }

/-- The wide store with the order already confirmed and paid. -/
def wideConfirmedStore (cartItems : List CartItem) : Store :=
  { products := [mockProduct, costlyProduct, bulkProduct, fractionProduct],
    carts := [mockCart], orders := [confirmedOrder cartItems] }

/-! ## Lemmas on the arithmetic of doubles -/

theorem floor_eq_of_abs_lt {y : ℚ} {n : ℤ} (h : |y - n| < 1 / 2) :
    ⌊y⌋ = n ∨ ⌊y⌋ = n - 1 := by
  rw [abs_lt] at h
  by_cases hy : (n : ℚ) ≤ y
  · left
    rw [Int.floor_eq_iff]
    constructor <;> linarith
  · right
    rw [Int.floor_eq_iff]
    push_cast
    constructor <;> linarith

/-- A number nearer to the integer `n` than one half rounds to `n`. -/
theorem roundHalfEven_eq {y : ℚ} {n : ℤ} (h : |y - n| < 1 / 2) : roundHalfEven y = n := by
  have h2 := abs_lt.mp h
  rcases floor_eq_of_abs_lt h with hf | hf
  · rw [roundHalfEven, hf, if_pos (by linarith)]
  · have hlt : y < n := by
      by_contra hc
      have : ⌊y⌋ = n := by
        rw [Int.floor_eq_iff]
        constructor <;> linarith
      omega
    rw [roundHalfEven, hf]
    push_cast
    rw [if_neg (by linarith), if_pos (by linarith)]
    ring

theorem roundHalfEven_intCast (n : ℤ) : roundHalfEven (n : ℚ) = n :=
  roundHalfEven_eq (by simp)

/-- A number halfway between the even integer `n` and the next one rounds to `n`. -/
theorem roundHalfEven_tie_even {y : ℚ} {n : ℤ} (h : y = n + 1 / 2) (he : n % 2 = 0) :
    roundHalfEven y = n := by
  have hf : ⌊y⌋ = n := by
    rw [Int.floor_eq_iff]
    constructor <;> linarith
  rw [roundHalfEven, hf, if_neg (by linarith), if_neg (by linarith), if_pos he]

theorem roundHalfEven_nonneg {y : ℚ} (h : 0 ≤ y) : 0 ≤ roundHalfEven y := by
  have hf : 0 ≤ ⌊y⌋ := Int.floor_nonneg.mpr h
  rw [roundHalfEven]
  split
  · exact hf
  · split
    · omega
    · split
      · exact hf
      · omega

theorem log_eq_of_bounds {x : ℚ} {k : ℤ} (hlo : (2 : ℚ) ^ k ≤ x) (hhi : x < 2 ^ (k + 1)) :
    Int.log 2 x = k := by
  have hx : 0 < x := lt_of_lt_of_le (by positivity) hlo
  have h1 : k ≤ Int.log 2 x := by
    rw [← Int.zpow_le_iff_le_log (by norm_num) hx]
    simpa using hlo
  have h2 : Int.log 2 x < k + 1 := by
    rw [← Int.lt_zpow_iff_log_lt (by norm_num) hx]
    simpa using hhi
  omega

/-- The rounding of a positive number of which the binade `2^k ≤ x < 2^(k+1)` is known,
in the range of the normal doubles. -/
theorem JsNum.round_of_pos {x : ℚ} (k n : ℤ) (hlo : (2 : ℚ) ^ k ≤ x) (hhi : x < 2 ^ (k + 1))
    (hk : -1022 ≤ k) (hn : roundHalfEven (x / 2 ^ (k - 52)) = n)
    (hfin : (n : ℚ) * 2 ^ (k - 52) < 2 ^ 1024) :
    JsNum.round x = JsNum.fin (n * 2 ^ (k - 52)) := by
  have hx : 0 < x := lt_of_lt_of_le (by positivity) hlo
  rw [JsNum.round, if_neg (ne_of_gt hx)]
  simp only [abs_of_pos hx, log_eq_of_bounds hlo hhi, max_eq_left hk, hn]
  rw [if_neg (not_le.mpr hfin), if_neg (not_lt.mpr (le_of_lt hx))]

/-- A positive number in the binade `2^k ≤ x < 2^(k+1)` that is a whole multiple of
`2^(k-52)` is a double: rounding leaves it as it is. -/
theorem JsNum.round_of_exact {x : ℚ} (k n : ℤ) (hlo : (2 : ℚ) ^ k ≤ x) (hhi : x < 2 ^ (k + 1))
    (hk : -1022 ≤ k) (hn : x / 2 ^ (k - 52) = n) (hfin : x < 2 ^ 1024) :
    JsNum.round x = JsNum.fin x := by
  have hx : (n : ℚ) * 2 ^ (k - 52) = x := by
    rw [← hn, div_mul_cancel₀ _ (by positivity)]
  rw [JsNum.round_of_pos k n hlo hhi hk (by rw [hn]; exact roundHalfEven_intCast n)
    (by rw [hx]; exact hfin), hx]

/-- A positive number in the binade `2^k ≤ x < 2^(k+1)` rounds to the multiple `y` of
`2^(k-52)` that is nearer to it than half of `2^(k-52)`. -/
theorem JsNum.round_of_near {x y : ℚ} (k n : ℤ) (hlo : (2 : ℚ) ^ k ≤ x) (hhi : x < 2 ^ (k + 1))
    (hk : -1022 ≤ k) (hn : |x / 2 ^ (k - 52) - n| < 1 / 2) (hy : y = n * 2 ^ (k - 52))
    (hfin : y < 2 ^ 1024) :
    JsNum.round x = JsNum.fin y := by
  rw [JsNum.round_of_pos k n hlo hhi hk (roundHalfEven_eq hn) (by rw [← hy]; exact hfin), hy]

/-- A positive number in the binade `2^k ≤ x < 2^(k+1)` that is halfway between two
multiples of `2^(k-52)` rounds to the even one. -/
theorem JsNum.round_of_tie {x y : ℚ} (k n : ℤ) (hlo : (2 : ℚ) ^ k ≤ x) (hhi : x < 2 ^ (k + 1))
    (hk : -1022 ≤ k) (hn : x / 2 ^ (k - 52) = n + 1 / 2) (he : n % 2 = 0)
    (hy : y = n * 2 ^ (k - 52)) (hfin : y < 2 ^ 1024) :
    JsNum.round x = JsNum.fin y := by
  rw [JsNum.round_of_pos k n hlo hhi hk (roundHalfEven_tie_even hn he)
    (by rw [← hy]; exact hfin), hy]

theorem JsNum.round_zero : JsNum.round 0 = JsNum.fin 0 := by
  rw [JsNum.round, if_pos rfl]

/-- Rounding commutes with the change of sign. -/
theorem JsNum.round_neg (x : ℚ) : JsNum.round (-x) = (JsNum.round x).neg := by
  by_cases hx : x = 0
  · subst hx
    simp [JsNum.round_zero, JsNum.neg]
  · have hx2 : ¬ (-x = 0) := by simpa using hx
    rw [JsNum.round, JsNum.round, if_neg hx, if_neg hx2]
    simp only [abs_neg]
    split
    · rcases lt_or_gt_of_ne hx with h | h
      · simp [JsNum.neg, h, le_of_lt h, not_lt.mpr (le_of_lt h)]
      · simp [JsNum.neg, h, le_of_lt h, not_lt.mpr (le_of_lt h)]
    · rcases lt_or_gt_of_ne hx with h | h
      · simp [JsNum.neg, h, not_lt.mpr (le_of_lt h)]
      · simp [JsNum.neg, h, not_lt.mpr (le_of_lt h)]

/-- A positive whole number up to `2^53` is a double. -/
theorem JsNum.round_natCast_pos (m : ℕ) (h0 : 0 < m) (h1 : m ≤ 2 ^ 53) :
    JsNum.round (m : ℚ) = JsNum.fin m := by
  have hL1 : 2 ^ Nat.log 2 m ≤ m := Nat.pow_log_le_self 2 (Nat.pos_iff_ne_zero.mp h0)
  have hL2 : m < 2 ^ (Nat.log 2 m + 1) := Nat.lt_pow_succ_log_self (by norm_num) m
  have hL3 : Nat.log 2 m ≤ 53 := by
    by_contra hc
    have h54 : 2 ^ 54 ≤ 2 ^ Nat.log 2 m := Nat.pow_le_pow_right (by norm_num) (by omega)
    have : (2 : ℕ) ^ 53 < 2 ^ 54 := by norm_num
    omega
  have hlo : (2 : ℚ) ^ ((Nat.log 2 m : ℕ) : ℤ) ≤ (m : ℚ) := by
    rw [zpow_natCast]
    exact_mod_cast hL1
  have hhi : (m : ℚ) < 2 ^ (((Nat.log 2 m : ℕ) : ℤ) + 1) := by
    rw [show ((Nat.log 2 m : ℕ) : ℤ) + 1 = ((Nat.log 2 m + 1 : ℕ) : ℤ) by push_cast; ring,
      zpow_natCast]
    exact_mod_cast hL2
  have hq : (2 : ℚ) ^ (((Nat.log 2 m : ℕ) : ℤ) - 52) = 2 ^ Nat.log 2 m / 2 ^ 52 := by
    rw [zpow_sub₀ (by norm_num), zpow_natCast]
    norm_num
  have hint : ∃ n : ℤ, (m : ℚ) / 2 ^ (((Nat.log 2 m : ℕ) : ℤ) - 52) = n := by
    rw [hq]
    by_cases h52 : Nat.log 2 m ≤ 52
    · obtain ⟨d, hd⟩ := Nat.exists_eq_add_of_le h52
      refine ⟨(m * 2 ^ d : ℕ), ?_⟩
      have h2 : (2 : ℚ) ^ 52 = 2 ^ Nat.log 2 m * 2 ^ d := by rw [hd, pow_add]
      rw [h2]
      push_cast
      field_simp
      ring
    · have h53 : Nat.log 2 m = 53 := by omega
      have hm : m = 2 ^ 53 := by
        rw [h53] at hL1
        omega
      refine ⟨2 ^ 52, ?_⟩
      rw [h53, hm]
      norm_num
  obtain ⟨n, hn⟩ := hint
  have hm : (m : ℚ) ≤ 2 ^ 53 := by exact_mod_cast h1
  have h2 : (2 : ℚ) ^ 53 < 2 ^ 1024 := by norm_num
  exact JsNum.round_of_exact (Nat.log 2 m : ℤ) n hlo hhi (by omega) hn (by linarith)

/-- A whole number between `-2^53` and `2^53` is a double: rounding leaves it as it is. -/
theorem JsNum.round_intCast (n : ℤ) (h : |n| ≤ 2 ^ 53) : JsNum.round (n : ℚ) = JsNum.fin n := by
  have hb : n.natAbs ≤ 2 ^ 53 := by
    have : ((n.natAbs : ℕ) : ℤ) ≤ 2 ^ 53 := by rw [Int.natCast_natAbs]; exact h
    exact_mod_cast this
  rcases lt_trichotomy n 0 with hn | hn | hn
  · have hm : (n : ℚ) = -((n.natAbs : ℕ) : ℚ) := by
      have h2 : (n : ℤ) = -((n.natAbs : ℕ) : ℤ) := by omega
      rw [← Int.cast_natCast, ← Int.cast_neg, ← h2]
    rw [hm, JsNum.round_neg, JsNum.round_natCast_pos _ (by omega) hb]
    rfl
  · subst hn
    simp [JsNum.round_zero]
  · have hm : (n : ℚ) = ((n.natAbs : ℕ) : ℚ) := by
      have h2 : (n : ℤ) = ((n.natAbs : ℕ) : ℤ) := by omega
      rw [← Int.cast_natCast, ← h2]
    rw [hm, JsNum.round_natCast_pos _ (by omega) hb]

/-- A number that is a whole number between `-2^53` and `2^53` is a double. -/
theorem JsNum.round_of_isInt {x : ℚ} (n : ℤ) (hx : x = n) (h : |n| ≤ 2 ^ 53) :
    JsNum.round x = JsNum.fin x := by
  rw [hx, JsNum.round_intCast n h]

/-- A whole number up to `2^53` that is not negative is a double. -/
theorem JsNum.round_natCast (m : ℕ) (h : m ≤ 2 ^ 53) : JsNum.round (m : ℚ) = JsNum.fin m := by
  have := JsNum.round_intCast (m : ℤ) (by
    rw [abs_of_nonneg (by positivity)]
    exact_mod_cast h)
  simpa using this

/-- The sum of two whole numbers is exact up to `2^53`. -/
theorem JsNum.add_natCast (a b : ℕ) (h : a + b ≤ 2 ^ 53) :
    (JsNum.fin a).add (JsNum.fin b) = JsNum.fin ((a + b : ℕ) : ℚ) := by
  rw [JsNum.add, ← Nat.cast_add, JsNum.round_natCast _ h]

/-- The product of two whole numbers is exact up to `2^53`. -/
theorem JsNum.mul_natCast (a b : ℕ) (h : a * b ≤ 2 ^ 53) :
    (JsNum.fin a).mul (JsNum.fin b) = JsNum.fin ((a * b : ℕ) : ℚ) := by
  rw [JsNum.mul, ← Nat.cast_mul, JsNum.round_natCast _ h]

/-- The difference of two whole numbers up to `2^53`, the larger first, is exact. -/
theorem JsNum.sub_natCast (a b : ℕ) (hb : b ≤ a) (h : a ≤ 2 ^ 53) :
    (JsNum.fin a).sub (JsNum.fin b) = JsNum.fin ((a - b : ℕ) : ℚ) := by
  rw [JsNum.sub, ← Nat.cast_sub hb, JsNum.round_natCast _ (by omega)]

/-- The rounding of a number that is not negative is not below zero. -/
theorem JsNum.round_not_neg {x : ℚ} (h : 0 ≤ x) : (JsNum.round x).lt (JsNum.fin 0) = false := by
  rw [JsNum.round]
  split
  · simp [JsNum.lt]
  · simp only [not_lt.mpr h, if_false, decide_False]
    split
    · rfl
    · simp only [JsNum.lt, decide_eq_false_iff_not, not_lt]
      exact mul_nonneg (by exact_mod_cast roundHalfEven_nonneg (div_nonneg (abs_nonneg x)
        (by positivity))) (by positivity)

/-- The comparison of line 121 and the subtraction of line 128: when `a < b` is false,
`a - b` is not below zero. -/
theorem JsNum.sub_not_neg {a b : JsNum} (h : a.lt b = false) :
    (a.sub b).lt (JsNum.fin 0) = false := by
  cases a with
  | nan => cases b <;> rfl
  | inf s =>
    cases b with
    | nan => rfl
    | inf t =>
      cases s <;> cases t <;> simp_all [JsNum.lt, JsNum.sub]
    | fin y =>
      cases s <;> simp_all [JsNum.lt, JsNum.sub]
  | fin x =>
    cases b with
    | nan => rfl
    | inf t => cases t <;> simp_all [JsNum.lt, JsNum.sub]
    | fin y =>
      simp only [JsNum.lt, decide_eq_false_iff_not, not_lt] at h
      exact JsNum.round_not_neg (by linarith)

/-- The rounding of a number that is not negative is `>= 0`. -/
theorem JsNum.round_geZero {x : ℚ} (h : 0 ≤ x) : (JsNum.round x).geZero = true := by
  rw [JsNum.round]
  split
  · simp [JsNum.geZero]
  · simp only [not_lt.mpr h, if_false, decide_False]
    split
    · rfl
    · simp only [JsNum.geZero, decide_eq_true_eq]
      exact mul_nonneg (by exact_mod_cast roundHalfEven_nonneg (div_nonneg (abs_nonneg x)
        (by positivity))) (by positivity)

/-- The comparison of line 121 and the subtraction of line 128, for a stock that is
`>= 0` and a finite quantity: when `a < b` is false, `a - b` is `>= 0`. -/
theorem JsNum.sub_geZero {a : JsNum} {y : ℚ} (ha : a.geZero = true)
    (h : a.lt (JsNum.fin y) = false) : (a.sub (JsNum.fin y)).geZero = true := by
  cases a with
  | nan => simp [JsNum.geZero] at ha
  | inf s => cases s <;> simp_all [JsNum.geZero, JsNum.sub]
  | fin x =>
    simp only [JsNum.lt, decide_eq_false_iff_not, not_lt] at h
    exact JsNum.round_geZero (by linarith)

theorem nearestInt_eq {x : ℚ} {n : ℤ} (h0 : (n : ℚ) - 1 / 2 ≤ x) (h1 : x < n + 1 / 2) :
    nearestInt x = n := by
  rw [nearestInt, Int.floor_eq_iff]
  constructor <;> linarith

theorem nearestInt_intCast (n : ℤ) : nearestInt (n : ℚ) = n :=
  nearestInt_eq (by linarith) (by linarith)

/-- The nearest integer is within one half. -/
theorem abs_nearestInt_sub_le (x : ℚ) : |((nearestInt x : ℤ) : ℚ) - x| ≤ 1 / 2 := by
  have h1 : ((nearestInt x : ℤ) : ℚ) ≤ x + 1 / 2 := Int.floor_le _
  have h2 : x + 1 / 2 < ((nearestInt x : ℤ) : ℚ) + 1 := Int.lt_floor_add_one _
  rw [abs_le]
  constructor <;> linarith

/-- A non-negative number below `10^21` prints as its rounded number of hundredths. -/
theorem toFixed2_of_nonneg {x : ℚ} (h0 : 0 ≤ x) (h1 : x < 10 ^ 21) :
    toFixed2 x = Fixed2.small false (nearestInt (x * 100)).toNat := by
  simp [toFixed2, not_lt.mpr h0, not_le.mpr h1]

/-- A negative number above `-10^21` prints as a minus sign and the rounded number of
hundredths of its opposite. -/
theorem toFixed2_of_neg {x : ℚ} (h0 : x < 0) (h1 : -(10 ^ 21) < x) :
    toFixed2 x = Fixed2.small true (nearestInt (-x * 100)).toNat := by
  have h2 : ¬ ((10 : ℚ) ^ 21 ≤ -x) := by linarith
  simp [toFixed2, h0, h2]

theorem toFixed2_100 : (JsNum.fin 100).toFixed2 = Fixed2.small false 10000 := by
  rw [JsNum.toFixed2, toFixed2_of_nonneg (by norm_num) (by norm_num),
    nearestInt_eq (by norm_num : ((10000 : ℤ) : ℚ) - 1 / 2 ≤ 100 * 100) (by norm_num)]
  rfl

theorem toFixed2_150 : (JsNum.fin 150).toFixed2 = Fixed2.small false 15000 := by
  rw [JsNum.toFixed2, toFixed2_of_nonneg (by norm_num) (by norm_num),
    nearestInt_eq (by norm_num : ((15000 : ℤ) : ℚ) - 1 / 2 ≤ 150 * 100) (by norm_num)]
  rfl

theorem toFixed2_100_and_256th :
    (JsNum.fin (100 + 1 / 256)).toFixed2 = Fixed2.small false 10000 := by
  rw [JsNum.toFixed2, toFixed2_of_nonneg (by norm_num) (by norm_num),
    nearestInt_eq (by norm_num : ((10000 : ℤ) : ℚ) - 1 / 2 ≤ (100 + 1 / 256) * 100)
      (by norm_num)]
  rfl

theorem toFixed2_0 : (JsNum.fin 0).toFixed2 = Fixed2.small false 0 := by
  rw [JsNum.toFixed2, toFixed2_of_nonneg (by norm_num) (by norm_num),
    nearestInt_eq (by norm_num : ((0 : ℤ) : ℚ) - 1 / 2 ≤ 0 * 100) (by norm_num)]
  rfl

/-- Whole numbers of the examples: 50 times 2 is 100, and 0 plus 100 is 100. -/
theorem total_of_two_at_50 :
    (JsNum.fin 0).add ((JsNum.fin 50).mul (JsNum.fin 2)) = JsNum.fin 100 := by
  have h1 : (JsNum.fin 50).mul (JsNum.fin 2) = JsNum.fin 100 := by
    rw [JsNum.mul, JsNum.round_of_isInt 100 (by norm_num) (by norm_num)]
    norm_num
  rw [h1, JsNum.add, JsNum.round_of_isInt 100 (by norm_num) (by norm_num)]
  norm_num

/-- A total of 100 is 10000 minor units. -/
theorem mathRound_100_times_100 :
    mathRound ((JsNum.fin 100).mul (JsNum.fin 100)) = JsNum.fin 10000 := by
  rw [JsNum.mul, JsNum.round_of_isInt 10000 (by norm_num) (by norm_num), mathRound,
    nearestInt_eq (by norm_num : ((10000 : ℤ) : ℚ) - 1 / 2 ≤ 100 * 100) (by norm_num)]
  norm_num

/-- A total of 0 is 0 minor units. -/
theorem mathRound_0_times_100 :
    mathRound ((JsNum.fin 0).mul (JsNum.fin 100)) = JsNum.fin 0 := by
  rw [JsNum.mul, show (0 : ℚ) * 100 = 0 by norm_num, JsNum.round_zero, mathRound,
    nearestInt_eq (by norm_num : ((0 : ℤ) : ℚ) - 1 / 2 ≤ 0) (by norm_num)]
  norm_num

/-- The 256th part of 50 is the double 0.1953125; 100 times it is the double 19.53125,
which `Math.round` takes to 20. -/
theorem total_of_256th_at_50 :
    (JsNum.fin 0).add ((JsNum.fin 50).mul (JsNum.fin (1 / 256))) = JsNum.fin (25 / 128) ∧
    mathRound ((JsNum.fin (25 / 128)).mul (JsNum.fin 100)) = JsNum.fin 20 := by
  have h1 : JsNum.round (25 / 128) = JsNum.fin (25 / 128) :=
    JsNum.round_of_exact (-3) 7036874417766400 (by norm_num) (by norm_num) (by norm_num)
      (by norm_num) (by norm_num)
  have h2 : JsNum.round (625 / 32) = JsNum.fin (625 / 32) :=
    JsNum.round_of_exact 4 5497558138880000 (by norm_num) (by norm_num) (by norm_num)
      (by norm_num) (by norm_num)
  constructor
  · rw [JsNum.mul, show (50 : ℚ) * (1 / 256) = 25 / 128 by norm_num, h1, JsNum.add,
      show (0 : ℚ) + 25 / 128 = 25 / 128 by norm_num, h1]
  · rw [JsNum.mul, show (25 / 128 : ℚ) * 100 = 625 / 32 by norm_num, h2, mathRound,
      nearestInt_eq (by norm_num : ((20 : ℤ) : ℚ) - 1 / 2 ≤ 625 / 32) (by norm_num)]
    norm_num

/-- Three times 9007199254740991 is 27021597764222973, which is not a double: the
product of the two doubles is 27021597764222972. -/
theorem total_of_three_costly :
    (JsNum.fin 0).add ((JsNum.fin 9007199254740991).mul (JsNum.fin 3)) =
      JsNum.fin 27021597764222972 := by
  have h1 : (JsNum.fin 9007199254740991).mul (JsNum.fin 3) = JsNum.fin 27021597764222972 := by
    rw [JsNum.mul]
    exact JsNum.round_of_near 54 6755399441055743 (by norm_num) (by norm_num) (by norm_num)
      (by rw [abs_lt]; constructor <;> norm_num) (by norm_num) (by norm_num)
  rw [h1, JsNum.add]
  exact JsNum.round_of_near 54 6755399441055743 (by norm_num) (by norm_num) (by norm_num)
    (by rw [abs_lt]; constructor <;> norm_num) (by norm_num) (by norm_num)

/-- One less than 9007199254740994 is halfway between two doubles: the difference of
the two doubles is 9007199254740992. -/
theorem bulk_stock_less_one :
    (JsNum.fin 9007199254740994).sub (JsNum.fin 1) = JsNum.fin 9007199254740992 := by
  rw [JsNum.sub]
  exact JsNum.round_of_tie 53 4503599627370496 (by norm_num) (by norm_num) (by norm_num)
    (by norm_num) (by norm_num) (by norm_num) (by norm_num)

theorem ten_less_two : (JsNum.fin 10).sub (JsNum.fin 2) = JsNum.fin 8 := by
  rw [JsNum.sub, JsNum.round_of_isInt 8 (by norm_num) (by norm_num)]
  norm_num

theorem ten_less_three : (JsNum.fin 10).sub (JsNum.fin 3) = JsNum.fin 7 := by
  rw [JsNum.sub, JsNum.round_of_isInt 7 (by norm_num) (by norm_num)]
  norm_num

theorem eight_less_two : (JsNum.fin 8).sub (JsNum.fin 2) = JsNum.fin 6 := by
  rw [JsNum.sub, JsNum.round_of_isInt 6 (by norm_num) (by norm_num)]
  norm_num

/-! ## Lemmas on the loop and on the handler -/

theorem productsExist_cons {env : Env} {products : List Product} {item : CartItem}
    {rest : List CartItem} (h : productsExist env products (item :: rest)) :
    (env.dbFails (DbOp.productFindById item.productId) = false ∧
      ∃ product, Product.findById products item.productId = some product) ∧
    productsExist env products rest :=
  ⟨h item (List.mem_cons_self _ _), fun i hi => h i (List.mem_cons_of_mem _ hi)⟩

theorem specTotal_nil (products : List Product) : specTotal products [] = JsNum.fin 0 := rfl

theorem lineAmount_found {products : List Product} {item : CartItem} {product : Product}
    (h : Product.findById products item.productId = some product) :
    lineAmount products item = (effectivePrice product).mul item.quantity := by
  simp [lineAmount, h, effectivePrice]

/-- When every product is found the loop ends with the running total to which the
amounts of the line items were added, one after the other. -/
theorem serverTotalAmount_of_exist (env : Env) (products : List Product) :
    ∀ (items : List CartItem) (acc : JsNum), productsExist env products items →
      serverTotalAmount env products items acc =
        TotalResult.total
          (items.foldl (fun sum item => sum.add (lineAmount products item)) acc)
  | [], acc, _ => by simp [serverTotalAmount]
  | item :: rest, acc, h => by
    obtain ⟨⟨hdb, product, hp⟩, hrest⟩ := productsExist_cons h
    rw [serverTotalAmount, if_neg (by simp [hdb])]
    simp only [hp]
    rw [serverTotalAmount_of_exist env products rest _ hrest, List.foldl_cons,
      lineAmount_found hp]

/-- The loop from 0, every product found. -/
theorem serverTotalAmount_zero_of_exist {env : Env} {products : List Product}
    {items : List CartItem} (h : productsExist env products items) :
    serverTotalAmount env products items (JsNum.fin 0) =
      TotalResult.total (specTotal products items) :=
  serverTotalAmount_of_exist env products items (JsNum.fin 0) h

/-- The loop stops at the first line item without product. -/
theorem serverTotalAmount_of_missing (env : Env) (products : List Product) (bad : CartItem)
    (post : List CartItem)
    (hdb : env.dbFails (DbOp.productFindById bad.productId) = false)
    (hbad : Product.findById products bad.productId = none) :
    ∀ (pre : List CartItem) (acc : JsNum), productsExist env products pre →
      serverTotalAmount env products (pre ++ bad :: post) acc =
        TotalResult.notFound bad.productId
  | [], acc, _ => by
    rw [List.nil_append, serverTotalAmount, if_neg (by simp [hdb])]
    simp only [hbad]
  | item :: rest, acc, h => by
    obtain ⟨⟨hdb1, product, hp⟩, hrest⟩ := productsExist_cons h
    rw [List.cons_append, serverTotalAmount, if_neg (by simp [hdb1])]
    simp only [hp]
    exact serverTotalAmount_of_missing env products bad post hdb hbad rest _ hrest

/-- The loop reads of a line item its `productId` and its `quantity` only. -/
theorem serverTotalAmount_congr (env : Env) (products : List Product) :
    ∀ (items items2 : List CartItem) (acc : JsNum),
      items2.map (fun i => (i.productId, i.quantity)) =
        items.map (fun i => (i.productId, i.quantity)) →
      serverTotalAmount env products items2 acc = serverTotalAmount env products items acc
  | [], [], _, _ => rfl
  | [], _ :: _, _, h => by simp at h
  | _ :: _, [], _, h => by simp at h
  | item :: rest, item2 :: rest2, acc, h => by
    simp only [List.map_cons, List.cons.injEq, Prod.mk.injEq] at h
    obtain ⟨⟨hid, hq⟩, hrest⟩ := h
    rw [serverTotalAmount, serverTotalAmount, hid, hq]
    split
    · rfl
    · split
      · rfl
      · exact serverTotalAmount_congr env products rest rest2 _ hrest

/-- The handler after a loop that ran to its end, for a numeric declared total. -/
theorem createOrder_of_total {env : Env} {body : CreateOrderBody} {store : Store}
    {items : List CartItem} {total d : JsNum} (hitems : body.cartItems = some items)
    (htotal : serverTotalAmount env store.products items (JsNum.fin 0) =
      TotalResult.total total)
    (hnum : body.totalAmount = JsVal.num d) :
    createOrder env body store =
      if d.toFixed2 ≠ total.toFixed2 then
        { res := amountMismatch, store := store, stripeCreateCalls := [],
          stripeConfirmCalls := [] }
      else
        match env.stripe.create (paymentIntentParams body.userId total) with
        | none =>
          { res := createOrderCatch, store := store,
            stripeCreateCalls := [paymentIntentParams body.userId total],
            stripeConfirmCalls := [] }
        | some paymentIntent =>
          if env.dbFails (DbOp.orderSave env.newOrderId) then
            { res := createOrderCatch, store := store,
              stripeCreateCalls := [paymentIntentParams body.userId total],
              stripeConfirmCalls := [] }
          else
            { res := { status := 201,
                       body := ResBody.created paymentIntent.client_secret env.newOrderId
                         paymentIntent.id },
              store := { store with orders := store.orders ++
                [newlyCreatedOrder env body items total paymentIntent] },
              stripeCreateCalls := [paymentIntentParams body.userId total],
              stripeConfirmCalls := [] } := by
  simp only [createOrder, hitems, htotal, hnum, JsVal.toFixed2, amountMismatch,
    newlyCreatedOrder]

/-- The exact total of line items of which the first has a whole price and a whole
quantity. -/
theorem exactTotal_cons_whole {products : List Product} {item : CartItem} {product : Product}
    {p q : ℕ} (rest : List CartItem)
    (hfind : Product.findById products item.productId = some product)
    (hp : effectivePrice product = JsNum.fin p) (hq : item.quantity = JsNum.fin q) :
    exactTotal products (item :: rest) = ((p * q : ℕ) : ℚ) + exactTotal products rest := by
  rw [effectivePrice] at hp
  simp [exactTotal, hfind, hp, hq, JsNum.toRat]

/-- The exact total of whole amounts is a whole number. -/
theorem exactTotal_isNat (products : List Product) :
    ∀ items : List CartItem, wholeAmounts products items →
      ∃ n : ℕ, exactTotal products items = n
  | [], _ => ⟨0, by simp [exactTotal]⟩
  | item :: rest, h => by
    obtain ⟨product, p, q, hfind, hp, hq⟩ := h item (List.mem_cons_self _ _)
    obtain ⟨n, hn⟩ := exactTotal_isNat products rest (fun i hi => h i (List.mem_cons_of_mem _ hi))
    refine ⟨p * q + n, ?_⟩
    rw [exactTotal_cons_whole rest hfind hp hq, hn]
    push_cast
    ring

/-- A sum of whole amounts that stays within `2^53` is computed exactly. -/
theorem foldl_lineAmount_exact (products : List Product) :
    ∀ (items : List CartItem) (a : ℕ), wholeAmounts products items →
      (a : ℚ) + exactTotal products items ≤ 2 ^ 53 →
      items.foldl (fun sum item => sum.add (lineAmount products item)) (JsNum.fin a) =
        JsNum.fin (a + exactTotal products items)
  | [], a, _, _ => by simp [exactTotal]
  | item :: rest, a, h, hle => by
    obtain ⟨product, p, q, hfind, hp, hq⟩ := h item (List.mem_cons_self _ _)
    have hrest : wholeAmounts products rest := fun i hi => h i (List.mem_cons_of_mem _ hi)
    obtain ⟨n, hn⟩ := exactTotal_isNat products rest hrest
    rw [exactTotal_cons_whole rest hfind hp hq, hn] at hle
    have hle2 : a + p * q + n ≤ 2 ^ 53 := by
      have : ((a + p * q + n : ℕ) : ℚ) ≤ 2 ^ 53 := by
        push_cast at hle ⊢
        linarith
      exact_mod_cast this
    have hline : lineAmount products item = JsNum.fin ((p * q : ℕ) : ℚ) := by
      rw [lineAmount_found hfind, effectivePrice, hp, hq, JsNum.mul_natCast p q (by omega)]
    rw [List.foldl_cons, hline, JsNum.add_natCast a (p * q) (by omega),
      foldl_lineAmount_exact products rest (a + p * q) hrest
        (by rw [hn]; push_cast; push_cast at hle; linarith),
      exactTotal_cons_whole rest hfind hp hq]
    push_cast
    ring_nf

/-- The total of whole amounts is their exact total, when that is at most `2^53`. -/
theorem specTotal_exact {products : List Product} {items : List CartItem}
    (h : wholeAmounts products items) (hle : exactTotal products items ≤ 2 ^ 53) :
    specTotal products items = JsNum.fin (exactTotal products items) := by
  have := foldl_lineAmount_exact products items 0 h (by simpa using hle)
  simpa [specTotal] using this

/-- The loop of `createOrder` ends on a rejected lookup, the line items before it having
a product. -/
theorem serverTotalAmount_of_reject (env : Env) (products : List Product) (bad : CartItem)
    (post : List CartItem)
    (hdb : env.dbFails (DbOp.productFindById bad.productId) = true) :
    ∀ (pre : List CartItem) (acc : JsNum), productsExist env products pre →
      serverTotalAmount env products (pre ++ bad :: post) acc = TotalResult.threw
  | [], acc, _ => by
    rw [List.nil_append, serverTotalAmount, if_pos hdb]
  | item :: rest, acc, h => by
    obtain ⟨⟨hdb1, product, hp⟩, hrest⟩ := productsExist_cons h
    rw [List.cons_append, serverTotalAmount, if_neg (by simp [hdb1])]
    simp only [hp]
    exact serverTotalAmount_of_reject env products bad post hdb rest _ hrest

/-! ## Evaluation on the fixtures -/

theorem productsExist_mock (stripe : Stripe) (quantity : JsNum) :
    productsExist (testEnv stripe) testStore.products [lineItem "prod1" quantity] := by
  intro item hitem
  rw [List.mem_singleton] at hitem
  subst hitem
  exact ⟨rfl, mockProduct, by simp [Product.findById, testStore, lineItem, mockProduct]⟩

theorem specTotal_mock (quantity : JsNum) :
    specTotal testStore.products [lineItem "prod1" quantity] =
      (JsNum.fin 0).add ((JsNum.fin 50).mul quantity) := by
  simp [specTotal, lineAmount, Product.findById, testStore, lineItem, mockProduct, JsNum.gt,
    JsNum.lt]

/-- Two units of the mock product total 100. -/
theorem specTotal_two :
    specTotal testStore.products [lineItem "prod1" (JsNum.fin 2)] = JsNum.fin 100 := by
  rw [specTotal_mock, total_of_two_at_50]

/-- The handler on a cart of `quantity` units of the mock product, of which the total
is `total`. -/
theorem createOrder_mock (stripe : Stripe) (quantity d total : JsNum)
    (htotal : specTotal testStore.products [lineItem "prod1" quantity] = total) :
    createOrder (testEnv stripe) (orderData (some [lineItem "prod1" quantity]) (JsVal.num d))
        testStore =
      if d.toFixed2 ≠ total.toFixed2 then
        { res := amountMismatch, store := testStore, stripeCreateCalls := [],
          stripeConfirmCalls := [] }
      else
        match stripe.create (paymentIntentParams (JsVal.str "user123") total) with
        | none =>
          { res := createOrderCatch, store := testStore,
            stripeCreateCalls := [paymentIntentParams (JsVal.str "user123") total],
            stripeConfirmCalls := [] }
        | some paymentIntent =>
          { res := { status := 201,
                     body := ResBody.created paymentIntent.client_secret "order123"
                       paymentIntent.id },
            store := { testStore with orders := testStore.orders ++
              [newlyCreatedOrder (testEnv stripe)
                (orderData (some [lineItem "prod1" quantity]) (JsVal.num d))
                [lineItem "prod1" quantity] total paymentIntent] },
            stripeCreateCalls := [paymentIntentParams (JsVal.str "user123") total],
            stripeConfirmCalls := [] } := by
  have hloop : serverTotalAmount (testEnv stripe) testStore.products
      [lineItem "prod1" quantity] (JsNum.fin 0) = TotalResult.total total := by
    rw [serverTotalAmount_zero_of_exist (productsExist_mock stripe quantity), htotal]
  have hnum : (orderData (some [lineItem "prod1" quantity]) (JsVal.num d)).totalAmount =
      JsVal.num d := rfl
  rw [createOrder_of_total rfl hloop hnum]
  rfl

/-- Whole amounts of the unit tests: a price of 50 and a quantity of 2. -/
theorem wholeAmounts_mock :
    wholeAmounts testStore.products [lineItem "prod1" (JsNum.fin 2)] := by
  intro item hitem
  rw [List.mem_singleton] at hitem
  subst hitem
  refine ⟨mockProduct, 50, 2, by simp [Product.findById, testStore, lineItem, mockProduct],
    ?_, ?_⟩
  · simp [mockProduct, JsNum.gt, JsNum.lt]
  · simp [lineItem]

theorem exactTotal_mock :
    exactTotal testStore.products [lineItem "prod1" (JsNum.fin 2)] = 100 := by
  simp [exactTotal, Product.findById, testStore, lineItem, mockProduct, JsNum.gt, JsNum.lt,
    JsNum.toRat]
  norm_num

theorem productsExist_costly (stripe : Stripe) (cartItems : List CartItem) (quantity : JsNum) :
    productsExist (testEnv stripe) (wideStore cartItems).products
      [lineItem "prod3" quantity] := by
  intro item hitem
  rw [List.mem_singleton] at hitem
  subst hitem
  exact ⟨rfl, costlyProduct,
    by simp [Product.findById, wideStore, lineItem, mockProduct, costlyProduct]⟩

theorem specTotal_costly (cartItems : List CartItem) (quantity : JsNum) :
    specTotal (wideStore cartItems).products [lineItem "prod3" quantity] =
      (JsNum.fin 0).add ((JsNum.fin 9007199254740991).mul quantity) := by
  simp [specTotal, lineAmount, Product.findById, wideStore, lineItem, mockProduct,
    costlyProduct, JsNum.gt, JsNum.lt]

theorem productsExist_fraction (stripe : Stripe) (cartItems : List CartItem)
    (quantity : JsNum) :
    productsExist (testEnv stripe) (wideStore cartItems).products
      [lineItem "prod5" quantity] := by
  intro item hitem
  rw [List.mem_singleton] at hitem
  subst hitem
  exact ⟨rfl, fractionProduct,
    by simp [Product.findById, wideStore, lineItem, mockProduct, costlyProduct, bulkProduct,
      fractionProduct]⟩

theorem specTotal_fraction (cartItems : List CartItem) (quantity : JsNum) :
    specTotal (wideStore cartItems).products [lineItem "prod5" quantity] =
      (JsNum.fin 0).add
        ((JsNum.fin (1080863910568919 / 72057594037927936)).mul quantity) := by
  simp [specTotal, lineAmount, Product.findById, wideStore, lineItem, mockProduct,
    costlyProduct, bulkProduct, fractionProduct, JsNum.gt, JsNum.lt]

/-- One unit at the double nearest to 0.015 totals that double; 100 times it is
1.4999999999999999444888..., which is nearer to the double 1.5 than to any other, and
`Math.round` takes 1.5 to 2. -/
theorem total_of_one_fraction :
    (JsNum.fin 0).add
      ((JsNum.fin (1080863910568919 / 72057594037927936)).mul (JsNum.fin 1)) =
      JsNum.fin (1080863910568919 / 72057594037927936) ∧
    mathRound ((JsNum.fin (1080863910568919 / 72057594037927936)).mul (JsNum.fin 100)) =
      JsNum.fin 2 := by
  have h1 : JsNum.round (1080863910568919 / 72057594037927936) =
      JsNum.fin (1080863910568919 / 72057594037927936) :=
    JsNum.round_of_exact (-7) 8646911284551352 (by norm_num) (by norm_num) (by norm_num)
      (by norm_num) (by norm_num)
  have h2 : JsNum.round (1080863910568919 / 72057594037927936 * 100) = JsNum.fin (3 / 2) :=
    JsNum.round_of_near 0 6755399441055744 (by norm_num) (by norm_num) (by norm_num)
      (by rw [abs_lt]; constructor <;> norm_num) (by norm_num) (by norm_num)
  constructor
  · rw [JsNum.mul, mul_one, h1, JsNum.add, zero_add, h1]
  · rw [JsNum.mul, h2, mathRound,
      nearestInt_eq (by norm_num : ((2 : ℤ) : ℚ) - 1 / 2 ≤ 3 / 2) (by norm_num)]
    norm_num

/-- The handler on a cart of `quantity` units of a product of the wide store, of which
the total is `total`. -/
theorem createOrder_wide (productId : String) (quantity d total : JsNum)
    (hexist : productsExist (testEnv mockStripe) (wideStore []).products
      [lineItem productId quantity])
    (htotal : specTotal (wideStore []).products [lineItem productId quantity] = total)
    (hcheck : d.toFixed2 = total.toFixed2) :
    (createOrder (testEnv mockStripe)
      (orderData (some [lineItem productId quantity]) (JsVal.num d)) (wideStore [])).res.status
      = 201 ∧
    (createOrder (testEnv mockStripe)
      (orderData (some [lineItem productId quantity]) (JsVal.num d))
      (wideStore [])).stripeCreateCalls.map (fun params => params.amount) =
      [mathRound (total.mul (JsNum.fin 100))] := by
  have hloop : serverTotalAmount (testEnv mockStripe) (wideStore []).products
      [lineItem productId quantity] (JsNum.fin 0) = TotalResult.total total := by
    rw [serverTotalAmount_zero_of_exist hexist, htotal]
  have hnum : (orderData (some [lineItem productId quantity]) (JsVal.num d)).totalAmount =
      JsVal.num d := rfl
  rw [createOrder_of_total rfl hloop hnum, if_neg (not_not.mpr hcheck)]
  exact ⟨rfl, rfl⟩

/-! ## Properties of createOrder -/

/-- C1, as stated, fails: three units of a product priced 9007199254740991 are asked;
the product exists, the sum of effective unit price times quantity is
27021597764222973, and the total that the loop of `createOrder` recomputes is
27021597764222972. -/
theorem createOrder_exact_sum_counterexample :
    productsExist (testEnv mockStripe) (wideStore []).products
      [lineItem "prod3" (JsNum.fin 3)] ∧
    serverTotalAmount (testEnv mockStripe) (wideStore []).products
      [lineItem "prod3" (JsNum.fin 3)] (JsNum.fin 0) =
      TotalResult.total (JsNum.fin 27021597764222972) ∧
    exactTotal (wideStore []).products [lineItem "prod3" (JsNum.fin 3)] =
      27021597764222973 ∧
    JsNum.fin 27021597764222972 ≠ JsNum.fin 27021597764222973 := by
  refine ⟨productsExist_costly mockStripe [] _, ?_, ?_, ?_⟩
  · rw [serverTotalAmount_zero_of_exist (productsExist_costly mockStripe [] _),
      specTotal_costly, total_of_three_costly]
  · simp [exactTotal, Product.findById, wideStore, lineItem, mockProduct, costlyProduct,
      JsNum.gt, JsNum.lt, JsNum.toRat]
    norm_num
  · intro h
    rw [JsNum.fin.injEq] at h
    norm_num at h

/-- C1, amended. When every line item's product exists, the total recomputed by the
loop of `createOrder` is the sum over the line items of effective unit price times
quantity (`salePrice` when positive, `price` otherwise) as JavaScript computes it:
from 0 and in the order of the line items, each product and each sum being rounded to
the nearest double. It is the same for any other list of line items with the same
product ids and quantities: the prices, titles and images carried by the request play
no part. It is the exact sum when the effective prices and the quantities are whole
numbers that are not negative and the exact sum is at most 2^53. -/
theorem createOrder_recomputes_total (env : Env) (products : List Product)
    (items : List CartItem) (h : productsExist env products items) :
    serverTotalAmount env products items (JsNum.fin 0) =
      TotalResult.total (specTotal products items) ∧
    (∀ items2 : List CartItem,
      items2.map (fun i => (i.productId, i.quantity)) =
        items.map (fun i => (i.productId, i.quantity)) →
      serverTotalAmount env products items2 (JsNum.fin 0) =
        TotalResult.total (specTotal products items)) ∧
    (wholeAmounts products items → exactTotal products items ≤ 2 ^ 53 →
      serverTotalAmount env products items (JsNum.fin 0) =
        TotalResult.total (JsNum.fin (exactTotal products items))) := by
  have h0 := serverTotalAmount_zero_of_exist h
  refine ⟨h0, fun items2 h2 =>
    (serverTotalAmount_congr env products items items2 (JsNum.fin 0) h2).trans h0, ?_⟩
  intro hwhole hle
  rw [h0, specTotal_exact hwhole hle]

/-- C1, on the cart of the unit tests: two units of the product priced 50 total 100,
which is the exact sum, also when the request prices the line item 999. -/
theorem createOrder_recomputes_total_witness :
    serverTotalAmount (testEnv mockStripe) testStore.products
      [lineItem "prod1" (JsNum.fin 2)] (JsNum.fin 0) = TotalResult.total (JsNum.fin 100) ∧
    serverTotalAmount (testEnv mockStripe) testStore.products
      [{ lineItem "prod1" (JsNum.fin 2) with price := JsNum.fin 999 }] (JsNum.fin 0) =
      TotalResult.total (JsNum.fin 100) ∧
    exactTotal testStore.products [lineItem "prod1" (JsNum.fin 2)] = 100 := by
  have h := createOrder_recomputes_total (testEnv mockStripe) testStore.products
    [lineItem "prod1" (JsNum.fin 2)] (productsExist_mock mockStripe _)
  have hexact := h.2.2 wholeAmounts_mock (by rw [exactTotal_mock]; norm_num)
  rw [exactTotal_mock] at hexact
  have h2 := h.2.1 [{ lineItem "prod1" (JsNum.fin 2) with price := JsNum.fin 999 }] rfl
  rw [specTotal_two] at h2
  exact ⟨hexact, h2, exactTotal_mock⟩

/-- C2, as stated, fails: the cart of the unit tests totals 100, the declared total
100.00390625 differs from it, and the request is accepted with 201, because both print
as 100.00. -/
theorem createOrder_mismatch_counterexample :
    productsExist (testEnv mockStripe) testStore.products [lineItem "prod1" (JsNum.fin 2)] ∧
    specTotal testStore.products [lineItem "prod1" (JsNum.fin 2)] = JsNum.fin 100 ∧
    JsNum.fin (100 + 1 / 256) ≠ JsNum.fin 100 ∧
    (createOrder (testEnv mockStripe)
      (orderData (some [lineItem "prod1" (JsNum.fin 2)])
        (JsVal.num (JsNum.fin (100 + 1 / 256)))) testStore).res.status = 201 := by
  refine ⟨productsExist_mock mockStripe _, specTotal_two, ?_, ?_⟩
  · intro h
    rw [JsNum.fin.injEq] at h
    norm_num at h
  · rw [createOrder_mock mockStripe _ _ _ specTotal_two, if_neg]
    · rfl
    · rw [not_not, toFixed2_100_and_256th, toFixed2_100]

/-- C2, amended. When every line item's product exists and the declared total is a
number whose two-decimal rendering (`toFixed(2)`) differs from that of the recomputed
total, `createOrder` responds 400 with `success: false` and the message "Total amount
mismatch. Please try again.", requests no payment intent and leaves the store as it
was (no order persisted). -/
theorem createOrder_rejects_mismatch (env : Env) (body : CreateOrderBody) (store : Store)
    (items : List CartItem) (d : JsNum) (hitems : body.cartItems = some items)
    (hexist : productsExist env store.products items)
    (hnum : body.totalAmount = JsVal.num d)
    (hne : d.toFixed2 ≠ (specTotal store.products items).toFixed2) :
    (createOrder env body store).res.status = 400 ∧
    (createOrder env body store).res.body.success = false ∧
    (createOrder env body store).res.body.message =
      some "Total amount mismatch. Please try again." ∧
    (createOrder env body store).stripeCreateCalls = [] ∧
    (createOrder env body store).store = store := by
  rw [createOrder_of_total hitems (serverTotalAmount_zero_of_exist hexist) hnum, if_pos hne]
  exact ⟨rfl, rfl, rfl, rfl, rfl⟩

/-- C2, on the unit test: 150 declared for a cart worth 100 is answered 400. -/
theorem createOrder_rejects_mismatch_witness :
    productsExist (testEnv mockStripe) testStore.products [lineItem "prod1" (JsNum.fin 2)] ∧
    (createOrder (testEnv mockStripe)
      (orderData (some [lineItem "prod1" (JsNum.fin 2)]) (JsVal.num (JsNum.fin 150)))
      testStore).res.status = 400 ∧
    (createOrder (testEnv mockStripe)
      (orderData (some [lineItem "prod1" (JsNum.fin 2)]) (JsVal.num (JsNum.fin 150)))
      testStore).stripeCreateCalls = [] ∧
    (createOrder (testEnv mockStripe)
      (orderData (some [lineItem "prod1" (JsNum.fin 2)]) (JsVal.num (JsNum.fin 150)))
      testStore).store = testStore := by
  have hne : (JsNum.fin 150).toFixed2 ≠
      (specTotal testStore.products [lineItem "prod1" (JsNum.fin 2)]).toFixed2 := by
    rw [specTotal_two, toFixed2_150, toFixed2_100]
    decide
  have h := createOrder_rejects_mismatch (testEnv mockStripe)
    (orderData (some [lineItem "prod1" (JsNum.fin 2)]) (JsVal.num (JsNum.fin 150))) testStore
    [lineItem "prod1" (JsNum.fin 2)] (JsNum.fin 150)
    rfl (productsExist_mock mockStripe _) rfl hne
  exact ⟨productsExist_mock mockStripe _, h.1, h.2.2.2.1, h.2.2.2.2⟩

/-- C3. For a numeric declared total `d` and a cart whose products all exist, the
request passes the amount check of `createOrder` (the payment intent is requested) if
and only if `d` and the recomputed total have the same two-decimal rendering
(`toFixed(2)`); otherwise, and only then, the response is the 400 amount mismatch. -/
theorem createOrder_amount_check_iff (env : Env) (body : CreateOrderBody) (store : Store)
    (items : List CartItem) (d : JsNum) (hitems : body.cartItems = some items)
    (hexist : productsExist env store.products items)
    (hnum : body.totalAmount = JsVal.num d) :
    ((createOrder env body store).stripeCreateCalls =
        [paymentIntentParams body.userId (specTotal store.products items)] ↔
      d.toFixed2 = (specTotal store.products items).toFixed2) ∧
    ((createOrder env body store).res = amountMismatch ↔
      d.toFixed2 ≠ (specTotal store.products items).toFixed2) := by
  rw [createOrder_of_total hitems (serverTotalAmount_zero_of_exist hexist) hnum]
  by_cases h : d.toFixed2 = (specTotal store.products items).toFixed2
  · rw [if_neg (not_not.mpr h)]
    constructor
    · refine ⟨fun _ => h, fun _ => ?_⟩
      cases env.stripe.create (paymentIntentParams body.userId (specTotal store.products items))
      · rfl
      · dsimp only
        split <;> rfl
    · refine ⟨fun hres => ?_, fun hne => absurd h hne⟩
      exfalso
      have hstatus := congrArg Response.status hres
      cases hc : env.stripe.create
        (paymentIntentParams body.userId (specTotal store.products items)) with
      | none => rw [hc] at hstatus; simp [createOrderCatch, amountMismatch] at hstatus
      | some paymentIntent =>
        rw [hc] at hstatus
        dsimp only at hstatus
        split at hstatus <;> simp [createOrderCatch, amountMismatch] at hstatus
  · rw [if_pos h]
    exact ⟨⟨fun hcalls => by simp at hcalls, fun heq => absurd heq h⟩, fun _ => h, fun _ => rfl⟩

/-- C3, on the unit tests: 100 declared for a cart worth 100 passes the check. -/
theorem createOrder_amount_check_iff_witness :
    productsExist (testEnv mockStripe) testStore.products [lineItem "prod1" (JsNum.fin 2)] ∧
    (createOrder (testEnv mockStripe)
      (orderData (some [lineItem "prod1" (JsNum.fin 2)]) (JsVal.num (JsNum.fin 100)))
      testStore).stripeCreateCalls =
      [paymentIntentParams (JsVal.str "user123")
        (specTotal testStore.products [lineItem "prod1" (JsNum.fin 2)])] := by
  have h := createOrder_amount_check_iff (testEnv mockStripe)
    (orderData (some [lineItem "prod1" (JsNum.fin 2)]) (JsVal.num (JsNum.fin 100))) testStore
    [lineItem "prod1" (JsNum.fin 2)] (JsNum.fin 100)
    rfl (productsExist_mock mockStripe _) rfl
  refine ⟨productsExist_mock mockStripe _, h.1.mpr ?_⟩
  rw [specTotal_two]

/-- C4. When the line items before `bad` all have a product and `bad` has none,
`createOrder` responds 404 with `success: false` and the message "Product with ID
<productId> not found" naming `bad`, requests no payment intent and leaves the store
as it was, whatever the declared total and the later line items are. -/
theorem createOrder_product_not_found (env : Env) (body : CreateOrderBody) (store : Store)
    (pre post : List CartItem) (bad : CartItem)
    (hitems : body.cartItems = some (pre ++ bad :: post))
    (hpre : productsExist env store.products pre)
    (hdb : env.dbFails (DbOp.productFindById bad.productId) = false)
    (hbad : Product.findById store.products bad.productId = none) :
    (createOrder env body store).res =
      { status := 404,
        body := ResBody.failure ("Product with ID " ++ bad.productId ++ " not found") } ∧
    (createOrder env body store).res.body.success = false ∧
    (createOrder env body store).stripeCreateCalls = [] ∧
    (createOrder env body store).store = store := by
  have hloop := serverTotalAmount_of_missing env store.products bad post hdb hbad pre
    (JsNum.fin 0) hpre
  simp [createOrder, hitems, hloop, ResBody.success]

/-- C4, on a cart whose second line item names a product that does not exist. -/
theorem createOrder_product_not_found_witness :
    (createOrder (testEnv mockStripe)
      (orderData (some [lineItem "prod1" (JsNum.fin 2), lineItem "nonexistent" (JsNum.fin 2),
        lineItem "other" (JsNum.fin 1)])
        (JsVal.num (JsNum.fin 100))) testStore).res =
      { status := 404, body := ResBody.failure "Product with ID nonexistent not found" } ∧
    (createOrder (testEnv mockStripe)
      (orderData (some [lineItem "prod1" (JsNum.fin 2), lineItem "nonexistent" (JsNum.fin 2),
        lineItem "other" (JsNum.fin 1)])
        (JsVal.num (JsNum.fin 100))) testStore).stripeCreateCalls = [] := by
  have h := createOrder_product_not_found (testEnv mockStripe)
    (orderData (some [lineItem "prod1" (JsNum.fin 2), lineItem "nonexistent" (JsNum.fin 2),
      lineItem "other" (JsNum.fin 1)])
      (JsVal.num (JsNum.fin 100))) testStore [lineItem "prod1" (JsNum.fin 2)]
    [lineItem "other" (JsNum.fin 1)]
    (lineItem "nonexistent" (JsNum.fin 2)) rfl (productsExist_mock mockStripe _) rfl
    (by simp [Product.findById, testStore, lineItem, mockProduct])
  exact ⟨h.1, h.2.2.1⟩

/-- C5. When every line item's product exists, the declared total passes the amount
check, the payment intent is created and the save is accepted, the orders afterwards
are the orders before plus exactly one order, which is `pending`/`pending`, paid by
`stripe`, carries the id of the payment intent just created as `paymentId` and the
total that the loop recomputed (the sum of effective unit price times quantity as
JavaScript computes it) as `totalAmount`, whatever `orderStatus`, `paymentStatus`,
`paymentMethod` and `totalAmount` the body supplied. -/
theorem createOrder_persists_pending_order (env : Env) (body : CreateOrderBody)
    (store : Store) (items : List CartItem) (d : JsNum) (paymentIntent : PaymentIntent)
    (hitems : body.cartItems = some items)
    (hexist : productsExist env store.products items)
    (hnum : body.totalAmount = JsVal.num d)
    (hcheck : d.toFixed2 = (specTotal store.products items).toFixed2)
    (hpi : env.stripe.create (paymentIntentParams body.userId (specTotal store.products items))
      = some paymentIntent)
    (hsave : env.dbFails (DbOp.orderSave env.newOrderId) = false) :
    ∃ order : Order,
      (createOrder env body store).store.orders = store.orders ++ [order] ∧
      order.orderStatus = "pending" ∧ order.paymentStatus = "pending" ∧
      order.paymentMethod = "stripe" ∧
      order.paymentId = JsVal.str paymentIntent.id ∧
      order.totalAmount = specTotal store.products items ∧
      serverTotalAmount env store.products items (JsNum.fin 0) =
        TotalResult.total order.totalAmount ∧
      order.cartItems = items := by
  rw [createOrder_of_total hitems (serverTotalAmount_zero_of_exist hexist) hnum,
    if_neg (not_not.mpr hcheck), hpi]
  dsimp only
  rw [if_neg (by simp [hsave])]
  exact ⟨_, rfl, rfl, rfl, rfl, rfl, rfl, serverTotalAmount_zero_of_exist hexist, rfl⟩

/-- C5, on the unit test: the body declares 100.00390625 for a cart worth 100; the one
order persisted is pending and its `totalAmount` is 100. -/
theorem createOrder_persists_pending_order_witness :
    ∃ order : Order,
      (createOrder (testEnv mockStripe)
        (orderData (some [lineItem "prod1" (JsNum.fin 2)])
          (JsVal.num (JsNum.fin (100 + 1 / 256)))) testStore).store.orders = [order] ∧
      order.orderStatus = "pending" ∧ order.paymentStatus = "pending" ∧
      order.paymentId = JsVal.str "pi_test123" ∧ order.totalAmount = JsNum.fin 100 := by
  obtain ⟨order, h1, h2, h3, _, h5, h6, _⟩ := createOrder_persists_pending_order
    (testEnv mockStripe)
    (orderData (some [lineItem "prod1" (JsNum.fin 2)]) (JsVal.num (JsNum.fin (100 + 1 / 256))))
    testStore [lineItem "prod1" (JsNum.fin 2)] (JsNum.fin (100 + 1 / 256))
    { id := "pi_test123", client_secret := "pi_test123_secret_test" } rfl
    (productsExist_mock mockStripe _) rfl
    (by rw [specTotal_two, toFixed2_100_and_256th, toFixed2_100])
    rfl rfl
  exact ⟨order, h1, h2, h3, h5, h6.trans specTotal_two⟩

/-- C6. Whenever `createOrder` responds 201, a payment intent was requested once and
created, one order was added to the store, and the response is `success: true` with
the intent's `client_secret` as `clientSecret`, the intent's `id` as `paymentIntentId`
and the `_id` of the added order as `orderId`. -/
theorem createOrder_created_response (env : Env) (body : CreateOrderBody) (store : Store)
    (h : (createOrder env body store).res.status = 201) :
    ∃ (params : PaymentIntentParams) (paymentIntent : PaymentIntent) (order : Order),
      (createOrder env body store).stripeCreateCalls = [params] ∧
      env.stripe.create params = some paymentIntent ∧
      (createOrder env body store).store.orders = store.orders ++ [order] ∧
      (createOrder env body store).res =
        { status := 201,
          body := ResBody.created paymentIntent.client_secret order._id paymentIntent.id } ∧
      (createOrder env body store).res.body.success = true := by
  unfold createOrder at h ⊢
  cases hci : body.cartItems with
  | none => simp [hci, createOrderCatch] at h
  | some items =>
    simp only [hci] at h ⊢
    cases hloop : serverTotalAmount env store.products items (JsNum.fin 0) with
    | threw => simp [hloop, createOrderCatch] at h
    | notFound productId => simp [hloop] at h
    | total total =>
      simp only [hloop] at h ⊢
      cases hfix : body.totalAmount.toFixed2 with
      | none => simp [hfix, createOrderCatch] at h
      | some declared =>
        simp only [hfix] at h ⊢
        by_cases hne : declared ≠ total.toFixed2
        · simp [if_pos hne] at h
        · rw [if_neg hne] at h ⊢
          cases hpi : env.stripe.create (paymentIntentParams body.userId total) with
          | none => simp [hpi, createOrderCatch] at h
          | some paymentIntent =>
            simp only [hpi] at h ⊢
            by_cases hsave : env.dbFails (DbOp.orderSave
                (newlyCreatedOrder env body items total paymentIntent)._id) = true
            · simp [if_pos hsave, createOrderCatch] at h
            · rw [if_neg hsave]
              exact ⟨_, paymentIntent, _, rfl, hpi, rfl, rfl, rfl⟩

/-- C6, on the unit test "should create order with valid cart items": the request is
answered 201, hence with the secret and id of the created intent and the id of the
order added. -/
theorem createOrder_created_response_witness :
    (createOrder (testEnv mockStripe)
      (orderData (some [lineItem "prod1" (JsNum.fin 2)]) (JsVal.num (JsNum.fin 100)))
      testStore).res.status = 201 ∧
    ∃ (params : PaymentIntentParams) (paymentIntent : PaymentIntent) (order : Order),
      (createOrder (testEnv mockStripe)
        (orderData (some [lineItem "prod1" (JsNum.fin 2)]) (JsVal.num (JsNum.fin 100)))
        testStore).stripeCreateCalls = [params] ∧
      (testEnv mockStripe).stripe.create params = some paymentIntent ∧
      (createOrder (testEnv mockStripe)
        (orderData (some [lineItem "prod1" (JsNum.fin 2)]) (JsVal.num (JsNum.fin 100)))
        testStore).store.orders = testStore.orders ++ [order] ∧
      (createOrder (testEnv mockStripe)
        (orderData (some [lineItem "prod1" (JsNum.fin 2)]) (JsVal.num (JsNum.fin 100)))
        testStore).res =
        { status := 201,
          body := ResBody.created paymentIntent.client_secret order._id paymentIntent.id } ∧
      (createOrder (testEnv mockStripe)
        (orderData (some [lineItem "prod1" (JsNum.fin 2)]) (JsVal.num (JsNum.fin 100)))
        testStore).res.body.success = true := by
  have hstatus : (createOrder (testEnv mockStripe)
      (orderData (some [lineItem "prod1" (JsNum.fin 2)]) (JsVal.num (JsNum.fin 100)))
      testStore).res.status = 201 := by
    rw [createOrder_mock mockStripe _ _ _ specTotal_two, if_neg (not_not.mpr rfl)]
    rfl
  exact ⟨hstatus, createOrder_created_response (testEnv mockStripe)
    (orderData (some [lineItem "prod1" (JsNum.fin 2)]) (JsVal.num (JsNum.fin 100)))
    testStore hstatus⟩

/-- C7, as stated, fails. In its last clause: the product is priced 50 (no decimals),
the cart holds 1/256 of a unit, the total is 0.1953125 and is declared as such, the
payment intent is requested for 20 minor units, and 20 is not the total times 100
(19.53125). In its first clause: one unit of a product priced at the double nearest to
0.015 totals that double, 100 times it is 1.4999999999999999444888..., of which the
nearest integer is 1, and the payment intent is requested for 2 minor units, because
the product of the two doubles is the double 1.5. -/
theorem createOrder_minor_units_counterexample :
    (productsExist (testEnv mockStripe) testStore.products
        [lineItem "prod1" (JsNum.fin (1 / 256))] ∧
      (∀ item ∈ [lineItem "prod1" (JsNum.fin (1 / 256))], ∀ product,
        Product.findById testStore.products item.productId = some product →
          atMostTwoDecimals (effectivePrice product)) ∧
      specTotal testStore.products [lineItem "prod1" (JsNum.fin (1 / 256))] =
        JsNum.fin (25 / 128) ∧
      (createOrder (testEnv mockStripe)
        (orderData (some [lineItem "prod1" (JsNum.fin (1 / 256))])
          (JsVal.num (JsNum.fin (25 / 128))))
        testStore).stripeCreateCalls.map (fun params => params.amount) = [JsNum.fin 20] ∧
      (20 : ℚ) ≠ 25 / 128 * 100) ∧
    (productsExist (testEnv mockStripe) (wideStore []).products
        [lineItem "prod5" (JsNum.fin 1)] ∧
      specTotal (wideStore []).products [lineItem "prod5" (JsNum.fin 1)] =
        JsNum.fin (1080863910568919 / 72057594037927936) ∧
      (createOrder (testEnv mockStripe)
        (orderData (some [lineItem "prod5" (JsNum.fin 1)])
          (JsVal.num (JsNum.fin (1080863910568919 / 72057594037927936))))
        (wideStore [])).stripeCreateCalls.map (fun params => params.amount) = [JsNum.fin 2] ∧
      nearestInt (1080863910568919 / 72057594037927936 * 100) = 1) := by
  have htotal : specTotal testStore.products [lineItem "prod1" (JsNum.fin (1 / 256))] =
      JsNum.fin (25 / 128) := by
    rw [specTotal_mock, total_of_256th_at_50.1]
  have htotal2 : specTotal (wideStore []).products [lineItem "prod5" (JsNum.fin 1)] =
      JsNum.fin (1080863910568919 / 72057594037927936) := by
    rw [specTotal_fraction, total_of_one_fraction.1]
  refine ⟨⟨productsExist_mock mockStripe _, ?_, htotal, ?_, by norm_num⟩,
    productsExist_fraction mockStripe [] _, htotal2, ?_, ?_⟩
  · intro item hitem product hfind
    rw [List.mem_singleton] at hitem
    subst hitem
    have hp : product = mockProduct := by
      simpa [Product.findById, testStore, lineItem, mockProduct] using hfind.symm
    subst hp
    refine ⟨5000, ?_⟩
    simp [effectivePrice, mockProduct, JsNum.gt, JsNum.lt]
    norm_num
  · rw [createOrder_mock mockStripe _ _ _ htotal, if_neg (not_not.mpr rfl)]
    show [mathRound ((JsNum.fin (25 / 128)).mul (JsNum.fin 100))] = [JsNum.fin 20]
    rw [total_of_256th_at_50.2]
  · rw [(createOrder_wide "prod5" _ _ _ (productsExist_fraction mockStripe [] _) htotal2 rfl).2,
      total_of_one_fraction.2]
  · exact nearestInt_eq (by norm_num) (by norm_num)

/-- C7, amended. When every line item's product exists and the declared total passes
the amount check, the payment intent is requested exactly once, with `amount` the
value of `Math.round(total * 100)`, where `total` is the recomputed total and the
product is the product of two doubles: when that product is finite, the amount is an
integer within one half of it (a total of 100 gives 10000); with `currency` "usd" and
`metadata` `orderId: "temp_order_id"`, `userId` the request's. When moreover the
effective prices and the quantities are whole numbers that are not negative and 100
times their exact sum is at most 2^53, the amount is exactly that sum times 100. -/
theorem createOrder_minor_units (env : Env) (body : CreateOrderBody) (store : Store)
    (items : List CartItem) (d : JsNum) (hitems : body.cartItems = some items)
    (hexist : productsExist env store.products items)
    (hnum : body.totalAmount = JsVal.num d)
    (hcheck : d.toFixed2 = (specTotal store.products items).toFixed2) :
    (createOrder env body store).stripeCreateCalls =
      [{ amount := mathRound ((specTotal store.products items).mul (JsNum.fin 100)),
         currency := "usd",
         metadata := { orderId := "temp_order_id", userId := body.userId } }] ∧
    (∀ y : ℚ, (specTotal store.products items).mul (JsNum.fin 100) = JsNum.fin y →
      ∃ n : ℤ, mathRound ((specTotal store.products items).mul (JsNum.fin 100)) = JsNum.fin n ∧
        |(n : ℚ) - y| ≤ 1 / 2) ∧
    mathRound ((JsNum.fin 100).mul (JsNum.fin 100)) = JsNum.fin 10000 ∧
    (wholeAmounts store.products items → exactTotal store.products items * 100 ≤ 2 ^ 53 →
      mathRound ((specTotal store.products items).mul (JsNum.fin 100)) =
        JsNum.fin (exactTotal store.products items * 100)) := by
  refine ⟨?_, ?_, mathRound_100_times_100, ?_⟩
  · rw [createOrder_of_total hitems (serverTotalAmount_zero_of_exist hexist) hnum,
      if_neg (not_not.mpr hcheck)]
    cases env.stripe.create (paymentIntentParams body.userId (specTotal store.products items))
    · rfl
    · dsimp only
      split <;> rfl
  · intro y hy
    rw [hy]
    exact ⟨nearestInt y, rfl, abs_nearestInt_sub_le y⟩
  · intro hwhole hle
    obtain ⟨n, hn⟩ := exactTotal_isNat store.products items hwhole
    rw [hn] at hle
    have hle2 : n * 100 ≤ 2 ^ 53 := by exact_mod_cast hle
    have hle3 : exactTotal store.products items ≤ 2 ^ 53 := by
      rw [hn]
      have : ((n : ℕ) : ℚ) ≤ (n : ℚ) * 100 := by
        have : (0 : ℚ) ≤ n := by positivity
        linarith
      linarith
    have h100 : JsNum.fin 100 = JsNum.fin ((100 : ℕ) : ℚ) := by norm_num
    rw [specTotal_exact hwhole hle3, hn, h100, JsNum.mul_natCast n 100 hle2, mathRound]
    have hcast : (((n * 100 : ℕ) : ℚ)) = (((n * 100 : ℕ) : ℤ) : ℚ) := by push_cast; ring
    rw [hcast, nearestInt_intCast]
    push_cast
    ring_nf

/-- C7, on the unit test: two units at 50 are requested as 10000 minor units, which is
exactly 100 times 100. -/
theorem createOrder_minor_units_witness :
    (createOrder (testEnv mockStripe)
      (orderData (some [lineItem "prod1" (JsNum.fin 2)]) (JsVal.num (JsNum.fin 100)))
      testStore).stripeCreateCalls =
      [{ amount := JsNum.fin 10000, currency := "usd",
         metadata := { orderId := "temp_order_id", userId := JsVal.str "user123" } }] := by
  have h := createOrder_minor_units (testEnv mockStripe)
    (orderData (some [lineItem "prod1" (JsNum.fin 2)]) (JsVal.num (JsNum.fin 100))) testStore
    [lineItem "prod1" (JsNum.fin 2)] (JsNum.fin 100)
    rfl (productsExist_mock mockStripe _) rfl (by rw [specTotal_two])
  have hamount := h.2.2.2 wholeAmounts_mock (by rw [exactTotal_mock]; norm_num)
  rw [exactTotal_mock] at hamount
  rw [h.1, hamount]
  norm_num
  rfl

/-- C8. Whatever the environment, the request and the outcome, `createOrder` leaves
the products (stock included) and the carts as they were, and the orders are either
unchanged or extended by exactly one order. -/
theorem createOrder_frame (env : Env) (body : CreateOrderBody) (store : Store) :
    (createOrder env body store).store.products = store.products ∧
    (createOrder env body store).store.carts = store.carts ∧
    ((createOrder env body store).store.orders = store.orders ∨
      ∃ order : Order, (createOrder env body store).store.orders = store.orders ++ [order]) := by
  unfold createOrder
  split
  · exact ⟨rfl, rfl, Or.inl rfl⟩
  · split
    · exact ⟨rfl, rfl, Or.inl rfl⟩
    · exact ⟨rfl, rfl, Or.inl rfl⟩
    · split
      · exact ⟨rfl, rfl, Or.inl rfl⟩
      · split
        · exact ⟨rfl, rfl, Or.inl rfl⟩
        · dsimp only
          split
          · exact ⟨rfl, rfl, Or.inl rfl⟩
          · split
            · exact ⟨rfl, rfl, Or.inl rfl⟩
            · exact ⟨rfl, rfl, Or.inr ⟨_, rfl⟩⟩

/-- C9. When every line item's product exists and the declared total passes the
amount check but the creation of the payment intent rejects, `createOrder` responds
500 with `success: false` and the message "Error while creating payment intent!", and
the store is left as it was (no order persisted). -/
theorem createOrder_payment_intent_rejected (env : Env) (body : CreateOrderBody)
    (store : Store) (items : List CartItem) (d : JsNum)
    (hitems : body.cartItems = some items)
    (hexist : productsExist env store.products items)
    (hnum : body.totalAmount = JsVal.num d)
    (hcheck : d.toFixed2 = (specTotal store.products items).toFixed2)
    (hpi : env.stripe.create (paymentIntentParams body.userId (specTotal store.products items))
      = none) :
    (createOrder env body store).res =
      { status := 500, body := ResBody.failure "Error while creating payment intent!" } ∧
    (createOrder env body store).res.body.success = false ∧
    (createOrder env body store).store = store := by
  rw [createOrder_of_total hitems (serverTotalAmount_zero_of_exist hexist) hnum,
    if_neg (not_not.mpr hcheck), hpi]
  exact ⟨rfl, rfl, rfl⟩

/-- C9, on the unit test "should handle Stripe payment intent creation error". -/
theorem createOrder_payment_intent_rejected_witness :
    (createOrder (testEnv rejectingStripe)
      (orderData (some [lineItem "prod1" (JsNum.fin 2)]) (JsVal.num (JsNum.fin 100)))
      testStore).res =
      { status := 500, body := ResBody.failure "Error while creating payment intent!" } ∧
    (createOrder (testEnv rejectingStripe)
      (orderData (some [lineItem "prod1" (JsNum.fin 2)]) (JsVal.num (JsNum.fin 100)))
      testStore).store = testStore := by
  have h := createOrder_payment_intent_rejected (testEnv rejectingStripe)
    (orderData (some [lineItem "prod1" (JsNum.fin 2)]) (JsVal.num (JsNum.fin 100))) testStore
    [lineItem "prod1" (JsNum.fin 2)] (JsNum.fin 100)
    rfl (productsExist_mock rejectingStripe _) rfl (by rw [specTotal_two]) rfl
  exact ⟨h.1, h.2.2⟩

/-- C10, as stated, fails: a body without `cartItems` is answered 500, not 400. -/
theorem createOrder_missing_fields_counterexample :
    (orderData none (JsVal.num (JsNum.fin 100))).cartItems = none ∧
    (createOrder (testEnv mockStripe) (orderData none (JsVal.num (JsNum.fin 100)))
      testStore).res =
      { status := 500, body := ResBody.failure "Error while creating payment intent!" } ∧
    (createOrder (testEnv mockStripe) (orderData none (JsVal.num (JsNum.fin 100)))
      testStore).res.status ≠ 400 := by
  refine ⟨rfl, rfl, ?_⟩
  show (500 : ℕ) ≠ 400
  decide

/-- C10, amended. `createOrder` does not validate required fields. A body without
`cartItems` is answered 500 with `success: false` and "Error while creating payment
intent!", and so is a body whose line items all have a product but whose `totalAmount`
is absent or not a number; the store is left as it was. A 400 is only ever the amount
mismatch, sent when `cartItems` and a numeric `totalAmount` are present. In the test
case (`cartItems` empty and `totalAmount` 100, whatever else is present) the response
is 400 with `success: false` and "Total amount mismatch. Please try again.". -/
theorem createOrder_missing_fields (env : Env) (body : CreateOrderBody) (store : Store) :
    (body.cartItems = none →
      (createOrder env body store).res =
        { status := 500, body := ResBody.failure "Error while creating payment intent!" } ∧
      (createOrder env body store).store = store) ∧
    (∀ items : List CartItem, body.cartItems = some items →
      productsExist env store.products items → (∀ d : JsNum, body.totalAmount ≠ JsVal.num d) →
      (createOrder env body store).res =
        { status := 500, body := ResBody.failure "Error while creating payment intent!" } ∧
      (createOrder env body store).store = store) ∧
    (body.cartItems = some [] → body.totalAmount = JsVal.num (JsNum.fin 100) →
      (createOrder env body store).res =
        { status := 400, body := ResBody.failure "Total amount mismatch. Please try again." } ∧
      (createOrder env body store).res.body.success = false) ∧
    ((createOrder env body store).res.status = 400 →
      (createOrder env body store).res.body =
        ResBody.failure "Total amount mismatch. Please try again." ∧
      ∃ (items : List CartItem) (d : JsNum),
        body.cartItems = some items ∧ body.totalAmount = JsVal.num d) := by
  refine ⟨?_, ?_, ?_, ?_⟩
  · intro hnone
    simp [createOrder, hnone, createOrderCatch]
  · intro items hitems hexist hnum
    have hfix : body.totalAmount.toFixed2 = none := by
      cases htotal : body.totalAmount with
      | num x => exact absurd htotal (hnum x)
      | undefined => rfl
      | null => rfl
      | str s => rfl
    simp [createOrder, hitems, serverTotalAmount_zero_of_exist hexist, hfix, createOrderCatch]
  · intro hitems hnum
    have hloop : serverTotalAmount env store.products [] (JsNum.fin 0) =
        TotalResult.total (JsNum.fin 0) := rfl
    rw [createOrder_of_total hitems hloop hnum, if_pos]
    · exact ⟨rfl, rfl⟩
    · rw [toFixed2_100, toFixed2_0]
      decide
  · intro h
    unfold createOrder at h ⊢
    cases hci : body.cartItems with
    | none => simp [hci, createOrderCatch] at h
    | some items =>
      simp only [hci] at h ⊢
      cases hloop : serverTotalAmount env store.products items (JsNum.fin 0) with
      | threw => simp [hloop, createOrderCatch] at h
      | notFound productId => simp [hloop] at h
      | total total =>
        simp only [hloop] at h ⊢
        cases htotal : body.totalAmount with
        | undefined => simp [htotal, JsVal.toFixed2, createOrderCatch] at h
        | null => simp [htotal, JsVal.toFixed2, createOrderCatch] at h
        | str s => simp [htotal, JsVal.toFixed2, createOrderCatch] at h
        | num x =>
          simp only [htotal, JsVal.toFixed2] at h ⊢
          by_cases hne : x.toFixed2 ≠ total.toFixed2
          · rw [if_pos hne]
            exact ⟨rfl, items, x, rfl, rfl⟩
          · rw [if_neg hne] at h
            exfalso
            cases hpi : env.stripe.create (paymentIntentParams body.userId total) with
            | none => simp [hpi, createOrderCatch] at h
            | some paymentIntent =>
              simp only [hpi] at h
              split at h <;> simp [createOrderCatch] at h

/-- C10, on the unit test "should handle missing data gracefully" (400, amount
mismatch) and on the same request without `cartItems` (500). -/
theorem createOrder_missing_fields_witness :
    (createOrder (testEnv mockStripe) missingFieldsBody testStore).res =
      { status := 400, body := ResBody.failure "Total amount mismatch. Please try again." } ∧
    (createOrder (testEnv mockStripe) (orderData none (JsVal.num (JsNum.fin 100)))
      testStore).res =
      { status := 500, body := ResBody.failure "Error while creating payment intent!" } :=
  ⟨((createOrder_missing_fields (testEnv mockStripe) missingFieldsBody testStore).2.2.1
      rfl rfl).1,
    ((createOrder_missing_fields (testEnv mockStripe)
      (orderData none (JsVal.num (JsNum.fin 100))) testStore).1 rfl).1⟩

/-! ## Lemmas on the store and on the stock loop -/

theorem Product.findById_id {products : List Product} {id : String} {product : Product}
    (h : Product.findById products id = some product) : product._id = id := by
  have := List.find?_some h
  simpa using this

theorem Product.findById_cons (p : Product) (ps : List Product) (id : String) :
    Product.findById (p :: ps) id = if p._id = id then some p else Product.findById ps id := by
  by_cases h : p._id = id
  · simp [Product.findById, List.find?_cons, h]
  · simp [Product.findById, List.find?_cons, h]

theorem Product.findById_save (doc : Product) (id : String) :
    ∀ products : List Product,
      Product.findById (Product.save products doc) id =
        if doc._id = id then (Product.findById products id).map (fun _ => doc)
        else Product.findById products id
  | [] => by simp [Product.save, Product.findById]
  | p :: ps => by
    have ih := Product.findById_save doc id ps
    rw [Product.save]
    by_cases hp : p._id = doc._id
    · rw [if_pos hp, Product.findById_cons, Product.findById_cons]
      by_cases hd : doc._id = id
      · rw [if_pos hd, if_pos hd, if_pos (hp.trans hd)]
        rfl
      · rw [if_neg hd, if_neg hd, if_neg (fun h => hd (hp.symm.trans h))]
    · rw [if_neg hp, Product.findById_cons, Product.findById_cons, ih]
      by_cases hpid : p._id = id
      · rw [if_pos hpid, if_pos hpid, if_neg (fun h => hp (hpid.trans h.symm))]
      · rw [if_neg hpid, if_neg hpid]

/-- Saving a product read from the collection: it is what a lookup of its id returns
afterwards, and the lookups of the other ids are unchanged. -/
theorem Product.findById_save_found {products : List Product} {product doc : Product}
    (hfind : Product.findById products doc._id = some product) (id : String) :
    Product.findById (Product.save products doc) id =
      if doc._id = id then some doc else Product.findById products id := by
  rw [Product.findById_save]
  by_cases hd : doc._id = id
  · subst hd
    simp [hfind]
  · simp [hd]

theorem stockAfter_nil (id : String) (stock : JsNum) : stockAfter id stock [] = stock := rfl

theorem stockAfter_cons (id : String) (stock : JsNum) (item : CartItem)
    (rest : List CartItem) :
    stockAfter id stock (item :: rest) =
      stockAfter id (if item.productId = id then stock.sub item.quantity else stock) rest :=
  rfl

theorem stockAfter_append (id : String) :
    ∀ (a b : List CartItem) (stock : JsNum),
      stockAfter id stock (a ++ b) = stockAfter id (stockAfter id stock a) b
  | [], _, _ => rfl
  | item :: rest, b, stock => by
    rw [List.cons_append, stockAfter_cons, stockAfter_cons, stockAfter_append id rest b]

theorem stockAfter_of_not_mem (id : String) :
    ∀ (items : List CartItem) (stock : JsNum), (∀ item ∈ items, item.productId ≠ id) →
      stockAfter id stock items = stock
  | [], _, _ => rfl
  | item :: rest, stock, h => by
    rw [stockAfter_cons, if_neg (h item (List.mem_cons_self _ _)),
      stockAfter_of_not_mem id rest stock (fun i hi => h i (List.mem_cons_of_mem _ hi))]

theorem orderedQuantity_nil (id : String) : orderedQuantity id [] = 0 := rfl

theorem orderedQuantity_cons (id : String) (item : CartItem) (rest : List CartItem) :
    orderedQuantity id (item :: rest) =
      (if item.productId = id then item.quantity.toRat else 0) + orderedQuantity id rest := by
  by_cases h : item.productId = id
  · simp [orderedQuantity, List.filter_cons, h]
  · simp [orderedQuantity, List.filter_cons, h]

theorem orderedQuantity_append (id : String) (a b : List CartItem) :
    orderedQuantity id (a ++ b) = orderedQuantity id a + orderedQuantity id b := by
  simp [orderedQuantity, List.filter_append]

/-- One turn of the loop on a line item that is found and in stock. -/
theorem updateStock_cons_of_stock {env : Env} {products : List Product} {item : CartItem}
    {product : Product} (rest : List CartItem)
    (hfindOk : env.dbFails (DbOp.productFindById item.productId) = false)
    (hsaveOk : env.dbFails (DbOp.productSave product._id) = false)
    (hfind : Product.findById products item.productId = some product)
    (hstock : product.totalStock.lt item.quantity = false) :
    updateStock env products (item :: rest) =
      updateStock env
        (Product.save products
          { product with totalStock := product.totalStock.sub item.quantity })
        rest := by
  rw [updateStock, if_neg (by simp [hfindOk])]
  simp only [hfind]
  rw [if_neg (by simp [hstock]), if_neg (by simp [hsaveOk])]

/-- One turn of the loop on a line item that asks more than the stock. -/
theorem updateStock_cons_of_short {env : Env} {products : List Product} {item : CartItem}
    {product : Product} (rest : List CartItem)
    (hfindOk : env.dbFails (DbOp.productFindById item.productId) = false)
    (hfind : Product.findById products item.productId = some product)
    (hstock : product.totalStock.lt item.quantity = true) :
    updateStock env products (item :: rest) =
      { products := products, outcome := StockEnd.notEnough product.title } := by
  rw [updateStock, if_neg (by simp [hfindOk])]
  simp only [hfind]
  rw [if_pos hstock]

/-- One turn of the loop on a line item without product. -/
theorem updateStock_cons_of_missing {env : Env} {products : List Product} {item : CartItem}
    (rest : List CartItem)
    (hfindOk : env.dbFails (DbOp.productFindById item.productId) = false)
    (hfind : Product.findById products item.productId = none) :
    updateStock env products (item :: rest) =
      { products := products, outcome := StockEnd.notFound item.title } := by
  rw [updateStock, if_neg (by simp [hfindOk])]
  simp only [hfind]

/-- The loop over `pre ++ rest` is the loop over `rest` from where the loop over `pre`
ends, when that one runs to its end. -/
theorem updateStock_append (env : Env) (rest : List CartItem) :
    ∀ (pre : List CartItem) (products products1 : List Product),
      updateStock env products pre = { products := products1, outcome := StockEnd.done } →
      updateStock env products (pre ++ rest) = updateStock env products1 rest
  | [], products, products1, h => by
    simp only [updateStock, StockResult.mk.injEq, and_true] at h
    rw [List.nil_append, h]
  | item :: pre, products, products1, h => by
    rw [List.cons_append]
    rw [updateStock] at h ⊢
    split
    · rename_i hf
      rw [if_pos hf] at h
      simp at h
    · rename_i hf
      rw [if_neg hf] at h
      split
      · rename_i hnone
        simp [hnone] at h
      · rename_i product hsome
        simp only [hsome] at h
        split
        · rename_i hlt
          rw [if_pos hlt] at h
          simp at h
        · rename_i hlt
          rw [if_neg hlt] at h
          split
          · rename_i hs
            rw [if_pos hs] at h
            simp at h
          · rename_i hs
            rw [if_neg hs] at h
            exact updateStock_append env rest pre _ products1 h

theorem Product.withStock_self (product : Product) :
    product.withStock product.totalStock = product := by
  cases product
  rfl

theorem Product.lowered_withStock (product : Product) (quantity stock : JsNum) :
    (product.lowered quantity).withStock stock = product.withStock stock := rfl

theorem Product.withStock_withStock (product : Product) (a b : JsNum) :
    (product.withStock a).withStock b = product.withStock b := rfl

theorem Product.lowered_id (product : Product) (a : JsNum) :
    (product.lowered a)._id = product._id :=
  rfl

/-- The first of line items in stock is found and in stock, and the others are in
stock once the stock of its product is lowered. -/
theorem inStock_cons {products : List Product} {item : CartItem} {rest : List CartItem}
    (h : inStock products (item :: rest)) :
    ∃ product, Product.findById products item.productId = some product ∧
      product.totalStock.lt item.quantity = false ∧
      inStock (Product.save products (product.lowered item.quantity)) rest := by
  obtain ⟨product, hfind, hq⟩ := h [] rest item rfl
  rw [stockAfter_nil] at hq
  refine ⟨product, hfind, hq, ?_⟩
  intro earlier later it hsplit
  obtain ⟨product2, hfind2, hq2⟩ := h (item :: earlier) later it (by rw [hsplit]; rfl)
  have hid : (product.lowered item.quantity)._id = item.productId :=
    (Product.lowered_id product item.quantity).trans (Product.findById_id hfind)
  have hfind1 : Product.findById products (product.lowered item.quantity)._id = some product := by
    rw [hid]; exact hfind
  rw [Product.findById_save_found hfind1, hid]
  rw [stockAfter_cons] at hq2
  by_cases hsame : item.productId = it.productId
  · rw [if_pos hsame]
    rw [if_pos hsame] at hq2
    rw [← hsame, hfind] at hfind2
    cases hfind2
    exact ⟨_, rfl, hq2⟩
  · rw [if_neg hsame]
    rw [if_neg hsame] at hq2
    exact ⟨product2, hfind2, hq2⟩

/-- On line items in stock, with a store that answers, the loop runs to its end and
leaves each product with what the line items leave of its stock. -/
theorem updateStock_of_inStock {env : Env} (hdb : storeAnswers env) :
    ∀ (items : List CartItem) (products : List Product), inStock products items →
      (updateStock env products items).outcome = StockEnd.done ∧
      ∀ id : String, Product.findById (updateStock env products items).products id =
        (Product.findById products id).map
          (fun p => p.withStock (stockAfter id p.totalStock items))
  | [], products, _ => by
    refine ⟨rfl, fun id => ?_⟩
    simp [updateStock, stockAfter_nil, Product.withStock_self]
  | item :: rest, products, h => by
    obtain ⟨product, hfind, hq, hrest⟩ := inStock_cons h
    have hstep := updateStock_cons_of_stock rest (hdb _) (hdb _) hfind hq
    have ih := updateStock_of_inStock hdb rest _ hrest
    rw [hstep]
    refine ⟨ih.1, fun id => ?_⟩
    have hid : (product.lowered item.quantity)._id = item.productId :=
      (Product.lowered_id product item.quantity).trans (Product.findById_id hfind)
    have hfind1 : Product.findById products (product.lowered item.quantity)._id =
        some product := by
      rw [hid]; exact hfind
    have hih := ih.2 id
    rw [Product.findById_save_found hfind1, hid] at hih
    rw [show Product.save products
        { product with totalStock := product.totalStock.sub item.quantity } =
        Product.save products (product.lowered item.quantity) from rfl, hih]
    by_cases hsame : item.productId = id
    · rw [if_pos hsame, ← hsame, hfind]
      simp only [Option.map_some', stockAfter_cons, if_true]
      rfl
    · rw [if_neg hsame]
      simp only [stockAfter_cons, if_neg hsame]

/-- The exact stock that whole quantities leave of a whole stock up to `2^53`, on line
items in stock: the stock less the quantities asked. -/
theorem stockAfter_of_inStock_whole :
    ∀ (items : List CartItem) (products : List Product), inStock products items →
      ∀ (id : String) (product : Product) (s : ℕ),
        Product.findById products id = some product → product.totalStock = JsNum.fin s →
        s ≤ 2 ^ 53 →
        (∀ item ∈ items, item.productId = id → ∃ q : ℕ, item.quantity = JsNum.fin q) →
        orderedQuantity id items ≤ s ∧
        stockAfter id (JsNum.fin s) items = JsNum.fin (s - orderedQuantity id items)
  | [], _, _, _, _, s, _, _, _, _ => by
    simp [orderedQuantity_nil, stockAfter_nil]
  | item :: rest, products, h, id, product, s, hfind, hs, hle, hq => by
    obtain ⟨product0, hfind0, hguard, hrest⟩ := inStock_cons h
    have hid0 : (product0.lowered item.quantity)._id = item.productId :=
      (Product.lowered_id product0 item.quantity).trans (Product.findById_id hfind0)
    have hfind1 : Product.findById products (product0.lowered item.quantity)._id =
        some product0 := by
      rw [hid0]; exact hfind0
    have hqrest : ∀ i ∈ rest, i.productId = id → ∃ q : ℕ, i.quantity = JsNum.fin q :=
      fun i hi => hq i (List.mem_cons_of_mem _ hi)
    by_cases hsame : item.productId = id
    · obtain ⟨q, hqi⟩ := hq item (List.mem_cons_self _ _) hsame
      rw [hsame, hfind] at hfind0
      cases hfind0
      rw [hs, hqi] at hguard
      have hqs : q ≤ s := by
        simp only [JsNum.lt, decide_eq_false_iff_not, not_lt] at hguard
        exact_mod_cast hguard
      have hnew : Product.findById (Product.save products (product.lowered item.quantity)) id =
          some (product.lowered item.quantity) := by
        rw [Product.findById_save_found hfind1, hid0, if_pos hsame]
      have hstock : (product.lowered item.quantity).totalStock = JsNum.fin ((s - q : ℕ) : ℚ) := by
        show product.totalStock.sub item.quantity = _
        rw [hs, hqi, JsNum.sub_natCast s q hqs hle]
      obtain ⟨ih1, ih2⟩ := stockAfter_of_inStock_whole rest _ hrest id _ (s - q) hnew hstock
        (by omega) hqrest
      rw [orderedQuantity_cons, if_pos hsame, stockAfter_cons, if_pos hsame, hqi,
        JsNum.sub_natCast s q hqs hle, ih2]
      rw [Nat.cast_sub hqs] at ih1 ⊢
      simp only [JsNum.toRat]
      refine ⟨by linarith, ?_⟩
      rw [JsNum.fin.injEq]
      ring
    · have hnew : Product.findById (Product.save products (product0.lowered item.quantity)) id =
          some product := by
        rw [Product.findById_save_found hfind1, hid0, if_neg hsame]
        exact hfind
      obtain ⟨ih1, ih2⟩ := stockAfter_of_inStock_whole rest _ hrest id product s hnew hs hle
        hqrest
      rw [orderedQuantity_cons, if_neg hsame, zero_add, stockAfter_cons, if_neg hsame]
      exact ⟨ih1, ih2⟩

/-! ## Lemmas on capturePayment -/

/-- The handler once the order is found and the payment confirmed as succeeded. -/
theorem capturePayment_of_confirmed {env : Env} {body : CaptureBody} {store : Store}
    {order : Order} {paymentIntent : PaymentConfirmation}
    (hfindOk : env.dbFails (DbOp.orderFindById body.orderId) = false)
    (horder : Order.findById store.orders body.orderId = some order)
    (hconfirm : env.stripe.confirm body.paymentIntentId "pm_card_visa" = some paymentIntent)
    (hstatus : paymentIntent.status = "succeeded") :
    capturePayment env body store =
      match (updateStock env store.products order.cartItems).outcome with
      | StockEnd.threw =>
        { res := capturePaymentCatch,
          store := { store with
            products := (updateStock env store.products order.cartItems).products },
          stripeCreateCalls := [],
          stripeConfirmCalls := [(body.paymentIntentId, "pm_card_visa")] }
      | StockEnd.notFound title =>
        { res := { status := 404, body := ResBody.failure ("Product not found: " ++ title) },
          store := { store with
            products := (updateStock env store.products order.cartItems).products },
          stripeCreateCalls := [],
          stripeConfirmCalls := [(body.paymentIntentId, "pm_card_visa")] }
      | StockEnd.notEnough title =>
        { res := { status := 400,
                   body := ResBody.failure ("Not enough stock for product: " ++ title) },
          store := { store with
            products := (updateStock env store.products order.cartItems).products },
          stripeCreateCalls := [],
          stripeConfirmCalls := [(body.paymentIntentId, "pm_card_visa")] }
      | StockEnd.done =>
        if env.dbFails (DbOp.cartFindById order.cartId) then
          { res := capturePaymentCatch,
            store := { store with
              products := (updateStock env store.products order.cartItems).products },
            stripeCreateCalls := [],
            stripeConfirmCalls := [(body.paymentIntentId, "pm_card_visa")] }
        else
          match clearCart env store.carts order.cartId with
          | none =>
            { res := capturePaymentCatch,
              store := { store with
                products := (updateStock env store.products order.cartItems).products },
              stripeCreateCalls := [],
              stripeConfirmCalls := [(body.paymentIntentId, "pm_card_visa")] }
          | some carts =>
            if env.dbFails (DbOp.orderSave order._id) then
              { res := capturePaymentCatch,
                store := { products := (updateStock env store.products order.cartItems).products,
                           carts := carts, orders := store.orders },
                stripeCreateCalls := [],
                stripeConfirmCalls := [(body.paymentIntentId, "pm_card_visa")] }
            else
              { res := { status := 200,
                         body := ResBody.captured "Payment successful and order confirmed"
                           (paidOrder env order body.paymentIntentId) "confirmed" true },
                store := { products := (updateStock env store.products order.cartItems).products,
                           carts := carts,
                           orders := Order.save store.orders
                             (paidOrder env order body.paymentIntentId) },
                stripeCreateCalls := [],
                stripeConfirmCalls := [(body.paymentIntentId, "pm_card_visa")] } := by
  rw [capturePayment, if_neg (by simp [hfindOk])]
  simp only [horder, hconfirm, if_pos hstatus]
  rfl

/-- Once the order is found and the payment confirmed as succeeded, the products
persisted by the request are those the stock loop leaves. -/
theorem capturePayment_products {env : Env} {body : CaptureBody} {store : Store}
    {order : Order} {paymentIntent : PaymentConfirmation}
    (hfindOk : env.dbFails (DbOp.orderFindById body.orderId) = false)
    (horder : Order.findById store.orders body.orderId = some order)
    (hconfirm : env.stripe.confirm body.paymentIntentId "pm_card_visa" = some paymentIntent)
    (hstatus : paymentIntent.status = "succeeded") :
    (capturePayment env body store).store.products =
      (updateStock env store.products order.cartItems).products := by
  rw [capturePayment_of_confirmed hfindOk horder hconfirm hstatus]
  split
  · rfl
  · rfl
  · rfl
  · split
    · rfl
    · split
      · rfl
      · split <;> rfl

/-- The loop stops at a line item that asks more than what the line items before it,
which are in stock, leave of its product; what those lowered stays persisted. -/
theorem updateStock_stops_short {env : Env} (hdb : storeAnswers env) {products : List Product}
    {pre : List CartItem} {bad : CartItem} (post : List CartItem) {product : Product}
    (hpre : inStock products pre)
    (hfind : Product.findById products bad.productId = some product)
    (hshort : (stockAfter bad.productId product.totalStock pre).lt bad.quantity = true) :
    updateStock env products (pre ++ bad :: post) =
      { products := (updateStock env products pre).products,
        outcome := StockEnd.notEnough product.title } := by
  obtain ⟨hdone, hstate⟩ := updateStock_of_inStock hdb pre products hpre
  have hfind1 := hstate bad.productId
  rw [hfind] at hfind1
  rw [updateStock_append env (bad :: post) pre products (updateStock env products pre).products
      (by rw [← hdone]),
    updateStock_cons_of_short post (hdb _) hfind1 hshort]
  rfl

/-- The loop stops at a line item without product, the line items before it being in
stock; what those lowered stays persisted. -/
theorem updateStock_stops_missing {env : Env} (hdb : storeAnswers env)
    {products : List Product} {pre : List CartItem} {bad : CartItem} (post : List CartItem)
    (hpre : inStock products pre)
    (hfind : Product.findById products bad.productId = none) :
    updateStock env products (pre ++ bad :: post) =
      { products := (updateStock env products pre).products,
        outcome := StockEnd.notFound bad.title } := by
  obtain ⟨hdone, hstate⟩ := updateStock_of_inStock hdb pre products hpre
  have hfind1 := hstate bad.productId
  rw [hfind] at hfind1
  rw [updateStock_append env (bad :: post) pre products (updateStock env products pre).products
      (by rw [← hdone]),
    updateStock_cons_of_missing post (hdb _) hfind1]

/-- The capture of an order whose line item `bad` asks more than what the line items
before it leave of its product. -/
theorem capturePayment_stops_short {env : Env} {body : CaptureBody} {store : Store}
    {order : Order} {paymentIntent : PaymentConfirmation} {pre post : List CartItem}
    {bad : CartItem} {product : Product} (hdb : storeAnswers env)
    (horder : Order.findById store.orders body.orderId = some order)
    (hconfirm : env.stripe.confirm body.paymentIntentId "pm_card_visa" = some paymentIntent)
    (hstatus : paymentIntent.status = "succeeded")
    (hitems : order.cartItems = pre ++ bad :: post)
    (hpre : inStock store.products pre)
    (hfind : Product.findById store.products bad.productId = some product)
    (hshort : (stockAfter bad.productId product.totalStock pre).lt bad.quantity = true) :
    capturePayment env body store =
      { res := { status := 400,
                 body := ResBody.failure ("Not enough stock for product: " ++ product.title) },
        store := { store with products := (updateStock env store.products pre).products },
        stripeCreateCalls := [],
        stripeConfirmCalls := [(body.paymentIntentId, "pm_card_visa")] } := by
  rw [capturePayment_of_confirmed (hdb _) horder hconfirm hstatus, hitems,
    updateStock_stops_short hdb post hpre hfind hshort]

/-- The capture of an order whose line item `bad` has no product, the line items
before it being in stock. -/
theorem capturePayment_stops_missing {env : Env} {body : CaptureBody} {store : Store}
    {order : Order} {paymentIntent : PaymentConfirmation} {pre post : List CartItem}
    {bad : CartItem} (hdb : storeAnswers env)
    (horder : Order.findById store.orders body.orderId = some order)
    (hconfirm : env.stripe.confirm body.paymentIntentId "pm_card_visa" = some paymentIntent)
    (hstatus : paymentIntent.status = "succeeded")
    (hitems : order.cartItems = pre ++ bad :: post)
    (hpre : inStock store.products pre)
    (hfind : Product.findById store.products bad.productId = none) :
    capturePayment env body store =
      { res := { status := 404,
                 body := ResBody.failure ("Product not found: " ++ bad.title) },
        store := { store with products := (updateStock env store.products pre).products },
        stripeCreateCalls := [],
        stripeConfirmCalls := [(body.paymentIntentId, "pm_card_visa")] } := by
  rw [capturePayment_of_confirmed (hdb _) horder hconfirm hstatus, hitems,
    updateStock_stops_missing hdb post hpre hfind]

/-- A product that none of the line items asks for keeps its stock through the loop
over line items in stock. -/
theorem updateStock_findById_of_not_mem {env : Env} (hdb : storeAnswers env)
    {products : List Product} {items : List CartItem} (hitems : inStock products items)
    (id : String) (hid : ∀ item ∈ items, item.productId ≠ id) :
    Product.findById (updateStock env products items).products id =
      Product.findById products id := by
  rw [(updateStock_of_inStock hdb items products hitems).2 id]
  cases Product.findById products id with
  | none => rfl
  | some p => simp [stockAfter_of_not_mem id items p.totalStock hid, Product.withStock_self]

/-- What a capture can do to the store: nothing; or, the order being found, the
products become those the stock loop leaves, and then either the orders are as before
(and so are the carts, unless the response is 500), or the response is 200 and the
order is saved as paid. -/
theorem capturePayment_store (env : Env) (body : CaptureBody) (store : Store) :
    (capturePayment env body store).store = store ∨
    ∃ order, Order.findById store.orders body.orderId = some order ∧
      (capturePayment env body store).store.products =
        (updateStock env store.products order.cartItems).products ∧
      (((capturePayment env body store).res.status ≠ 200 ∧
          (capturePayment env body store).store.orders = store.orders ∧
          ((capturePayment env body store).store.carts = store.carts ∨
            (capturePayment env body store).res.status = 500)) ∨
        ((capturePayment env body store).res.status = 200 ∧
          (capturePayment env body store).store.orders =
            Order.save store.orders (paidOrder env order body.paymentIntentId))) := by
  by_cases hf : env.dbFails (DbOp.orderFindById body.orderId) = true
  · left
    rw [capturePayment, if_pos hf]
  · have hfindOk : env.dbFails (DbOp.orderFindById body.orderId) = false := by
      simpa using hf
    cases horder : Order.findById store.orders body.orderId with
    | none =>
      left
      rw [capturePayment, if_neg hf]
      simp only [horder]
    | some order =>
      cases hconfirm : env.stripe.confirm body.paymentIntentId "pm_card_visa" with
      | none =>
        left
        rw [capturePayment, if_neg hf]
        simp only [horder, hconfirm]
      | some paymentIntent =>
        by_cases hstatus : paymentIntent.status = "succeeded"
        · right
          refine ⟨order, rfl, capturePayment_products hfindOk horder hconfirm hstatus, ?_⟩
          rw [capturePayment_of_confirmed hfindOk horder hconfirm hstatus]
          cases hout : (updateStock env store.products order.cartItems).outcome with
          | threw => exact Or.inl ⟨by simp [capturePaymentCatch], rfl, Or.inl rfl⟩
          | notFound title => exact Or.inl ⟨by simp, rfl, Or.inl rfl⟩
          | notEnough title => exact Or.inl ⟨by simp, rfl, Or.inl rfl⟩
          | done =>
            dsimp only
            by_cases hcf : env.dbFails (DbOp.cartFindById order.cartId) = true
            · rw [if_pos hcf]
              exact Or.inl ⟨by simp [capturePaymentCatch], rfl, Or.inl rfl⟩
            · rw [if_neg hcf]
              cases hclear : clearCart env store.carts order.cartId with
              | none => exact Or.inl ⟨by simp [capturePaymentCatch], rfl, Or.inl rfl⟩
              | some carts =>
                dsimp only
                by_cases hos : env.dbFails (DbOp.orderSave order._id) = true
                · rw [if_pos hos]
                  exact Or.inl ⟨by simp [capturePaymentCatch], rfl, Or.inr rfl⟩
                · rw [if_neg hos]
                  exact Or.inr ⟨rfl, rfl⟩
        · left
          rw [capturePayment, if_neg hf]
          simp only [horder, hconfirm, if_neg hstatus]

theorem Order.findOrder_cons (o : Order) (os : List Order) (id : JsVal) :
    Order.findById (o :: os) id =
      if JsVal.str o._id = id then some o else Order.findById os id := by
  by_cases h : JsVal.str o._id = id
  · simp [Order.findById, List.find?_cons, h]
  · simp [Order.findById, List.find?_cons, h]

/-- An order read by its id and saved is what the lookup of that id returns. -/
theorem Order.findOrder_save_found {id : JsVal} {order doc : Order} (hid : doc._id = order._id) :
    ∀ orders : List Order, Order.findById orders id = some order →
      Order.findById (Order.save orders doc) id = some doc
  | [], h => by simp [Order.findById] at h
  | o :: os, h => by
    rw [Order.findOrder_cons] at h
    rw [Order.save]
    by_cases ho : JsVal.str o._id = id
    · rw [if_pos ho] at h
      cases h
      rw [if_pos hid.symm, Order.findOrder_cons, if_pos (by rw [hid]; exact ho)]
    · rw [if_neg ho] at h
      have hoid : JsVal.str order._id = id := by
        have := List.find?_some h
        simpa using this
      have hne : ¬ o._id = doc._id := by
        intro heq
        apply ho
        rw [heq, hid]
        exact hoid
      rw [if_neg hne, Order.findOrder_cons, if_neg ho]
      exact Order.findOrder_save_found hid os h

theorem Cart.findCart_cons (c : Cart) (cs : List Cart) (id : JsVal) :
    Cart.findById (c :: cs) id =
      if JsVal.str c._id = id then some c else Cart.findById cs id := by
  by_cases h : JsVal.str c._id = id
  · simp [Cart.findById, List.find?_cons, h]
  · simp [Cart.findById, List.find?_cons, h]

/-- A cart read by its id and saved is what the lookup of that id returns. -/
theorem Cart.findCart_save_found {id : JsVal} {cart doc : Cart} (hid : doc._id = cart._id) :
    ∀ carts : List Cart, Cart.findById carts id = some cart →
      Cart.findById (Cart.save carts doc) id = some doc
  | [], h => by simp [Cart.findById] at h
  | c :: cs, h => by
    rw [Cart.findCart_cons] at h
    rw [Cart.save]
    by_cases hc : JsVal.str c._id = id
    · rw [if_pos hc] at h
      cases h
      rw [if_pos hid.symm, Cart.findCart_cons, if_pos (by rw [hid]; exact hc)]
    · rw [if_neg hc] at h
      have hcid : JsVal.str cart._id = id := by
        have := List.find?_some h
        simpa using this
      have hne : ¬ c._id = doc._id := by
        intro heq
        apply hc
        rw [heq, hid]
        exact hcid
      rw [if_neg hne, Cart.findCart_cons, if_neg hc]
      exact Cart.findCart_save_found hid cs h

/-- A saved collection of orders holds the orders of before and the saved one. -/
theorem Order.mem_save {doc o : Order} :
    ∀ orders : List Order, o ∈ Order.save orders doc → o ∈ orders ∨ o = doc
  | [], h => by simp [Order.save] at h
  | x :: xs, h => by
    rw [Order.save] at h
    by_cases hx : x._id = doc._id
    · rw [if_pos hx, List.mem_cons] at h
      rcases h with h | h
      · exact Or.inr h
      · exact Or.inl (List.mem_cons_of_mem _ h)
    · rw [if_neg hx, List.mem_cons] at h
      rcases h with h | h
      · exact Or.inl (h ▸ List.mem_cons_self _ _)
      · rcases Order.mem_save xs h with h2 | h2
        · exact Or.inl (List.mem_cons_of_mem _ h2)
        · exact Or.inr h2

/-- Saving a product with a stock that is not below zero keeps all stocks so. -/
theorem Product.save_not_neg {doc : Product} (hdoc : doc.totalStock.lt (JsNum.fin 0) = false) :
    ∀ products : List Product, (∀ p ∈ products, p.totalStock.lt (JsNum.fin 0) = false) →
      ∀ p ∈ Product.save products doc, p.totalStock.lt (JsNum.fin 0) = false
  | [], _, p, hp => by simp [Product.save] at hp
  | x :: xs, h, p, hp => by
    rw [Product.save] at hp
    by_cases hx : x._id = doc._id
    · rw [if_pos hx, List.mem_cons] at hp
      rcases hp with hp | hp
      · rw [hp]; exact hdoc
      · exact h p (List.mem_cons_of_mem _ hp)
    · rw [if_neg hx, List.mem_cons] at hp
      rcases hp with hp | hp
      · rw [hp]; exact h x (List.mem_cons_self _ _)
      · exact Product.save_not_neg hdoc xs (fun q hq => h q (List.mem_cons_of_mem _ hq)) p hp

/-- The stock loop never leaves a stock below zero, whatever the line items and the
environment. -/
theorem updateStock_not_neg (env : Env) :
    ∀ (items : List CartItem) (products : List Product),
      (∀ p ∈ products, p.totalStock.lt (JsNum.fin 0) = false) →
      ∀ p ∈ (updateStock env products items).products, p.totalStock.lt (JsNum.fin 0) = false
  | [], products, h => by simpa [updateStock] using h
  | item :: rest, products, h => by
    rw [updateStock]
    split
    · exact h
    · split
      · exact h
      · rename_i product hfind
        split
        · exact h
        · rename_i hlt
          split
          · exact h
          · exact updateStock_not_neg env rest _
              (Product.save_not_neg (by
                show (product.totalStock.sub item.quantity).lt (JsNum.fin 0) = false
                exact JsNum.sub_not_neg (by simpa using hlt)) products h)

/-- Saving a product with a stock that is `>= 0` keeps all stocks so. -/
theorem Product.save_geZero {doc : Product} (hdoc : doc.totalStock.geZero = true) :
    ∀ products : List Product, (∀ p ∈ products, p.totalStock.geZero = true) →
      ∀ p ∈ Product.save products doc, p.totalStock.geZero = true
  | [], _, p, hp => by simp [Product.save] at hp
  | x :: xs, h, p, hp => by
    rw [Product.save] at hp
    by_cases hx : x._id = doc._id
    · rw [if_pos hx, List.mem_cons] at hp
      rcases hp with hp | hp
      · rw [hp]; exact hdoc
      · exact h p (List.mem_cons_of_mem _ hp)
    · rw [if_neg hx, List.mem_cons] at hp
      rcases hp with hp | hp
      · rw [hp]; exact h x (List.mem_cons_self _ _)
      · exact Product.save_geZero hdoc xs (fun q hq => h q (List.mem_cons_of_mem _ hq)) p hp

/-- The stock loop over line items with finite quantities keeps every stock `>= 0`,
whatever the environment. -/
theorem updateStock_geZero (env : Env) :
    ∀ (items : List CartItem) (products : List Product),
      (∀ item ∈ items, ∃ q : ℚ, item.quantity = JsNum.fin q) →
      (∀ p ∈ products, p.totalStock.geZero = true) →
      ∀ p ∈ (updateStock env products items).products, p.totalStock.geZero = true
  | [], products, _, h => by simpa [updateStock] using h
  | item :: rest, products, hq, h => by
    obtain ⟨q, hitem⟩ := hq item (List.mem_cons_self _ _)
    rw [updateStock]
    split
    · exact h
    · split
      · exact h
      · rename_i product hfind
        have hproduct : product.totalStock.geZero = true :=
          h product (List.mem_of_find?_eq_some hfind)
        split
        · exact h
        · rename_i hlt
          split
          · exact h
          · exact updateStock_geZero env rest _
              (fun i hi => hq i (List.mem_cons_of_mem _ hi))
              (Product.save_geZero (by
                show (product.totalStock.sub item.quantity).geZero = true
                rw [hitem] at hlt ⊢
                exact JsNum.sub_geZero hproduct (by simpa using hlt)) products h)

/-- What an order creation can do to the store: nothing, or add one new order. -/
theorem createOrder_store (env : Env) (body : CreateOrderBody) (store : Store) :
    (createOrder env body store).store = store ∨
    ∃ (items : List CartItem) (total : JsNum) (paymentIntent : PaymentIntent),
      (createOrder env body store).store =
        { store with orders := store.orders ++
          [newlyCreatedOrder env body items total paymentIntent] } := by
  unfold createOrder
  split
  · exact Or.inl rfl
  · split
    · exact Or.inl rfl
    · exact Or.inl rfl
    · split
      · exact Or.inl rfl
      · split
        · exact Or.inl rfl
        · dsimp only
          split
          · exact Or.inl rfl
          · split
            · exact Or.inl rfl
            · exact Or.inr ⟨_, _, _, rfl⟩

/-- The cart of the order after `clearCart`, with a store that answers. -/
theorem clearCart_of_answers {env : Env} (hdb : storeAnswers env) (carts : List Cart)
    (cartId : JsVal) :
    clearCart env carts cartId =
      some (match Cart.findById carts cartId with
        | none => carts
        | some cart => Cart.save carts { cart with items := [] }) := by
  rw [clearCart]
  cases Cart.findById carts cartId with
  | none => rfl
  | some cart =>
    dsimp only
    rw [if_neg (by simp [hdb _])]

/-- The capture of an order whose line items are all in stock, the payment being
confirmed as succeeded and the store answering. -/
theorem capturePayment_of_inStock {env : Env} {body : CaptureBody} {store : Store}
    {order : Order} {paymentIntent : PaymentConfirmation} (hdb : storeAnswers env)
    (horder : Order.findById store.orders body.orderId = some order)
    (hconfirm : env.stripe.confirm body.paymentIntentId "pm_card_visa" = some paymentIntent)
    (hstatus : paymentIntent.status = "succeeded")
    (hstock : inStock store.products order.cartItems) :
    capturePayment env body store =
      { res := { status := 200,
                 body := ResBody.captured "Payment successful and order confirmed"
                   (paidOrder env order body.paymentIntentId) "confirmed" true },
        store := { products := (updateStock env store.products order.cartItems).products,
                   carts := (match Cart.findById store.carts order.cartId with
                     | none => store.carts
                     | some cart => Cart.save store.carts { cart with items := [] }),
                   orders := Order.save store.orders
                     (paidOrder env order body.paymentIntentId) },
        stripeCreateCalls := [],
        stripeConfirmCalls := [(body.paymentIntentId, "pm_card_visa")] } := by
  rw [capturePayment_of_confirmed (hdb _) horder hconfirm hstatus,
    (updateStock_of_inStock hdb order.cartItems store.products hstock).1]
  dsimp only
  rw [if_neg (by simp [hdb _]), clearCart_of_answers hdb]
  dsimp only
  rw [if_neg (by simp [hdb _])]

theorem getAllOrdersByUser_store (env : Env) (userId : String) (store : Store) :
    (getAllOrdersByUser env userId store).store = store := by
  unfold getAllOrdersByUser
  split
  · rfl
  · dsimp only
    split <;> rfl

theorem getOrderDetails_store (env : Env) (id : String) (store : Store) :
    (getOrderDetails env id store).store = store := by
  unfold getOrderDetails
  split
  · rfl
  · split <;> rfl

/-- The orders after an order creation: those of before, or those and one pending
order more. -/
theorem createOrder_orders (env : Env) (body : CreateOrderBody) (store : Store) :
    (createOrder env body store).store.orders = store.orders ∨
    ∃ o : Order, (createOrder env body store).store.orders = store.orders ++ [o] ∧
      o.orderStatus = "pending" ∧ o.paymentStatus = "pending" := by
  rcases createOrder_store env body store with h | ⟨items, total, paymentIntent, h⟩
  · rw [h]
    exact Or.inl rfl
  · rw [h]
    exact Or.inr ⟨_, rfl, rfl, rfl⟩

/-- The orders after a capture: those of before, or those with the order of the
request saved as confirmed and paid. -/
theorem capturePayment_orders (env : Env) (body : CaptureBody) (store : Store) :
    (capturePayment env body store).store.orders = store.orders ∨
    ∃ order : Order, Order.findById store.orders body.orderId = some order ∧
      (capturePayment env body store).store.orders =
        Order.save store.orders (paidOrder env order body.paymentIntentId) ∧
      (paidOrder env order body.paymentIntentId).orderStatus = "confirmed" ∧
      (paidOrder env order body.paymentIntentId).paymentStatus = "paid" := by
  rcases capturePayment_store env body store with hsame | ⟨order, horder, _, hcase⟩
  · rw [hsame]
    exact Or.inl rfl
  · rcases hcase with ⟨_, horders, _⟩ | ⟨_, horders⟩
    · exact Or.inl horders
    · exact Or.inr ⟨order, horder, horders, rfl, rfl⟩

/-- Every request keeps the orders in one of their two states. -/
theorem handle_validStatus (env : Env) (request : Request) (store : Store)
    (h : ∀ o ∈ store.orders, o.validStatus) :
    ∀ o ∈ (handle env request store).store.orders, o.validStatus := by
  cases request with
  | createOrder body =>
    intro o ho
    rcases createOrder_orders env body store with hsame | ⟨new, hadd, hs, hp⟩
    · rw [show handle env (Request.createOrder body) store = createOrder env body store from rfl,
        hsame] at ho
      exact h o ho
    · rw [show handle env (Request.createOrder body) store = createOrder env body store from rfl,
        hadd, List.mem_append, List.mem_singleton] at ho
      rcases ho with ho | ho
      · exact h o ho
      · rw [ho]
        exact Or.inl ⟨hs, hp⟩
  | capturePayment body =>
    intro o ho
    rcases capturePayment_orders env body store with hsame | ⟨order, _, hsave, hs, hp⟩
    · rw [show handle env (Request.capturePayment body) store =
        capturePayment env body store from rfl, hsame] at ho
      exact h o ho
    · rw [show handle env (Request.capturePayment body) store =
        capturePayment env body store from rfl, hsave] at ho
      rcases Order.mem_save store.orders ho with ho | ho
      · exact h o ho
      · rw [ho]
        exact Or.inr ⟨hs, hp⟩
  | getAllOrdersByUser userId =>
    rw [show handle env (Request.getAllOrdersByUser userId) store =
      getAllOrdersByUser env userId store from rfl, getAllOrdersByUser_store]
    exact h
  | getOrderDetails id =>
    rw [show handle env (Request.getOrderDetails id) store =
      getOrderDetails env id store from rfl, getOrderDetails_store]
    exact h

/-- In every reachable store the orders are in one of their two states. -/
theorem reachable_validStatus {store : Store} (h : Reachable store) :
    ∀ o ∈ store.orders, o.validStatus := by
  induction h with
  | init products carts =>
    intro o ho
    simp at ho
  | step env request _ ih => exact handle_validStatus env request _ ih

/-- The store of the capture tests answers every query. -/
theorem storeAnswers_test (stripe : Stripe) : storeAnswers (testEnv stripe) := fun _ => rfl

theorem findById_captureStore_prod1 (cartItems : List CartItem) :
    Product.findById (captureStore cartItems).products "prod1" = some mockProduct := by
  simp [Product.findById, captureStore, mockProduct]

theorem findById_captureStore_prod2 (cartItems : List CartItem) :
    Product.findById (captureStore cartItems).products "prod2" = some secondProduct := by
  simp [Product.findById, captureStore, mockProduct, secondProduct]

theorem findById_captureStore_order (cartItems : List CartItem) :
    Order.findById (captureStore cartItems).orders paymentData.orderId =
      some (mockOrder cartItems) := by
  simp [Order.findById, captureStore, mockOrder, paymentData]

theorem findById_wideStore_prod1 (cartItems : List CartItem) :
    Product.findById (wideStore cartItems).products "prod1" = some mockProduct := by
  simp [Product.findById, wideStore, mockProduct]

theorem findById_wideStore_prod4 (cartItems : List CartItem) :
    Product.findById (wideStore cartItems).products "prod4" = some bulkProduct := by
  simp [Product.findById, wideStore, mockProduct, costlyProduct, bulkProduct]

theorem findById_wideStore_order (cartItems : List CartItem) :
    Order.findById (wideStore cartItems).orders paymentData.orderId =
      some (mockOrder cartItems) := by
  simp [Order.findById, wideStore, mockOrder, paymentData]

theorem inStock_nil (products : List Product) : inStock products [] := by
  intro earlier later item h
  simp at h

theorem inStock_singleton {products : List Product} {item : CartItem} {product : Product}
    (hfind : Product.findById products item.productId = some product)
    (hstock : product.totalStock.lt item.quantity = false) : inStock products [item] := by
  intro earlier later it h
  cases earlier with
  | nil =>
    simp only [List.nil_append, List.cons.injEq] at h
    obtain ⟨hit, _⟩ := h
    subst hit
    exact ⟨product, hfind, by rw [stockAfter_nil]; exact hstock⟩
  | cons e es => simp at h

/-- A line item for at most 10 units of the mock product is in stock in the store of
the capture tests. -/
theorem inStock_prod1 (cartItems : List CartItem) (quantity : ℚ) (h : quantity ≤ 10) :
    inStock (captureStore cartItems).products [lineItem "prod1" (JsNum.fin quantity)] :=
  inStock_singleton (findById_captureStore_prod1 cartItems)
    (by simpa [JsNum.lt, lineItem, mockProduct] using h)

/-- One unit of the bulk product is in stock in the wide store. -/
theorem inStock_prod4 (products : List Product)
    (hfind : Product.findById products "prod4" = some bulkProduct) :
    inStock products [lineItem "prod4" (JsNum.fin 1)] :=
  inStock_singleton hfind (by norm_num [JsNum.lt, lineItem, bulkProduct])

/-- The stock that one unit leaves of the bulk product: 9007199254740992. -/
theorem stockAfter_prod4 :
    stockAfter "prod4" bulkProduct.totalStock [lineItem "prod4" (JsNum.fin 1)] =
      JsNum.fin 9007199254740992 := by
  show (if "prod4" = "prod4" then bulkProduct.totalStock.sub (JsNum.fin 1) else bulkProduct.totalStock) = _
  rw [if_pos rfl]
  exact bulk_stock_less_one

/-- The stock of the product `id`, as a lookup reads it. -/
theorem stockOf_withStock (products : List Product) (id : String) (product : Product)
    (stock : JsNum) (h : Product.findById products id = some (product.withStock stock)) :
    (Product.findById products id).map (fun p => p.totalStock) = some stock := by
  rw [h]; rfl

/-- What two units leave of the stock of the mock product: 8. -/
theorem stockAfter_two :
    stockAfter "prod1" mockProduct.totalStock [lineItem "prod1" (JsNum.fin 2)] =
      JsNum.fin 8 := by
  show (if "prod1" = "prod1" then mockProduct.totalStock.sub (JsNum.fin 2) else mockProduct.totalStock) = _
  rw [if_pos rfl]
  exact ten_less_two

/-- What three units leave of the stock of the mock product: 7. -/
theorem stockAfter_three :
    stockAfter "prod1" mockProduct.totalStock [lineItem "prod1" (JsNum.fin 3)] =
      JsNum.fin 7 := by
  show (if "prod1" = "prod1" then mockProduct.totalStock.sub (JsNum.fin 3) else mockProduct.totalStock) = _
  rw [if_pos rfl]
  exact ten_less_three

/-! ## Properties of capturePayment -/

/-- C11. When no persisted order has the `orderId` of the request, `capturePayment`
responds 404 with `success: false` and the message "Order can not be found", whatever
the `paymentIntentId`, does not call the confirmation of the payment collaborator, and
leaves the whole store (orders, products, carts) as it was. -/
theorem capturePayment_order_not_found (env : Env) (body : CaptureBody) (store : Store)
    (hfindOk : env.dbFails (DbOp.orderFindById body.orderId) = false)
    (horder : Order.findById store.orders body.orderId = none) :
    (capturePayment env body store).res =
      { status := 404, body := ResBody.failure "Order can not be found" } ∧
    (capturePayment env body store).res.body.success = false ∧
    (capturePayment env body store).stripeConfirmCalls = [] ∧
    (capturePayment env body store).store = store := by
  rw [capturePayment, if_neg (by simp [hfindOk])]
  simp [horder, ResBody.success]

/-- C11, on the unit test "should handle payment capture when order is not found". -/
theorem capturePayment_order_not_found_witness :
    (capturePayment (testEnv mockStripe)
      { paymentIntentId := JsVal.str "pi_test123", orderId := JsVal.str "nonexistent" }
      (captureStore [lineItem "prod1" (JsNum.fin 2)])).res =
      { status := 404, body := ResBody.failure "Order can not be found" } ∧
    (capturePayment (testEnv mockStripe)
      { paymentIntentId := JsVal.str "pi_test123", orderId := JsVal.str "nonexistent" }
      (captureStore [lineItem "prod1" (JsNum.fin 2)])).stripeConfirmCalls = [] ∧
    (capturePayment (testEnv mockStripe)
      { paymentIntentId := JsVal.str "pi_test123", orderId := JsVal.str "nonexistent" }
      (captureStore [lineItem "prod1" (JsNum.fin 2)])).store =
      captureStore [lineItem "prod1" (JsNum.fin 2)] := by
  have h := capturePayment_order_not_found (testEnv mockStripe)
    { paymentIntentId := JsVal.str "pi_test123", orderId := JsVal.str "nonexistent" }
    (captureStore [lineItem "prod1" (JsNum.fin 2)]) rfl
    (by simp [Order.findById, captureStore, mockOrder])
  exact ⟨h.1, h.2.2.1, h.2.2.2⟩

/-- C12, as stated, fails: the order asks one unit of a product with 9007199254740994
in stock; the capture is answered 200 and the stock persisted is 9007199254740992, not
the stock less the quantity, which is no double. -/
theorem capturePayment_exact_stock_counterexample :
    (Product.findById (wideStore [lineItem "prod4" (JsNum.fin 1)]).products "prod4").map
      (fun p => p.totalStock) = some (JsNum.fin 9007199254740994) ∧
    (1 : ℚ) ≤ 9007199254740994 ∧
    (capturePayment (testEnv mockStripe) paymentData
      (wideStore [lineItem "prod4" (JsNum.fin 1)])).res.status = 200 ∧
    (Product.findById (capturePayment (testEnv mockStripe) paymentData
      (wideStore [lineItem "prod4" (JsNum.fin 1)])).store.products "prod4").map
      (fun p => p.totalStock) = some (JsNum.fin 9007199254740992) ∧
    (9007199254740992 : ℚ) ≠ 9007199254740994 - 1 := by
  have hstock := inStock_prod4 (wideStore [lineItem "prod4" (JsNum.fin 1)]).products
    (findById_wideStore_prod4 _)
  have hrun := @capturePayment_of_inStock (testEnv mockStripe) paymentData
    (wideStore [lineItem "prod4" (JsNum.fin 1)]) (mockOrder [lineItem "prod4" (JsNum.fin 1)])
    { id := JsVal.str "pi_test123", status := "succeeded" } (storeAnswers_test mockStripe)
    (findById_wideStore_order _) rfl rfl hstock
  refine ⟨?_, by norm_num, ?_, ?_, by norm_num⟩
  · rw [findById_wideStore_prod4]; rfl
  · rw [hrun]
  · have hproducts : (capturePayment (testEnv mockStripe) paymentData
        (wideStore [lineItem "prod4" (JsNum.fin 1)])).store.products =
        (updateStock (testEnv mockStripe) (wideStore [lineItem "prod4" (JsNum.fin 1)]).products
          [lineItem "prod4" (JsNum.fin 1)]).products := by
      rw [hrun]
      rfl
    have hstate := (updateStock_of_inStock (storeAnswers_test mockStripe) _ _ hstock).2 "prod4"
    rw [findById_wideStore_prod4] at hstate
    rw [hproducts, stockOf_withStock _ _ bulkProduct _ hstate, stockAfter_prod4]

/-- C12, amended. In a capture whose order is found and whose payment is confirmed as
succeeded, take a line item that is reached (the loop over the line items before it ran
to its end, leaving `products1`) and for which the comparison of line 121 finds the
stock of its product not less than its quantity. Processing it persists that product
with, as stock, the difference of the two doubles (the exact difference rounded to the
nearest double), a stock that is not below zero, and changes no other product; the
products the request leaves are those the loop reaches from there over the remaining
line items. When the stock and the quantity are whole numbers and the stock is at most
2^53, the new stock is exactly the stock less the quantity. -/
theorem capturePayment_lowers_stock (env : Env) (body : CaptureBody) (store : Store)
    (order : Order) (paymentIntent : PaymentConfirmation) (pre post : List CartItem)
    (item : CartItem) (products1 : List Product) (product : Product)
    (hdb : storeAnswers env)
    (horder : Order.findById store.orders body.orderId = some order)
    (hconfirm : env.stripe.confirm body.paymentIntentId "pm_card_visa" = some paymentIntent)
    (hstatus : paymentIntent.status = "succeeded")
    (hitems : order.cartItems = pre ++ item :: post)
    (hpre : updateStock env store.products pre =
      { products := products1, outcome := StockEnd.done })
    (hfind : Product.findById products1 item.productId = some product)
    (hstock : product.totalStock.lt item.quantity = false) :
    Product.findById (Product.save products1 (product.lowered item.quantity)) item.productId =
      some (product.lowered item.quantity) ∧
    (product.lowered item.quantity).totalStock = product.totalStock.sub item.quantity ∧
    (product.lowered item.quantity).totalStock.lt (JsNum.fin 0) = false ∧
    (∀ id : String, id ≠ item.productId →
      Product.findById (Product.save products1 (product.lowered item.quantity)) id =
        Product.findById products1 id) ∧
    (capturePayment env body store).store.products =
      (updateStock env (Product.save products1 (product.lowered item.quantity)) post).products ∧
    (∀ s q : ℕ, product.totalStock = JsNum.fin s → item.quantity = JsNum.fin q → s ≤ 2 ^ 53 →
      (product.lowered item.quantity).totalStock = JsNum.fin (s - q)) := by
  have hid : (product.lowered item.quantity)._id = item.productId :=
    (Product.lowered_id product item.quantity).trans (Product.findById_id hfind)
  have hfind1 : Product.findById products1 (product.lowered item.quantity)._id =
      some product := by
    rw [hid]; exact hfind
  refine ⟨?_, rfl, ?_, ?_, ?_, ?_⟩
  · rw [Product.findById_save_found hfind1, if_pos hid]
  · exact JsNum.sub_not_neg hstock
  · intro id hne
    rw [Product.findById_save_found hfind1, hid, if_neg (fun h => hne h.symm)]
  · rw [capturePayment_products (hdb _) horder hconfirm hstatus, hitems,
      updateStock_append env (item :: post) pre store.products products1 hpre,
      updateStock_cons_of_stock post (hdb _) (hdb _) hfind hstock]
    rfl
  · intro s q hs hq hle
    rw [hs, hq] at hstock
    have hqs : q ≤ s := by
      simp only [JsNum.lt, decide_eq_false_iff_not, not_lt] at hstock
      exact_mod_cast hstock
    show product.totalStock.sub item.quantity = _
    rw [hs, hq, JsNum.sub_natCast s q hqs hle, Nat.cast_sub hqs]

/-- C12, on the unit test: 10 in stock, 2 ordered, 8 left. -/
theorem capturePayment_lowers_stock_witness :
    (mockProduct.totalStock.lt (lineItem "prod1" (JsNum.fin 2)).quantity = false) ∧
    ((capturePayment (testEnv mockStripe) paymentData
      (captureStore [lineItem "prod1" (JsNum.fin 2)])).store.products.map
        (fun p => p.totalStock)) = [JsNum.fin 8, JsNum.fin 5] := by
  have hstock : mockProduct.totalStock.lt (lineItem "prod1" (JsNum.fin 2)).quantity = false := by
    norm_num [JsNum.lt, lineItem, mockProduct]
  have h := capturePayment_lowers_stock (testEnv mockStripe) paymentData
    (captureStore [lineItem "prod1" (JsNum.fin 2)]) (mockOrder [lineItem "prod1" (JsNum.fin 2)])
    { id := JsVal.str "pi_test123", status := "succeeded" } [] []
    (lineItem "prod1" (JsNum.fin 2))
    (captureStore [lineItem "prod1" (JsNum.fin 2)]).products mockProduct
    (storeAnswers_test mockStripe)
    (findById_captureStore_order _) rfl rfl rfl rfl (findById_captureStore_prod1 _) hstock
  refine ⟨hstock, ?_⟩
  rw [h.2.2.2.2.1]
  simp [updateStock, Product.save, captureStore, Product.lowered, mockProduct, lineItem,
    secondProduct, ten_less_two]

/-- C13, as stated, fails: the order asks 3 and then 11 of a product with 10 in stock;
the capture is answered 400 "Not enough stock", yet the stock of that product is 7
afterwards, not the 10 it was before the request. -/
theorem capturePayment_not_enough_stock_counterexample :
    (Product.findById (captureStore [lineItem "prod1" (JsNum.fin 3),
      lineItem "prod1" (JsNum.fin 11)]).products "prod1").map (fun p => p.totalStock) =
      some (JsNum.fin 10) ∧
    (capturePayment (testEnv mockStripe) paymentData
      (captureStore [lineItem "prod1" (JsNum.fin 3), lineItem "prod1" (JsNum.fin 11)])).res =
      { status := 400, body := ResBody.failure "Not enough stock for product: Test Product" } ∧
    (Product.findById (capturePayment (testEnv mockStripe) paymentData
      (captureStore [lineItem "prod1" (JsNum.fin 3),
        lineItem "prod1" (JsNum.fin 11)])).store.products
      "prod1").map (fun p => p.totalStock) = some (JsNum.fin 7) := by
  have hpre := inStock_prod1 [lineItem "prod1" (JsNum.fin 3), lineItem "prod1" (JsNum.fin 11)]
    3 (by norm_num)
  have hrun := @capturePayment_stops_short (testEnv mockStripe) paymentData
    (captureStore [lineItem "prod1" (JsNum.fin 3), lineItem "prod1" (JsNum.fin 11)])
    (mockOrder [lineItem "prod1" (JsNum.fin 3), lineItem "prod1" (JsNum.fin 11)])
    { id := JsVal.str "pi_test123", status := "succeeded" } [lineItem "prod1" (JsNum.fin 3)] []
    (lineItem "prod1" (JsNum.fin 11)) mockProduct (storeAnswers_test mockStripe)
    (findById_captureStore_order _) rfl rfl rfl hpre (findById_captureStore_prod1 _)
    (by
      show (stockAfter "prod1" mockProduct.totalStock [lineItem "prod1" (JsNum.fin 3)]).lt
        (JsNum.fin 11) = true
      rw [stockAfter_three]
      norm_num [JsNum.lt])
  refine ⟨?_, ?_, ?_⟩
  · rw [findById_captureStore_prod1]; rfl
  · rw [hrun]; rfl
  · rw [hrun]
    have hstate := (updateStock_of_inStock (storeAnswers_test mockStripe) _ _ hpre).2 "prod1"
    rw [findById_captureStore_prod1] at hstate
    rw [stockOf_withStock _ _ mockProduct _ hstate, stockAfter_three]

/-- C13, amended. In a capture whose order is found and whose payment is confirmed as
succeeded, with a store that answers, when the line items before `bad` are in stock and
the comparison of line 121 finds what they leave of the product of `bad` less than the
quantity `bad` asks, `capturePayment` responds 400 with `success: false` and the
message "Not enough stock for product: <product title>"; the stock of that product
stays as the earlier line items of the same product left it (its value before the
request with their quantities subtracted one after the other, as doubles), hence
unchanged when no earlier line item asks for it. -/
theorem capturePayment_not_enough_stock (env : Env) (body : CaptureBody) (store : Store)
    (order : Order) (paymentIntent : PaymentConfirmation) (pre post : List CartItem)
    (bad : CartItem) (product : Product) (hdb : storeAnswers env)
    (horder : Order.findById store.orders body.orderId = some order)
    (hconfirm : env.stripe.confirm body.paymentIntentId "pm_card_visa" = some paymentIntent)
    (hstatus : paymentIntent.status = "succeeded")
    (hitems : order.cartItems = pre ++ bad :: post)
    (hpre : inStock store.products pre)
    (hfind : Product.findById store.products bad.productId = some product)
    (hshort : (stockAfter bad.productId product.totalStock pre).lt bad.quantity = true) :
    (capturePayment env body store).res =
      { status := 400,
        body := ResBody.failure ("Not enough stock for product: " ++ product.title) } ∧
    (capturePayment env body store).res.body.success = false ∧
    Product.findById (capturePayment env body store).store.products bad.productId =
      some (product.withStock (stockAfter bad.productId product.totalStock pre)) ∧
    ((∀ item ∈ pre, item.productId ≠ bad.productId) →
      Product.findById (capturePayment env body store).store.products bad.productId =
        some product) := by
  rw [capturePayment_stops_short hdb horder hconfirm hstatus hitems hpre hfind hshort]
  refine ⟨rfl, rfl, ?_, fun hne => ?_⟩
  · show Product.findById (updateStock env store.products pre).products bad.productId = _
    rw [(updateStock_of_inStock hdb pre store.products hpre).2 bad.productId, hfind]
    rfl
  · show Product.findById (updateStock env store.products pre).products bad.productId = _
    rw [updateStock_findById_of_not_mem hdb hpre bad.productId hne, hfind]

/-- C13, on the unit test: 10 asked of a product with 5 in stock is answered 400 and
the product keeps its 5. -/
theorem capturePayment_not_enough_stock_witness :
    (capturePayment (testEnv mockStripe) paymentData
      (captureStore [lineItem "prod2" (JsNum.fin 10)])).res =
      { status := 400,
        body := ResBody.failure "Not enough stock for product: Second Product" } ∧
    Product.findById (capturePayment (testEnv mockStripe) paymentData
      (captureStore [lineItem "prod2" (JsNum.fin 10)])).store.products "prod2" =
      some secondProduct := by
  have h := capturePayment_not_enough_stock (testEnv mockStripe) paymentData
    (captureStore [lineItem "prod2" (JsNum.fin 10)]) (mockOrder [lineItem "prod2" (JsNum.fin 10)])
    { id := JsVal.str "pi_test123", status := "succeeded" } [] []
    (lineItem "prod2" (JsNum.fin 10))
    secondProduct (storeAnswers_test mockStripe) (findById_captureStore_order _) rfl rfl rfl
    (inStock_nil _) (findById_captureStore_prod2 _)
    (by
      show (stockAfter "prod2" secondProduct.totalStock []).lt (JsNum.fin 10) = true
      rw [stockAfter_nil]
      norm_num [JsNum.lt, secondProduct])
  exact ⟨h.1, h.2.2.2 (fun item hitem => by simp at hitem)⟩

/-- C14, as stated, fails: the order asks 2 of a product with 10 in stock and then 10
of a product with 5 in stock; the capture is answered 400, and the first product is
left with 8 in stock, not the 10 of before the capture. -/
theorem capturePayment_partial_commit_counterexample :
    (Product.findById (captureStore [lineItem "prod1" (JsNum.fin 2),
      lineItem "prod2" (JsNum.fin 10)]).products "prod1").map (fun p => p.totalStock) =
      some (JsNum.fin 10) ∧
    (capturePayment (testEnv mockStripe) paymentData
      (captureStore [lineItem "prod1" (JsNum.fin 2),
        lineItem "prod2" (JsNum.fin 10)])).res.status = 400 ∧
    (Product.findById (capturePayment (testEnv mockStripe) paymentData
      (captureStore [lineItem "prod1" (JsNum.fin 2),
        lineItem "prod2" (JsNum.fin 10)])).store.products
      "prod1").map (fun p => p.totalStock) = some (JsNum.fin 8) := by
  have hpre := inStock_prod1 [lineItem "prod1" (JsNum.fin 2), lineItem "prod2" (JsNum.fin 10)]
    2 (by norm_num)
  have hrun := @capturePayment_stops_short (testEnv mockStripe) paymentData
    (captureStore [lineItem "prod1" (JsNum.fin 2), lineItem "prod2" (JsNum.fin 10)])
    (mockOrder [lineItem "prod1" (JsNum.fin 2), lineItem "prod2" (JsNum.fin 10)])
    { id := JsVal.str "pi_test123", status := "succeeded" } [lineItem "prod1" (JsNum.fin 2)] []
    (lineItem "prod2" (JsNum.fin 10)) secondProduct (storeAnswers_test mockStripe)
    (findById_captureStore_order _) rfl rfl rfl hpre (findById_captureStore_prod2 _)
    (by
      show (stockAfter "prod2" secondProduct.totalStock [lineItem "prod1" (JsNum.fin 2)]).lt
        (JsNum.fin 10) = true
      rw [stockAfter_of_not_mem "prod2" _ _ (by simp [lineItem])]
      norm_num [JsNum.lt, secondProduct])
  refine ⟨?_, ?_, ?_⟩
  · rw [findById_captureStore_prod1]; rfl
  · rw [hrun]
  · rw [hrun]
    have hstate := (updateStock_of_inStock (storeAnswers_test mockStripe) _ _ hpre).2 "prod1"
    rw [findById_captureStore_prod1] at hstate
    rw [stockOf_withStock _ _ mockProduct _ hstate, stockAfter_two]

/-- C14, amended. `capturePayment` aborts at the first line item that asks more than
the available stock, and rolls nothing back. With the order found, the payment
confirmed as succeeded and a store that answers, when the line items before `bad` are
in stock and the comparison of line 121 finds what they leave of the product of `bad`
less than the quantity `bad` asks, the capture is answered 400 and every product that
none of the earlier line items asks for has the stock it had before the capture; when
`bad` is the first line item the whole store is as before. -/
theorem capturePayment_abort_keeps_unordered (env : Env) (body : CaptureBody) (store : Store)
    (order : Order) (paymentIntent : PaymentConfirmation) (pre post : List CartItem)
    (bad : CartItem) (product : Product) (hdb : storeAnswers env)
    (horder : Order.findById store.orders body.orderId = some order)
    (hconfirm : env.stripe.confirm body.paymentIntentId "pm_card_visa" = some paymentIntent)
    (hstatus : paymentIntent.status = "succeeded")
    (hitems : order.cartItems = pre ++ bad :: post)
    (hpre : inStock store.products pre)
    (hfind : Product.findById store.products bad.productId = some product)
    (hshort : (stockAfter bad.productId product.totalStock pre).lt bad.quantity = true) :
    (capturePayment env body store).res.status = 400 ∧
    (∀ id : String, (∀ item ∈ pre, item.productId ≠ id) →
      Product.findById (capturePayment env body store).store.products id =
        Product.findById store.products id) ∧
    (pre = [] → (capturePayment env body store).store = store) := by
  rw [capturePayment_stops_short hdb horder hconfirm hstatus hitems hpre hfind hshort]
  refine ⟨rfl, fun id hid => updateStock_findById_of_not_mem hdb hpre id hid, fun hnil => ?_⟩
  subst hnil
  rfl

/-- C14, on the order asking 2 of the first product and 10 of the second, which has 5:
the capture is answered 400 and the second product keeps its stock. -/
theorem capturePayment_abort_keeps_unordered_witness :
    (capturePayment (testEnv mockStripe) paymentData
      (captureStore [lineItem "prod1" (JsNum.fin 2),
        lineItem "prod2" (JsNum.fin 10)])).res.status = 400 ∧
    Product.findById (capturePayment (testEnv mockStripe) paymentData
      (captureStore [lineItem "prod1" (JsNum.fin 2),
        lineItem "prod2" (JsNum.fin 10)])).store.products "prod2" =
      some secondProduct := by
  have h := capturePayment_abort_keeps_unordered (testEnv mockStripe) paymentData
    (captureStore [lineItem "prod1" (JsNum.fin 2), lineItem "prod2" (JsNum.fin 10)])
    (mockOrder [lineItem "prod1" (JsNum.fin 2), lineItem "prod2" (JsNum.fin 10)])
    { id := JsVal.str "pi_test123", status := "succeeded" } [lineItem "prod1" (JsNum.fin 2)] []
    (lineItem "prod2" (JsNum.fin 10)) secondProduct (storeAnswers_test mockStripe)
    (findById_captureStore_order _) rfl rfl rfl (inStock_prod1 _ 2 (by norm_num))
    (findById_captureStore_prod2 _)
    (by
      show (stockAfter "prod2" secondProduct.totalStock [lineItem "prod1" (JsNum.fin 2)]).lt
        (JsNum.fin 10) = true
      rw [stockAfter_of_not_mem "prod2" _ _ (by simp [lineItem])]
      norm_num [JsNum.lt, secondProduct])
  refine ⟨h.1, ?_⟩
  rw [h.2.1 "prod2" (fun item hitem => by
    rw [List.mem_singleton] at hitem
    subst hitem
    simp [lineItem])]
  exact findById_captureStore_prod2 _

/-- C15, as stated, fails: the order asks one unit of a product with 9007199254740994
in stock, then a product that does not exist, then 2 of the mock product; the first
line item is in stock, the capture is answered 404, and the first product is left with
9007199254740992, which is not its stock lowered by the quantity. -/
theorem capturePayment_no_rollback_counterexample :
    inStock (wideStore [lineItem "prod4" (JsNum.fin 1), lineItem "nonexistent" (JsNum.fin 1),
      lineItem "prod1" (JsNum.fin 2)]).products [lineItem "prod4" (JsNum.fin 1)] ∧
    (capturePayment (testEnv mockStripe) paymentData
      (wideStore [lineItem "prod4" (JsNum.fin 1), lineItem "nonexistent" (JsNum.fin 1),
        lineItem "prod1" (JsNum.fin 2)])).res.status = 404 ∧
    (Product.findById (wideStore [lineItem "prod4" (JsNum.fin 1),
      lineItem "nonexistent" (JsNum.fin 1), lineItem "prod1" (JsNum.fin 2)]).products
      "prod4").map (fun p => p.totalStock) = some (JsNum.fin 9007199254740994) ∧
    (Product.findById (capturePayment (testEnv mockStripe) paymentData
      (wideStore [lineItem "prod4" (JsNum.fin 1), lineItem "nonexistent" (JsNum.fin 1),
        lineItem "prod1" (JsNum.fin 2)])).store.products "prod4").map
      (fun p => p.totalStock) = some (JsNum.fin 9007199254740992) ∧
    (9007199254740992 : ℚ) ≠ 9007199254740994 - 1 := by
  have hpre := inStock_prod4 (wideStore [lineItem "prod4" (JsNum.fin 1),
    lineItem "nonexistent" (JsNum.fin 1), lineItem "prod1" (JsNum.fin 2)]).products
    (findById_wideStore_prod4 _)
  have hrun := @capturePayment_stops_missing (testEnv mockStripe) paymentData
    (wideStore [lineItem "prod4" (JsNum.fin 1), lineItem "nonexistent" (JsNum.fin 1),
      lineItem "prod1" (JsNum.fin 2)])
    (mockOrder [lineItem "prod4" (JsNum.fin 1), lineItem "nonexistent" (JsNum.fin 1),
      lineItem "prod1" (JsNum.fin 2)])
    { id := JsVal.str "pi_test123", status := "succeeded" } [lineItem "prod4" (JsNum.fin 1)]
    [lineItem "prod1" (JsNum.fin 2)] (lineItem "nonexistent" (JsNum.fin 1))
    (storeAnswers_test mockStripe) (findById_wideStore_order _) rfl rfl rfl hpre
    (by simp [Product.findById, wideStore, mockProduct, costlyProduct, bulkProduct,
      fractionProduct, lineItem])
  refine ⟨hpre, ?_, ?_, ?_, by norm_num⟩
  · rw [hrun]
  · rw [findById_wideStore_prod4]; rfl
  · rw [hrun]
    have hstate := (updateStock_of_inStock (storeAnswers_test mockStripe) _ _ hpre).2 "prod4"
    rw [findById_wideStore_prod4] at hstate
    rw [stockOf_withStock _ _ bulkProduct _ hstate, stockAfter_prod4]

/-- C15, amended. `capturePayment` processes the line items in order and rolls nothing
back. With the order found, the payment confirmed as succeeded and a store that
answers, when the line items `pre` before `bad` are in stock and `bad` has no product
or the comparison of line 121 finds what they leave of its product less than the
quantity it asks, the capture fails (404 in the first case, 400 in the second,
`success: false`) and the products it leaves are those the loop over `pre` alone
leaves: each product has its stock with the quantities that the line items of `pre`
ask of it subtracted one after the other, each difference being rounded to the nearest
double, and a product that none of them asks for, such as the product of a later line
item, is as before. For a product whose stock is a whole number up to 2^53 and of which
`pre` asks whole quantities, that is exactly the stock less those quantities. -/
theorem capturePayment_no_rollback (env : Env) (body : CaptureBody) (store : Store)
    (order : Order) (paymentIntent : PaymentConfirmation) (pre post : List CartItem)
    (bad : CartItem) (hdb : storeAnswers env)
    (horder : Order.findById store.orders body.orderId = some order)
    (hconfirm : env.stripe.confirm body.paymentIntentId "pm_card_visa" = some paymentIntent)
    (hstatus : paymentIntent.status = "succeeded")
    (hitems : order.cartItems = pre ++ bad :: post)
    (hpre : inStock store.products pre)
    (hbad : Product.findById store.products bad.productId = none ∨
      ∃ product, Product.findById store.products bad.productId = some product ∧
        (stockAfter bad.productId product.totalStock pre).lt bad.quantity = true) :
    ((Product.findById store.products bad.productId = none →
        (capturePayment env body store).res =
          { status := 404, body := ResBody.failure ("Product not found: " ++ bad.title) }) ∧
      (∀ product, Product.findById store.products bad.productId = some product →
        (capturePayment env body store).res =
          { status := 400,
            body := ResBody.failure ("Not enough stock for product: " ++ product.title) })) ∧
    (capturePayment env body store).res.body.success = false ∧
    (capturePayment env body store).store.products =
      (updateStock env store.products pre).products ∧
    (∀ id : String,
      Product.findById (capturePayment env body store).store.products id =
        (Product.findById store.products id).map
          (fun p => p.withStock (stockAfter id p.totalStock pre))) ∧
    (∀ id : String, (∀ item ∈ pre, item.productId ≠ id) →
      Product.findById (capturePayment env body store).store.products id =
        Product.findById store.products id) ∧
    (∀ (id : String) (product : Product) (s : ℕ),
      Product.findById store.products id = some product → product.totalStock = JsNum.fin s →
      s ≤ 2 ^ 53 → (∀ item ∈ pre, item.productId = id → ∃ q : ℕ, item.quantity = JsNum.fin q) →
      Product.findById (capturePayment env body store).store.products id =
        some (product.withStock (JsNum.fin (s - orderedQuantity id pre)))) := by
  have hstate := (updateStock_of_inStock hdb pre store.products hpre).2
  have hexact : ∀ (id : String) (product : Product) (s : ℕ),
      Product.findById store.products id = some product → product.totalStock = JsNum.fin s →
      s ≤ 2 ^ 53 → (∀ item ∈ pre, item.productId = id → ∃ q : ℕ, item.quantity = JsNum.fin q) →
      Product.findById (updateStock env store.products pre).products id =
        some (product.withStock (JsNum.fin (s - orderedQuantity id pre))) := by
    intro id product s hfind hs hle hq
    rw [hstate id, hfind, Option.map_some', hs,
      (stockAfter_of_inStock_whole pre store.products hpre id product s hfind hs hle hq).2]
  rcases hbad with hnone | ⟨product, hfind, hshort⟩
  · rw [capturePayment_stops_missing hdb horder hconfirm hstatus hitems hpre hnone]
    refine ⟨⟨fun _ => rfl, fun product hfind => ?_⟩, rfl, rfl, hstate,
      fun id hid => updateStock_findById_of_not_mem hdb hpre id hid, hexact⟩
    rw [hnone] at hfind
    cases hfind
  · rw [capturePayment_stops_short hdb horder hconfirm hstatus hitems hpre hfind hshort]
    refine ⟨⟨fun hnone => ?_, fun product2 hfind2 => ?_⟩, rfl, rfl, hstate,
      fun id hid => updateStock_findById_of_not_mem hdb hpre id hid, hexact⟩
    · rw [hnone] at hfind
      cases hfind
    · rw [hfind] at hfind2
      cases hfind2
      rfl

/-- C15, on an order asking 2 of the first product, then a product that does not
exist, then 1 of the second product: the capture is answered 404, the first product is
left with 8 in stock and the second with its 5. -/
theorem capturePayment_no_rollback_witness :
    (capturePayment (testEnv mockStripe) paymentData
      (captureStore [lineItem "prod1" (JsNum.fin 2), lineItem "nonexistent" (JsNum.fin 1),
        lineItem "prod2" (JsNum.fin 1)])).res =
      { status := 404, body := ResBody.failure "Product not found: Test Product" } ∧
    (Product.findById (capturePayment (testEnv mockStripe) paymentData
      (captureStore [lineItem "prod1" (JsNum.fin 2), lineItem "nonexistent" (JsNum.fin 1),
        lineItem "prod2" (JsNum.fin 1)])).store.products "prod1").map
      (fun p => p.totalStock) = some (JsNum.fin 8) ∧
    Product.findById (capturePayment (testEnv mockStripe) paymentData
      (captureStore [lineItem "prod1" (JsNum.fin 2), lineItem "nonexistent" (JsNum.fin 1),
        lineItem "prod2" (JsNum.fin 1)])).store.products "prod2" = some secondProduct := by
  have hnone : Product.findById
      (captureStore [lineItem "prod1" (JsNum.fin 2), lineItem "nonexistent" (JsNum.fin 1),
        lineItem "prod2" (JsNum.fin 1)]).products
      (lineItem "nonexistent" (JsNum.fin 1)).productId = none := by
    simp [Product.findById, captureStore, mockProduct, secondProduct, lineItem]
  have h := capturePayment_no_rollback (testEnv mockStripe) paymentData
    (captureStore [lineItem "prod1" (JsNum.fin 2), lineItem "nonexistent" (JsNum.fin 1),
      lineItem "prod2" (JsNum.fin 1)])
    (mockOrder [lineItem "prod1" (JsNum.fin 2), lineItem "nonexistent" (JsNum.fin 1),
      lineItem "prod2" (JsNum.fin 1)])
    { id := JsVal.str "pi_test123", status := "succeeded" } [lineItem "prod1" (JsNum.fin 2)]
    [lineItem "prod2" (JsNum.fin 1)] (lineItem "nonexistent" (JsNum.fin 1))
    (storeAnswers_test mockStripe)
    (findById_captureStore_order _) rfl rfl rfl (inStock_prod1 _ 2 (by norm_num))
    (Or.inl hnone)
  refine ⟨h.1.1 hnone, ?_, ?_⟩
  · have h1 := h.2.2.2.1 "prod1"
    rw [findById_captureStore_prod1] at h1
    rw [stockOf_withStock _ _ mockProduct _ h1, stockAfter_two]
  · rw [h.2.2.2.2.1 "prod2" (fun item hitem => by
      rw [List.mem_singleton] at hitem
      subst hitem
      simp [lineItem])]
    exact findById_captureStore_prod2 _

/-- C16. Whenever `capturePayment` responds 400 or 404 (not enough stock, product not
found, and also payment failed or order not found), the persisted orders and the carts
are exactly those of before the request: the order keeps its `orderStatus`,
`paymentStatus` and `paymentId`, and its cart is not cleared. The assignments of
lines 105-108 are never saved. -/
theorem capturePayment_failure_keeps_order (env : Env) (body : CaptureBody) (store : Store)
    (h : (capturePayment env body store).res.status = 400 ∨
      (capturePayment env body store).res.status = 404) :
    (capturePayment env body store).store.orders = store.orders ∧
    (capturePayment env body store).store.carts = store.carts ∧
    Order.findById (capturePayment env body store).store.orders body.orderId =
      Order.findById store.orders body.orderId := by
  have key : (capturePayment env body store).store.orders = store.orders ∧
      (capturePayment env body store).store.carts = store.carts := by
    rcases capturePayment_store env body store with hsame | ⟨order, _, _, hcase⟩
    · rw [hsame]
      exact ⟨rfl, rfl⟩
    · rcases hcase with ⟨_, horders, hcarts⟩ | ⟨h200, _⟩
      · refine ⟨horders, ?_⟩
        rcases hcarts with hcarts | h500
        · exact hcarts
        · rw [h500] at h
          simp at h
      · rw [h200] at h
        simp at h
  exact ⟨key.1, key.2, by rw [key.1]⟩

/-- C16, on the unit test "should reject payment when product stock is insufficient":
10 asked, 5 in stock, 400, and the order is still the pending one, the cart still
filled. -/
theorem capturePayment_failure_keeps_order_witness :
    (capturePayment (testEnv mockStripe) paymentData
      (captureStore [lineItem "prod2" (JsNum.fin 10)])).res.status = 400 ∧
    (capturePayment (testEnv mockStripe) paymentData
      (captureStore [lineItem "prod2" (JsNum.fin 10)])).store.orders =
      [mockOrder [lineItem "prod2" (JsNum.fin 10)]] ∧
    (capturePayment (testEnv mockStripe) paymentData
      (captureStore [lineItem "prod2" (JsNum.fin 10)])).store.carts = [mockCart] := by
  have hrun := @capturePayment_stops_short (testEnv mockStripe) paymentData
    (captureStore [lineItem "prod2" (JsNum.fin 10)]) (mockOrder [lineItem "prod2" (JsNum.fin 10)])
    { id := JsVal.str "pi_test123", status := "succeeded" } [] []
    (lineItem "prod2" (JsNum.fin 10))
    secondProduct (storeAnswers_test mockStripe) (findById_captureStore_order _) rfl rfl rfl
    (inStock_nil _) (findById_captureStore_prod2 _)
    (by
      show (stockAfter "prod2" secondProduct.totalStock []).lt (JsNum.fin 10) = true
      rw [stockAfter_nil]
      norm_num [JsNum.lt, secondProduct])
  have hstatus : (capturePayment (testEnv mockStripe) paymentData
      (captureStore [lineItem "prod2" (JsNum.fin 10)])).res.status = 400 := by rw [hrun]
  have h := capturePayment_failure_keeps_order (testEnv mockStripe) paymentData
    (captureStore [lineItem "prod2" (JsNum.fin 10)]) (Or.inl hstatus)
  exact ⟨hstatus, h.1, h.2.1⟩

/-- C17. When the order is found, the payment is confirmed as succeeded, the line
items are all in stock and the store answers, `capturePayment` saves the order with
`paymentStatus` "paid", `orderStatus` "confirmed" and `paymentId` the id whose
confirmation was asked, empties the items of the cart the order refers to and saves it
(the carts are as before when there is no such cart), leaves each product with what
the line items leave of its stock, and responds 200 with `success: true`, the message
"Payment successful and order confirmed", `data` the updated order, `orderStatus`
"confirmed" and `cartCleared: true`. -/
theorem capturePayment_confirms_order (env : Env) (body : CaptureBody) (store : Store)
    (order : Order) (paymentIntent : PaymentConfirmation) (hdb : storeAnswers env)
    (horder : Order.findById store.orders body.orderId = some order)
    (hconfirm : env.stripe.confirm body.paymentIntentId "pm_card_visa" = some paymentIntent)
    (hstatus : paymentIntent.status = "succeeded")
    (hstock : inStock store.products order.cartItems) :
    (capturePayment env body store).res =
      { status := 200,
        body := ResBody.captured "Payment successful and order confirmed"
          (paidOrder env order body.paymentIntentId) "confirmed" true } ∧
    (capturePayment env body store).res.body.success = true ∧
    ((paidOrder env order body.paymentIntentId).paymentStatus = "paid" ∧
      (paidOrder env order body.paymentIntentId).orderStatus = "confirmed" ∧
      (paidOrder env order body.paymentIntentId).paymentId = body.paymentIntentId ∧
      (paidOrder env order body.paymentIntentId).cartItems = order.cartItems ∧
      (paidOrder env order body.paymentIntentId).totalAmount = order.totalAmount) ∧
    (capturePayment env body store).store.orders =
      Order.save store.orders (paidOrder env order body.paymentIntentId) ∧
    Order.findById (capturePayment env body store).store.orders body.orderId =
      some (paidOrder env order body.paymentIntentId) ∧
    (∀ cart, Cart.findById store.carts order.cartId = some cart →
      (capturePayment env body store).store.carts =
        Cart.save store.carts { cart with items := [] } ∧
      Cart.findById (capturePayment env body store).store.carts order.cartId =
        some { cart with items := [] }) ∧
    (Cart.findById store.carts order.cartId = none →
      (capturePayment env body store).store.carts = store.carts) ∧
    (∀ id : String,
      Product.findById (capturePayment env body store).store.products id =
        (Product.findById store.products id).map
          (fun p => p.withStock (stockAfter id p.totalStock order.cartItems))) := by
  rw [capturePayment_of_inStock hdb horder hconfirm hstatus hstock]
  refine ⟨rfl, rfl, ⟨rfl, rfl, rfl, rfl, rfl⟩, rfl, ?_, ?_, ?_, ?_⟩
  · exact Order.findOrder_save_found
      (show (paidOrder env order body.paymentIntentId)._id = order._id from rfl)
      store.orders horder
  · intro cart hcart
    dsimp only
    rw [hcart]
    have hid : ({ cart with items := [] } : Cart)._id = cart._id := rfl
    exact ⟨rfl, Cart.findCart_save_found hid store.carts hcart⟩
  · intro hcart
    dsimp only
    rw [hcart]
  · exact (updateStock_of_inStock hdb order.cartItems store.products hstock).2

/-- C17, on the unit test "should capture payment and update order status": the
response is 200, the order is found paid and confirmed afterwards, the cart is found
empty, and the product has 8 left. -/
theorem capturePayment_confirms_order_witness :
    (capturePayment (testEnv mockStripe) paymentData
      (captureStore [lineItem "prod1" (JsNum.fin 2)])).res.status = 200 ∧
    (Order.findById (capturePayment (testEnv mockStripe) paymentData
      (captureStore [lineItem "prod1" (JsNum.fin 2)])).store.orders (JsVal.str "order123")).map
      (fun o => (o.orderStatus, o.paymentStatus, o.paymentId)) =
      some ("confirmed", "paid", JsVal.str "pi_test123") ∧
    Cart.findById (capturePayment (testEnv mockStripe) paymentData
      (captureStore [lineItem "prod1" (JsNum.fin 2)])).store.carts (JsVal.str "cart123") =
      some { mockCart with items := [] } ∧
    (Product.findById (capturePayment (testEnv mockStripe) paymentData
      (captureStore [lineItem "prod1" (JsNum.fin 2)])).store.products "prod1").map
      (fun p => p.totalStock) = some (JsNum.fin 8) := by
  have h := capturePayment_confirms_order (testEnv mockStripe) paymentData
    (captureStore [lineItem "prod1" (JsNum.fin 2)]) (mockOrder [lineItem "prod1" (JsNum.fin 2)])
    { id := JsVal.str "pi_test123", status := "succeeded" } (storeAnswers_test mockStripe)
    (findById_captureStore_order _) rfl rfl (inStock_prod1 _ 2 (by norm_num))
  obtain ⟨hres, _, _, _, hfound, hcart, _, hproducts⟩ := h
  refine ⟨by rw [hres], ?_, ?_, ?_⟩
  · have hf : Order.findById (capturePayment (testEnv mockStripe) paymentData
        (captureStore [lineItem "prod1" (JsNum.fin 2)])).store.orders (JsVal.str "order123") =
        some (paidOrder (testEnv mockStripe) (mockOrder [lineItem "prod1" (JsNum.fin 2)])
          paymentData.paymentIntentId) := hfound
    rw [hf]
    rfl
  · exact (hcart mockCart (by simp [Cart.findById, captureStore, mockCart, mockOrder])).2
  · have h1 := hproducts "prod1"
    rw [findById_captureStore_prod1] at h1
    rw [stockOf_withStock _ _ mockProduct _ h1]
    exact congrArg some stockAfter_two

/-- C18. When the order is found and the confirmation reports a status other than
"succeeded", `capturePayment` responds 400 with `success: false` and the message
"Payment failed" and leaves the whole store (the order, every product, every cart) as
it was. -/
theorem capturePayment_payment_failed (env : Env) (body : CaptureBody) (store : Store)
    (order : Order) (paymentIntent : PaymentConfirmation)
    (hfindOk : env.dbFails (DbOp.orderFindById body.orderId) = false)
    (horder : Order.findById store.orders body.orderId = some order)
    (hconfirm : env.stripe.confirm body.paymentIntentId "pm_card_visa" = some paymentIntent)
    (hstatus : paymentIntent.status ≠ "succeeded") :
    (capturePayment env body store).res =
      { status := 400, body := ResBody.failure "Payment failed" } ∧
    (capturePayment env body store).res.body.success = false ∧
    (capturePayment env body store).store = store := by
  rw [capturePayment, if_neg (by simp [hfindOk])]
  simp only [horder, hconfirm, if_neg hstatus]
  simp [ResBody.success]

/-- C18, with a payment collaborator that reports "requires_action". -/
theorem capturePayment_payment_failed_witness :
    (capturePayment (testEnv decliningStripe) paymentData
      (captureStore [lineItem "prod1" (JsNum.fin 2)])).res =
      { status := 400, body := ResBody.failure "Payment failed" } ∧
    (capturePayment (testEnv decliningStripe) paymentData
      (captureStore [lineItem "prod1" (JsNum.fin 2)])).store =
      captureStore [lineItem "prod1" (JsNum.fin 2)] := by
  have h := capturePayment_payment_failed (testEnv decliningStripe) paymentData
    (captureStore [lineItem "prod1" (JsNum.fin 2)]) (mockOrder [lineItem "prod1" (JsNum.fin 2)])
    { id := JsVal.str "pi_test123", status := "requires_action" } rfl
    (findById_captureStore_order _) rfl (by decide)
  exact ⟨h.1, h.2.2⟩

/-! ## Invariants of the store -/

/-- C19. In a store where no product has a stock below zero, no product has a stock
below zero after a `createOrder` or a `capturePayment` request, whatever the request,
its outcome, the quantities of the line items and the number of line items that ask
for the same product, and whatever the environment. Below zero is the comparison
`< 0`, which `NaN` does not satisfy; read with `>= 0`, which excludes `NaN`: when every
stock is `>= 0`, every stock is `>= 0` after a `createOrder` request, and after a
`capturePayment` request for an order whose quantities are finite numbers. -/
theorem stock_stays_nonnegative (env : Env) (store : Store)
    (h : ∀ p ∈ store.products, p.totalStock.lt (JsNum.fin 0) = false) :
    (∀ body : CreateOrderBody,
      ∀ p ∈ (createOrder env body store).store.products,
        p.totalStock.lt (JsNum.fin 0) = false) ∧
    (∀ body : CaptureBody,
      ∀ p ∈ (capturePayment env body store).store.products,
        p.totalStock.lt (JsNum.fin 0) = false) ∧
    ((∀ p ∈ store.products, p.totalStock.geZero = true) →
      (∀ body : CreateOrderBody,
        ∀ p ∈ (createOrder env body store).store.products, p.totalStock.geZero = true) ∧
      (∀ body : CaptureBody,
        (∀ order, Order.findById store.orders body.orderId = some order →
          ∀ item ∈ order.cartItems, ∃ q : ℚ, item.quantity = JsNum.fin q) →
        ∀ p ∈ (capturePayment env body store).store.products,
          p.totalStock.geZero = true)) := by
  refine ⟨?_, ?_, fun hge => ⟨?_, ?_⟩⟩
  · intro body p hp
    rcases createOrder_store env body store with hsame | ⟨items, total, paymentIntent, hadd⟩
    · rw [hsame] at hp
      exact h p hp
    · rw [hadd] at hp
      exact h p hp
  · intro body p hp
    rcases capturePayment_store env body store with hsame | ⟨order, _, hproducts, _⟩
    · rw [hsame] at hp
      exact h p hp
    · rw [hproducts] at hp
      exact updateStock_not_neg env order.cartItems store.products h p hp
  · intro body p hp
    rcases createOrder_store env body store with hsame | ⟨items, total, paymentIntent, hadd⟩
    · rw [hsame] at hp
      exact hge p hp
    · rw [hadd] at hp
      exact hge p hp
  · intro body hfinite p hp
    rcases capturePayment_store env body store with hsame | ⟨order, horder, hproducts, _⟩
    · rw [hsame] at hp
      exact hge p hp
    · rw [hproducts] at hp
      exact updateStock_geZero env order.cartItems store.products (hfinite order horder) hge
        p hp

/-- C19, on the order that asks 3 and then 11 of a product with 10 in stock: after
the capture no stock is below zero. -/
theorem stock_stays_nonnegative_witness :
    List.Forall (fun p => p.totalStock.lt (JsNum.fin 0) = false)
      (capturePayment (testEnv mockStripe) paymentData
        (captureStore [lineItem "prod1" (JsNum.fin 3),
          lineItem "prod1" (JsNum.fin 11)])).store.products :=
  List.forall_iff_forall_mem.mpr <| (stock_stays_nonnegative (testEnv mockStripe)
    (captureStore [lineItem "prod1" (JsNum.fin 3), lineItem "prod1" (JsNum.fin 11)])
    (by
      intro p hp
      simp only [captureStore, List.mem_cons, List.mem_singleton, List.not_mem_nil,
        or_false] at hp
      rcases hp with hp | hp
      · rw [hp]; norm_num [mockProduct, JsNum.lt]
      · rw [hp]; norm_num [secondProduct, JsNum.lt])).2.1 paymentData

/-- C20. In every store reachable from a store without orders through `createOrder`,
`capturePayment`, `getAllOrdersByUser` and `getOrderDetails`, each order is
`pending`/`pending` or `confirmed`/`paid`. From such a store, `createOrder` leaves the
orders as they are or adds one order, which is `pending`/`pending`; the two read
handlers leave the store as it is; `capturePayment` leaves the orders as they are or
saves the order of the request as `confirmed`/`paid`, every other order staying as it
was. -/
theorem order_status_machine (store : Store) (h : Reachable store) :
    (∀ o ∈ store.orders, o.validStatus) ∧
    (∀ (env : Env) (body : CreateOrderBody),
      (createOrder env body store).store.orders = store.orders ∨
      ∃ o : Order, (createOrder env body store).store.orders = store.orders ++ [o] ∧
        o.orderStatus = "pending" ∧ o.paymentStatus = "pending") ∧
    (∀ (env : Env) (userId : String), (getAllOrdersByUser env userId store).store = store) ∧
    (∀ (env : Env) (id : String), (getOrderDetails env id store).store = store) ∧
    (∀ (env : Env) (body : CaptureBody),
      (capturePayment env body store).store.orders = store.orders ∨
      ∃ order : Order, Order.findById store.orders body.orderId = some order ∧
        (capturePayment env body store).store.orders =
          Order.save store.orders (paidOrder env order body.paymentIntentId) ∧
        (paidOrder env order body.paymentIntentId).orderStatus = "confirmed" ∧
        (paidOrder env order body.paymentIntentId).paymentStatus = "paid" ∧
        ∀ o ∈ (capturePayment env body store).store.orders,
          o ∈ store.orders ∨ o = paidOrder env order body.paymentIntentId) :=
  ⟨reachable_validStatus h,
    fun env body => createOrder_orders env body store,
    fun env userId => getAllOrdersByUser_store env userId store,
    fun env id => getOrderDetails_store env id store,
    fun env body => by
      rcases capturePayment_orders env body store with hsame | ⟨order, horder, hsave, hs, hp⟩
      · exact Or.inl hsame
      · exact Or.inr ⟨order, horder, hsave, hs, hp, fun o ho => by
          rw [hsave] at ho
          exact Order.mem_save store.orders ho⟩⟩

/-- C20, on the store reached by creating an order, capturing its payment, and
capturing it once more. -/
theorem order_status_machine_witness :
    List.Forall Order.validStatus
      (handle (testEnv mockStripe) (Request.capturePayment paymentData)
        (handle (testEnv mockStripe) (Request.capturePayment paymentData)
          (handle (testEnv mockStripe)
            (Request.createOrder (orderData (some [lineItem "prod1" (JsNum.fin 2)])
              (JsVal.num (JsNum.fin 100))))
            { products := [mockProduct], carts := [mockCart], orders := [] }).store).store
        ).store.orders :=
  List.forall_iff_forall_mem.mpr <| (order_status_machine _
    (Reachable.step (testEnv mockStripe) (Request.capturePayment paymentData)
      (Reachable.step (testEnv mockStripe) (Request.capturePayment paymentData)
        (Reachable.step (testEnv mockStripe)
          (Request.createOrder (orderData (some [lineItem "prod1" (JsNum.fin 2)])
            (JsVal.num (JsNum.fin 100))))
          (Reachable.init [mockProduct] [mockCart]))))).1

/-! ## Lemmas on the decimal writing of a number -/

theorem digitValue_digitChar (k : ℕ) (h : k < 10) : digitValue (Nat.digitChar k) = k := by
  interval_cases k <;> rfl

theorem isDigit_digitChar (k : ℕ) (h : k < 10) : (Nat.digitChar k).isDigit = true := by
  interval_cases k <;> rfl

theorem foldl_toDigitsCore :
    ∀ (fuel n : ℕ) (ds : List Char), n < fuel →
      (Nat.toDigitsCore 10 fuel n ds).foldl (fun acc c => acc * 10 + digitValue c) 0 =
        ds.foldl (fun acc c => acc * 10 + digitValue c) n
  | 0, n, _, h => absurd h (Nat.not_lt_zero n)
  | fuel + 1, n, ds, h => by
    rw [Nat.toDigitsCore]
    have hmod : n % 10 < 10 := Nat.mod_lt n (by norm_num)
    by_cases hdiv : n / 10 = 0
    · simp only [hdiv, if_true, List.foldl_cons, zero_mul, zero_add, digitValue_digitChar _ hmod]
      have hlt : n < 10 := by omega
      rw [Nat.mod_eq_of_lt hlt]
    · simp only [hdiv, if_false]
      rw [foldl_toDigitsCore fuel (n / 10) _ (by omega), List.foldl_cons,
        digitValue_digitChar _ hmod, Nat.div_add_mod' n 10]

/-- The digits that `toString` writes for a number read back as that number. -/
theorem decodeDigits_toString (n : ℕ) : decodeDigits (toString n).data = n := by
  show (Nat.toDigitsCore 10 (n + 1) n []).foldl _ 0 = n
  rw [foldl_toDigitsCore (n + 1) n [] (Nat.lt_succ_self n)]
  rfl

theorem isDigit_toDigitsCore :
    ∀ (fuel n : ℕ) (ds : List Char), (∀ c ∈ ds, c.isDigit = true) →
      ∀ c ∈ Nat.toDigitsCore 10 fuel n ds, c.isDigit = true
  | 0, _, _, h => h
  | fuel + 1, n, ds, h => by
    rw [Nat.toDigitsCore]
    have hmod : n % 10 < 10 := Nat.mod_lt n (by norm_num)
    have hcons : ∀ c ∈ Nat.digitChar (n % 10) :: ds, c.isDigit = true := by
      intro c hc
      rcases List.mem_cons.mp hc with hc | hc
      · rw [hc]; exact isDigit_digitChar _ hmod
      · exact h c hc
    by_cases hdiv : n / 10 = 0
    · simp only [hdiv, if_true]
      exact hcons
    · simp only [hdiv, if_false]
      exact isDigit_toDigitsCore fuel (n / 10) _ hcons

/-- What `toString` writes for a number is made of decimal digits. -/
theorem isDigit_toString (n : ℕ) : ∀ c ∈ (toString n).data, c.isDigit = true :=
  isDigit_toDigitsCore (n + 1) n [] (fun c hc => by simp at hc)

theorem toDigitsCore_ne_nil :
    ∀ (fuel n : ℕ) (ds : List Char), ds ≠ [] → Nat.toDigitsCore 10 fuel n ds ≠ []
  | 0, _, _, h => h
  | fuel + 1, n, ds, _ => by
    rw [Nat.toDigitsCore]
    by_cases hdiv : n / 10 = 0
    · simp [hdiv]
    · simp only [hdiv, if_false]
      exact toDigitsCore_ne_nil fuel (n / 10) _ (by simp)

/-- What `toString` writes for a number starts with a decimal digit. -/
theorem toString_data_cons (n : ℕ) :
    ∃ (c : Char) (tl : List Char), (toString n).data = c :: tl ∧ c.isDigit = true := by
  have hne : (toString n).data ≠ [] := by
    show Nat.toDigitsCore 10 (n + 1) n [] ≠ []
    rw [Nat.toDigitsCore]
    by_cases hdiv : n / 10 = 0
    · simp [hdiv]
    · simp only [hdiv, if_false]
      exact toDigitsCore_ne_nil n (n / 10) _ (by simp)
  cases hd : (toString n).data with
  | nil => exact absurd hd hne
  | cons c tl =>
    exact ⟨c, tl, rfl, isDigit_toString n c (by rw [hd]; exact List.mem_cons_self _ _)⟩

theorem append_underscore_inj :
    ∀ (d1 d2 r1 r2 : List Char), (∀ c ∈ d1, c.isDigit = true) → (∀ c ∈ d2, c.isDigit = true) →
      d1 ++ '_' :: r1 = d2 ++ '_' :: r2 → d1 = d2 ∧ r1 = r2
  | [], [], r1, r2, _, _, h => by simpa using h
  | [], c :: d2, r1, r2, _, h2, h => by
    simp only [List.nil_append, List.cons_append, List.cons.injEq] at h
    have := h2 c (List.mem_cons_self _ _)
    rw [← h.1] at this
    exact absurd this (by decide)
  | c :: d1, [], r1, r2, h1, _, h => by
    simp only [List.nil_append, List.cons_append, List.cons.injEq] at h
    have := h1 c (List.mem_cons_self _ _)
    rw [h.1] at this
    exact absurd this (by decide)
  | c :: d1, c2 :: d2, r1, r2, h1, h2, h => by
    simp only [List.cons_append, List.cons.injEq] at h
    obtain ⟨hd, hr⟩ := append_underscore_inj d1 d2 r1 r2
      (fun x hx => h1 x (List.mem_cons_of_mem _ hx))
      (fun x hx => h2 x (List.mem_cons_of_mem _ hx)) h.2
    exact ⟨by rw [h.1, hd], hr⟩

/-- The identifiers `pi_<number>_<infix><suffix>` determine the number and the suffix. -/
theorem identifier_inj (a : String) (t1 t2 : ℕ) (r1 r2 : String)
    (h : "pi_" ++ toString t1 ++ "_" ++ a ++ r1 = "pi_" ++ toString t2 ++ "_" ++ a ++ r2) :
    t1 = t2 ∧ r1 = r2 := by
  have hd := congrArg String.data h
  simp only [String.data_append] at hd
  have hd2 : (toString t1).data ++ '_' :: (a.data ++ r1.data) =
      (toString t2).data ++ '_' :: (a.data ++ r2.data) := by
    simpa [List.append_assoc] using hd
  obtain ⟨h1, h2⟩ := append_underscore_inj _ _ _ _ (isDigit_toString t1) (isDigit_toString t2) hd2
  refine ⟨?_, ?_⟩
  · rw [← decodeDigits_toString t1, ← decodeDigits_toString t2, h1]
  · exact String.ext (List.append_cancel_left h2)

/-! ## Properties of the mock of `helpers/stripe.js` -/

/-- C21. The confirmation of the mock always succeeds: for every payment-intent id
(`null`, the empty string and a number included), whatever the clock and the random
source, it returns a result whose `status` is "succeeded" and whose `id` is the id it
was given; through the module export the promise never rejects. -/
theorem paymentIntents_confirm_succeeds (entropy : Entropy) (paymentIntentId : JsVal)
    (params : String) :
    (paymentIntents.confirm entropy paymentIntentId params).status = "succeeded" ∧
    (paymentIntents.confirm entropy paymentIntentId params).id = paymentIntentId ∧
    (stripeInstance entropy).confirm paymentIntentId params =
      some { id := paymentIntentId, status := "succeeded" } ∧
    (paymentIntents.confirm entropy JsVal.null params).id = JsVal.null ∧
    (paymentIntents.confirm entropy (JsVal.str "") params).id = JsVal.str "" ∧
    (paymentIntents.confirm entropy (JsVal.num (JsNum.fin 12345)) params).id =
      JsVal.num (JsNum.fin 12345) :=
  ⟨rfl, rfl, rfl, rfl, rfl, rfl⟩

/-- C22, on the code: whatever the amount, the clock and the random source, the object
that `mockStripe.paymentIntents.create` returns has an `id` and a `client_secret` that
start with "pi_" followed by the digits of the clock, never with "pi_mock_", and it
carries the properties `amount`, `currency`, `status` and `metadata` besides `id` and
`client_secret`. -/
theorem paymentIntents_create_shape (entropy : Entropy) (params : CreateParams) :
    (paymentIntents.create entropy params).id =
      "pi_" ++ toString (entropy.now 0) ++ "_" ++ entropy.random 0 ∧
    (paymentIntents.create entropy params).client_secret =
      "pi_" ++ toString (entropy.now 1) ++ "_secret_" ++ entropy.random 1 ∧
    startsWith (paymentIntents.create entropy params).id "pi_mock_" = false ∧
    startsWith (paymentIntents.create entropy params).client_secret "pi_mock_" = false ∧
    (paymentIntents.create entropy params).amount = params.amount ∧
    (paymentIntents.create entropy params).currency = params.currency ∧
    (paymentIntents.create entropy params).status = "requires_payment_method" ∧
    (paymentIntents.create entropy params).metadata = params.metadata := by
  have key : ∀ (n : ℕ) (rest : String),
      startsWith ("pi_" ++ toString n ++ rest) "pi_mock_" = false := by
    intro n rest
    obtain ⟨c, tl, hc, hdigit⟩ := toString_data_cons n
    have hm : ¬ (c = 'm') := by
      intro h
      rw [h] at hdigit
      exact absurd hdigit (by decide)
    have hlist : ("pi_" ++ toString n ++ rest).data =
        'p' :: 'i' :: '_' :: c :: (tl ++ rest.data) := by
      simp only [String.data_append, hc]
      rfl
    have hmc : ('m' == c) = false := by
      rw [beq_eq_false_iff_ne]
      exact fun h => hm h.symm
    rw [startsWith, hlist]
    show List.isPrefixOf ['p', 'i', '_', 'm', 'o', 'c', 'k', '_'] _ = false
    simp only [List.isPrefixOf, beq_self_eq_true, Bool.true_and, hmc, Bool.false_and]
  refine ⟨rfl, rfl, ?_, ?_, rfl, rfl, rfl, rfl⟩
  · show startsWith ("pi_" ++ toString (entropy.now 0) ++ "_" ++ entropy.random 0) "pi_mock_" =
      false
    rw [String.append_assoc]
    exact key _ _
  · show startsWith ("pi_" ++ toString (entropy.now 1) ++ "_secret_" ++ entropy.random 1)
      "pi_mock_" = false
    rw [String.append_assoc]
    exact key _ _

/-- The identifiers of the mock are made of the clock and of a random draw: two calls
return the same `id` exactly when they read the same clock value and draw the same
random string for it, and likewise for the `client_secret`. -/
theorem paymentIntents_create_id_iff (entropy1 entropy2 : Entropy)
    (params1 params2 : CreateParams) :
    ((paymentIntents.create entropy1 params1).id = (paymentIntents.create entropy2 params2).id ↔
      entropy1.now 0 = entropy2.now 0 ∧ entropy1.random 0 = entropy2.random 0) ∧
    ((paymentIntents.create entropy1 params1).client_secret =
        (paymentIntents.create entropy2 params2).client_secret ↔
      entropy1.now 1 = entropy2.now 1 ∧ entropy1.random 1 = entropy2.random 1) := by
  constructor
  · constructor
    · intro h
      have h2 : "pi_" ++ toString (entropy1.now 0) ++ "_" ++ "" ++ entropy1.random 0 =
          "pi_" ++ toString (entropy2.now 0) ++ "_" ++ "" ++ entropy2.random 0 := by
        simpa [paymentIntents.create] using h
      exact identifier_inj "" _ _ _ _ h2
    · rintro ⟨h1, h2⟩
      simp [paymentIntents.create, h1, h2]
  · constructor
    · intro h
      have h2 : "pi_" ++ toString (entropy1.now 1) ++ "_" ++ "secret_" ++ entropy1.random 1 =
          "pi_" ++ toString (entropy2.now 1) ++ "_" ++ "secret_" ++ entropy2.random 1 := by
        have e : ∀ (a b : String), a ++ "_secret_" ++ b = a ++ "_" ++ "secret_" ++ b := by
          intro a b
          rw [String.append_assoc a "_" "secret_"]
          rfl
        rw [← e, ← e]
        exact h
      exact identifier_inj "secret_" _ _ _ _ h2
    · rintro ⟨h1, h2⟩
      simp [paymentIntents.create, h1, h2]

/-- C23, on the code: two calls of the create operation of the mock that read the same
clock value and draw the same random strings return the same `id` and the same
`client_secret`, whatever their arguments. With the clock at 1700000000000 and the
draw "abc123xyz" for both, the calls with the amounts 100 and 200 both return the id
"pi_1700000000000_abc123xyz" and the secret "pi_1700000000000_secret_abc123xyz". -/
theorem paymentIntents_create_collision :
    (paymentIntents.create testEntropy
      { amount := JsVal.num (JsNum.fin 100), currency := JsVal.str "usd",
        metadata := none }).id =
    (paymentIntents.create testEntropy
      { amount := JsVal.num (JsNum.fin 200), currency := JsVal.str "usd",
        metadata := none }).id ∧
    (paymentIntents.create testEntropy
      { amount := JsVal.num (JsNum.fin 100), currency := JsVal.str "usd",
        metadata := none }).client_secret =
    (paymentIntents.create testEntropy
      { amount := JsVal.num (JsNum.fin 200), currency := JsVal.str "usd",
        metadata := none }).client_secret ∧
    (paymentIntents.create testEntropy
      { amount := JsVal.num (JsNum.fin 100), currency := JsVal.str "usd",
        metadata := none }).id = "pi_1700000000000_abc123xyz" ∧
    (paymentIntents.create testEntropy
      { amount := JsVal.num (JsNum.fin 200), currency := JsVal.str "usd",
        metadata := none }).client_secret = "pi_1700000000000_secret_abc123xyz" ∧
    ∀ (entropy : Entropy) (params1 params2 : CreateParams),
      (paymentIntents.create entropy params1).id = (paymentIntents.create entropy params2).id ∧
      (paymentIntents.create entropy params1).client_secret =
        (paymentIntents.create entropy params2).client_secret :=
  ⟨rfl, rfl, by decide, by decide, fun _ _ _ => ⟨rfl, rfl⟩⟩

/-! ## The error policy of the handlers -/

/-- Every response of `createOrder` is of one of the three kinds. -/
theorem createOrder_response_kind (env : Env) (body : CreateOrderBody) (store : Store) :
    (createOrder env body store).res.isInternalError ∨
    (createOrder env body store).res.isBusinessError ∨
    (createOrder env body store).res.isSuccess := by
  have hcatch : createOrderCatch.isInternalError := ⟨rfl, Or.inl rfl⟩
  unfold createOrder
  split
  · exact Or.inl hcatch
  · split
    · exact Or.inl hcatch
    · exact Or.inr (Or.inl (Or.inr (Or.inl ⟨_, rfl⟩)))
    · split
      · exact Or.inl hcatch
      · split
        · exact Or.inr (Or.inl (Or.inl rfl))
        · dsimp only
          split
          · exact Or.inl hcatch
          · split
            · exact Or.inl hcatch
            · exact Or.inr (Or.inr ⟨Or.inr rfl, rfl⟩)

/-- Every response of `capturePayment` is of one of the three kinds. -/
theorem capturePayment_response_kind (env : Env) (body : CaptureBody) (store : Store) :
    (capturePayment env body store).res.isInternalError ∨
    (capturePayment env body store).res.isBusinessError ∨
    (capturePayment env body store).res.isSuccess := by
  have hcatch : capturePaymentCatch.isInternalError := ⟨rfl, Or.inr (Or.inl rfl)⟩
  unfold capturePayment
  split
  · exact Or.inl hcatch
  · split
    · exact Or.inr (Or.inl (Or.inr (Or.inr (Or.inl rfl))))
    · dsimp only
      split
      · exact Or.inl hcatch
      · split
        · split
          · exact Or.inl hcatch
          · exact Or.inr (Or.inl (Or.inr (Or.inr (Or.inr (Or.inl ⟨_, rfl⟩)))))
          · exact Or.inr (Or.inl (Or.inr (Or.inr (Or.inr (Or.inr (Or.inl ⟨_, rfl⟩))))))
          · split
            · exact Or.inl hcatch
            · split
              · exact Or.inl hcatch
              · split
                · exact Or.inl hcatch
                · exact Or.inr (Or.inr ⟨Or.inl rfl, rfl⟩)
        · exact Or.inr (Or.inl (Or.inr (Or.inr (Or.inr (Or.inr (Or.inr (Or.inl rfl)))))))

/-- Every response of `getAllOrdersByUser` is of one of the three kinds. -/
theorem getAllOrdersByUser_response_kind (env : Env) (userId : String) (store : Store) :
    (getAllOrdersByUser env userId store).res.isInternalError ∨
    (getAllOrdersByUser env userId store).res.isBusinessError ∨
    (getAllOrdersByUser env userId store).res.isSuccess := by
  unfold getAllOrdersByUser
  split
  · exact Or.inl ⟨rfl, Or.inr (Or.inr rfl)⟩
  · dsimp only
    split
    · exact Or.inr (Or.inl (Or.inr (Or.inr (Or.inr (Or.inr (Or.inr (Or.inr (Or.inl rfl))))))))
    · exact Or.inr (Or.inr ⟨Or.inl rfl, rfl⟩)

/-- Every response of `getOrderDetails` is of one of the three kinds. -/
theorem getOrderDetails_response_kind (env : Env) (id : String) (store : Store) :
    (getOrderDetails env id store).res.isInternalError ∨
    (getOrderDetails env id store).res.isBusinessError ∨
    (getOrderDetails env id store).res.isSuccess := by
  unfold getOrderDetails
  split
  · exact Or.inl ⟨rfl, Or.inr (Or.inr rfl)⟩
  · split
    · exact Or.inr (Or.inl (Or.inr (Or.inr (Or.inr (Or.inr (Or.inr (Or.inr (Or.inr rfl))))))))
    · exact Or.inr (Or.inr ⟨Or.inl rfl, rfl⟩)

/-- A response to an unexpected failure is a 500 with `success: false`. -/
theorem Response.internalError_status {r : Response} (h : r.isInternalError) :
    r.status = 500 ∧ r.body.success = false := by
  obtain ⟨hs, hb | hb | hb⟩ := h
  · exact ⟨hs, by rw [hb]; rfl⟩
  · exact ⟨hs, by rw [hb]; rfl⟩
  · exact ⟨hs, by rw [hb]; rfl⟩

/-- A response to a business error is a 400 or a 404 with `success: false`. -/
theorem Response.businessError_status {r : Response} (h : r.isBusinessError) :
    (r.status = 400 ∨ r.status = 404) ∧ r.body.success = false := by
  rcases h with h | ⟨_, h⟩ | h | ⟨_, h⟩ | ⟨_, h⟩ | h | h | h
  · rw [h]; exact ⟨Or.inl rfl, rfl⟩
  · rw [h]; exact ⟨Or.inr rfl, rfl⟩
  · rw [h]; exact ⟨Or.inr rfl, rfl⟩
  · rw [h]; exact ⟨Or.inr rfl, rfl⟩
  · rw [h]; exact ⟨Or.inl rfl, rfl⟩
  · rw [h]; exact ⟨Or.inl rfl, rfl⟩
  · rw [h]; exact ⟨Or.inr rfl, rfl⟩
  · rw [h]; exact ⟨Or.inr rfl, rfl⟩

/-- The handler `getAllOrdersByUser` when the query is answered: 404 when the user has no
order, 200 with the orders of the user otherwise. -/
theorem getAllOrdersByUser_of_answer {env : Env} (userId : String) (store : Store)
    (hdb : env.dbFails (DbOp.orderFind (JsVal.str userId)) = false) :
    (store.orders.filter (fun o => o.userId == JsVal.str userId) = [] →
      (getAllOrdersByUser env userId store).res =
        { status := 404, body := ResBody.failure "No orders found!" }) ∧
    (store.orders.filter (fun o => o.userId == JsVal.str userId) ≠ [] →
      (getAllOrdersByUser env userId store).res =
        { status := 200,
          body := ResBody.orders
            (store.orders.filter (fun o => o.userId == JsVal.str userId)) }) := by
  rw [getAllOrdersByUser, if_neg (by simp [hdb])]
  constructor
  · intro h
    dsimp only
    rw [if_pos (by rw [h]; rfl)]
  · intro h
    dsimp only
    rw [if_neg (by rw [List.length_eq_zero]; exact h)]

/-- The handler `getOrderDetails` when the query is answered: 404 when there is no such
order, 200 with the order otherwise. -/
theorem getOrderDetails_of_answer {env : Env} (id : String) (store : Store)
    (hdb : env.dbFails (DbOp.orderFindById (JsVal.str id)) = false) :
    (Order.findById store.orders (JsVal.str id) = none →
      (getOrderDetails env id store).res =
        { status := 404, body := ResBody.failure "Order not found!" }) ∧
    (∀ order, Order.findById store.orders (JsVal.str id) = some order →
      (getOrderDetails env id store).res =
        { status := 200, body := ResBody.order order }) := by
  rw [getOrderDetails, if_neg (by simp [hdb])]
  constructor
  · intro h
    simp only [h]
  · intro order h
    simp only [h]

/-- C24. The four handlers are total: each request gets a response, and it is of one
of three kinds, 500 with `success: false` and a generic message, 400 or 404 with
`success: false` and the message of a business error, or 200 or 201 with
`success: true`. Every failure of a collaborator lands in the first kind: a rejected
product lookup, payment-intent creation or order save in `createOrder`; a rejected
order lookup, payment confirmation, product lookup or save, cart lookup or save, or
order save in `capturePayment`; a rejected query in the two read handlers. Every
business error gets its 4xx: in `createOrder`, a line item without product is answered
404 and a declared total that prints otherwise than the recomputed one 400; in
`capturePayment`, an order that is not found is answered 404, a payment that is not
confirmed as succeeded 400, a line item without product 404 and a line item that asks
more than the stock left 400; `getAllOrdersByUser` answers 404 when the user has no
order and 200 with the orders otherwise; `getOrderDetails` answers 404 when there is no
such order and 200 with the order otherwise. -/
theorem handlers_error_policy (env : Env) (store : Store) :
    (∀ request : Request,
      (handle env request store).res.isInternalError ∨
      (handle env request store).res.isBusinessError ∨
      (handle env request store).res.isSuccess) ∧
    (∀ r : Response,
      (r.isInternalError → r.status = 500 ∧ r.body.success = false) ∧
      (r.isBusinessError → (r.status = 400 ∨ r.status = 404) ∧ r.body.success = false)) ∧
    (∀ (body : CreateOrderBody) (pre post : List CartItem) (bad : CartItem),
      body.cartItems = some (pre ++ bad :: post) → productsExist env store.products pre →
      env.dbFails (DbOp.productFindById bad.productId) = true →
      (createOrder env body store).res.isInternalError) ∧
    (∀ (body : CreateOrderBody) (items : List CartItem) (d : JsNum),
      body.cartItems = some items → productsExist env store.products items →
      body.totalAmount = JsVal.num d →
      d.toFixed2 = (specTotal store.products items).toFixed2 →
      (env.stripe.create (paymentIntentParams body.userId (specTotal store.products items))
          = none ∨
        env.dbFails (DbOp.orderSave env.newOrderId) = true) →
      (createOrder env body store).res.isInternalError) ∧
    (∀ body : CaptureBody, env.dbFails (DbOp.orderFindById body.orderId) = true →
      (capturePayment env body store).res.isInternalError) ∧
    (∀ (body : CaptureBody) (order : Order),
      env.dbFails (DbOp.orderFindById body.orderId) = false →
      Order.findById store.orders body.orderId = some order →
      env.stripe.confirm body.paymentIntentId "pm_card_visa" = none →
      (capturePayment env body store).res.isInternalError) ∧
    (∀ (body : CaptureBody) (order : Order) (paymentIntent : PaymentConfirmation),
      env.dbFails (DbOp.orderFindById body.orderId) = false →
      Order.findById store.orders body.orderId = some order →
      env.stripe.confirm body.paymentIntentId "pm_card_visa" = some paymentIntent →
      paymentIntent.status = "succeeded" →
      ((updateStock env store.products order.cartItems).outcome = StockEnd.threw ∨
        ((updateStock env store.products order.cartItems).outcome = StockEnd.done ∧
          (env.dbFails (DbOp.cartFindById order.cartId) = true ∨
            clearCart env store.carts order.cartId = none ∨
            env.dbFails (DbOp.orderSave order._id) = true))) →
      (capturePayment env body store).res.isInternalError) ∧
    (∀ userId : String, env.dbFails (DbOp.orderFind (JsVal.str userId)) = true →
      (getAllOrdersByUser env userId store).res.isInternalError) ∧
    (∀ id : String, env.dbFails (DbOp.orderFindById (JsVal.str id)) = true →
      (getOrderDetails env id store).res.isInternalError) ∧
    (∀ (body : CreateOrderBody) (pre post : List CartItem) (bad : CartItem),
      body.cartItems = some (pre ++ bad :: post) → productsExist env store.products pre →
      env.dbFails (DbOp.productFindById bad.productId) = false →
      Product.findById store.products bad.productId = none →
      (createOrder env body store).res =
        { status := 404,
          body := ResBody.failure ("Product with ID " ++ bad.productId ++ " not found") }) ∧
    (∀ (body : CreateOrderBody) (items : List CartItem) (d : JsNum),
      body.cartItems = some items → productsExist env store.products items →
      body.totalAmount = JsVal.num d →
      d.toFixed2 ≠ (specTotal store.products items).toFixed2 →
      (createOrder env body store).res =
        { status := 400,
          body := ResBody.failure "Total amount mismatch. Please try again." }) ∧
    (∀ body : CaptureBody, env.dbFails (DbOp.orderFindById body.orderId) = false →
      Order.findById store.orders body.orderId = none →
      (capturePayment env body store).res =
        { status := 404, body := ResBody.failure "Order can not be found" }) ∧
    (∀ (body : CaptureBody) (order : Order) (paymentIntent : PaymentConfirmation),
      env.dbFails (DbOp.orderFindById body.orderId) = false →
      Order.findById store.orders body.orderId = some order →
      env.stripe.confirm body.paymentIntentId "pm_card_visa" = some paymentIntent →
      paymentIntent.status ≠ "succeeded" →
      (capturePayment env body store).res =
        { status := 400, body := ResBody.failure "Payment failed" }) ∧
    (∀ (body : CaptureBody) (order : Order) (paymentIntent : PaymentConfirmation)
      (pre post : List CartItem) (bad : CartItem),
      storeAnswers env → Order.findById store.orders body.orderId = some order →
      env.stripe.confirm body.paymentIntentId "pm_card_visa" = some paymentIntent →
      paymentIntent.status = "succeeded" → order.cartItems = pre ++ bad :: post →
      inStock store.products pre →
      (Product.findById store.products bad.productId = none →
        (capturePayment env body store).res =
          { status := 404, body := ResBody.failure ("Product not found: " ++ bad.title) }) ∧
      (∀ product, Product.findById store.products bad.productId = some product →
        (stockAfter bad.productId product.totalStock pre).lt bad.quantity = true →
        (capturePayment env body store).res =
          { status := 400,
            body := ResBody.failure ("Not enough stock for product: " ++ product.title) })) ∧
    (∀ userId : String, env.dbFails (DbOp.orderFind (JsVal.str userId)) = false →
      (store.orders.filter (fun o => o.userId == JsVal.str userId) = [] →
        (getAllOrdersByUser env userId store).res =
          { status := 404, body := ResBody.failure "No orders found!" }) ∧
      (store.orders.filter (fun o => o.userId == JsVal.str userId) ≠ [] →
        (getAllOrdersByUser env userId store).res =
          { status := 200,
            body := ResBody.orders
              (store.orders.filter (fun o => o.userId == JsVal.str userId)) })) ∧
    (∀ id : String, env.dbFails (DbOp.orderFindById (JsVal.str id)) = false →
      (Order.findById store.orders (JsVal.str id) = none →
        (getOrderDetails env id store).res =
          { status := 404, body := ResBody.failure "Order not found!" }) ∧
      (∀ order, Order.findById store.orders (JsVal.str id) = some order →
        (getOrderDetails env id store).res =
          { status := 200, body := ResBody.order order })) := by
  have hcreate : createOrderCatch.isInternalError := ⟨rfl, Or.inl rfl⟩
  have hcapture : capturePaymentCatch.isInternalError := ⟨rfl, Or.inr (Or.inl rfl)⟩
  refine ⟨?_, ?_, ?_, ?_, ?_, ?_, ?_, ?_, ?_, ?_, ?_, ?_, ?_, ?_, ?_, ?_⟩
  · intro request
    cases request with
    | createOrder body => exact createOrder_response_kind env body store
    | capturePayment body => exact capturePayment_response_kind env body store
    | getAllOrdersByUser userId => exact getAllOrdersByUser_response_kind env userId store
    | getOrderDetails id => exact getOrderDetails_response_kind env id store
  · intro r
    exact ⟨Response.internalError_status, Response.businessError_status⟩
  · intro body pre post bad hitems hpre hdb
    have hloop := serverTotalAmount_of_reject env store.products bad post hdb pre
      (JsNum.fin 0) hpre
    have hres : (createOrder env body store).res = createOrderCatch := by
      simp only [createOrder, hitems, hloop]
    rw [hres]
    exact hcreate
  · intro body items d hitems hexist hnum hcheck hfail
    rw [createOrder_of_total hitems (serverTotalAmount_zero_of_exist hexist) hnum,
      if_neg (not_not.mpr hcheck)]
    rcases hfail with hnone | hsave
    · rw [hnone]
      exact hcreate
    · cases env.stripe.create (paymentIntentParams body.userId (specTotal store.products items))
      · exact hcreate
      · dsimp only
        rw [if_pos hsave]
        exact hcreate
  · intro body hdb
    rw [capturePayment, if_pos hdb]
    exact hcapture
  · intro body order hdb horder hconfirm
    rw [capturePayment, if_neg (by simp [hdb])]
    simp only [horder, hconfirm]
    exact hcapture
  · intro body order paymentIntent hdb horder hconfirm hstatus hfail
    rw [capturePayment_of_confirmed hdb horder hconfirm hstatus]
    rcases hfail with hthrew | ⟨hdone, hlater⟩
    · rw [hthrew]
      exact hcapture
    · rw [hdone]
      dsimp only
      by_cases hcf : env.dbFails (DbOp.cartFindById order.cartId) = true
      · rw [if_pos hcf]
        exact hcapture
      · rw [if_neg hcf]
        cases hclear : clearCart env store.carts order.cartId with
        | none => exact hcapture
        | some carts =>
          dsimp only
          rcases hlater with h1 | h2 | h3
          · exact absurd h1 hcf
          · rw [hclear] at h2
            cases h2
          · rw [if_pos h3]
            exact hcapture
  · intro userId hdb
    rw [getAllOrdersByUser, if_pos hdb]
    exact ⟨rfl, Or.inr (Or.inr rfl)⟩
  · intro id hdb
    rw [getOrderDetails, if_pos hdb]
    exact ⟨rfl, Or.inr (Or.inr rfl)⟩
  · intro body pre post bad hitems hpre hdb hbad
    have hloop := serverTotalAmount_of_missing env store.products bad post hdb hbad pre
      (JsNum.fin 0) hpre
    simp only [createOrder, hitems, hloop]
  · intro body items d hitems hexist hnum hne
    rw [createOrder_of_total hitems (serverTotalAmount_zero_of_exist hexist) hnum, if_pos hne]
    rfl
  · intro body hdb horder
    rw [capturePayment, if_neg (by simp [hdb])]
    simp only [horder]
  · intro body order paymentIntent hdb horder hconfirm hstatus
    rw [capturePayment, if_neg (by simp [hdb])]
    simp only [horder, hconfirm, if_neg hstatus]
  · intro body order paymentIntent pre post bad hdb horder hconfirm hstatus hitems hpre
    constructor
    · intro hnone
      rw [capturePayment_stops_missing hdb horder hconfirm hstatus hitems hpre hnone]
    · intro product hfind hshort
      rw [capturePayment_stops_short hdb horder hconfirm hstatus hitems hpre hfind hshort]
  · intro userId hdb
    exact getAllOrdersByUser_of_answer userId store hdb
  · intro id hdb
    exact getOrderDetails_of_answer id store hdb

/-- C24, with a store whose every operation rejects: the four handlers answer 500
with their generic message; and with a store that answers: the read handlers answer
404 for a user without order and for an order that does not exist, 200 with the order
for the order of the tests, and a capture that asks 10 of a product with 5 in stock is
answered 400. -/
theorem handlers_error_policy_witness :
    ((createOrder brokenEnv
        (orderData (some [lineItem "prod1" (JsNum.fin 2)]) (JsVal.num (JsNum.fin 100)))
        testStore).res.status = 500 ∧
      (capturePayment brokenEnv paymentData
        (captureStore [lineItem "prod1" (JsNum.fin 2)])).res.status = 500 ∧
      (getAllOrdersByUser brokenEnv "user123"
        (captureStore [lineItem "prod1" (JsNum.fin 2)])).res.status = 500 ∧
      (getOrderDetails brokenEnv "order123"
        (captureStore [lineItem "prod1" (JsNum.fin 2)])).res.status = 500) ∧
    (getAllOrdersByUser (testEnv mockStripe) "nobody"
      (captureStore [lineItem "prod1" (JsNum.fin 2)])).res =
      { status := 404, body := ResBody.failure "No orders found!" } ∧
    (getOrderDetails (testEnv mockStripe) "nonexistent"
      (captureStore [lineItem "prod1" (JsNum.fin 2)])).res =
      { status := 404, body := ResBody.failure "Order not found!" } ∧
    (getOrderDetails (testEnv mockStripe) "order123"
      (captureStore [lineItem "prod1" (JsNum.fin 2)])).res =
      { status := 200, body := ResBody.order (mockOrder [lineItem "prod1" (JsNum.fin 2)]) } ∧
    (capturePayment (testEnv mockStripe) paymentData
      (captureStore [lineItem "prod2" (JsNum.fin 10)])).res =
      { status := 400,
        body := ResBody.failure "Not enough stock for product: Second Product" } := by
  have hbroken := handlers_error_policy brokenEnv (captureStore [lineItem "prod1" (JsNum.fin 2)])
  have h1 := (handlers_error_policy brokenEnv testStore).2.2.1
    (orderData (some [lineItem "prod1" (JsNum.fin 2)]) (JsVal.num (JsNum.fin 100))) [] []
    (lineItem "prod1" (JsNum.fin 2)) rfl
    (fun item hitem => by simp at hitem) rfl
  have h2 := hbroken.2.2.2.2.1 paymentData rfl
  have h3 := hbroken.2.2.2.2.2.2.2.1 "user123" rfl
  have h4 := hbroken.2.2.2.2.2.2.2.2.1 "order123" rfl
  have hok := handlers_error_policy (testEnv mockStripe)
    (captureStore [lineItem "prod1" (JsNum.fin 2)])
  have h5 := (hok.2.2.2.2.2.2.2.2.2.2.2.2.2.2.1 "nobody" rfl).1
    (by simp [captureStore, mockOrder])
  have h6 := (hok.2.2.2.2.2.2.2.2.2.2.2.2.2.2.2 "nonexistent" rfl).1
    (by simp [Order.findById, captureStore, mockOrder])
  have h7 := (hok.2.2.2.2.2.2.2.2.2.2.2.2.2.2.2 "order123" rfl).2
    (mockOrder [lineItem "prod1" (JsNum.fin 2)])
    (by simp [Order.findById, captureStore, mockOrder])
  have h8 := ((handlers_error_policy (testEnv mockStripe)
    (captureStore [lineItem "prod2" (JsNum.fin 10)])).2.2.2.2.2.2.2.2.2.2.2.2.2.1
    paymentData (mockOrder [lineItem "prod2" (JsNum.fin 10)])
    { id := JsVal.str "pi_test123", status := "succeeded" } [] []
    (lineItem "prod2" (JsNum.fin 10)) (storeAnswers_test mockStripe)
    (findById_captureStore_order _) rfl rfl rfl (inStock_nil _)).2 secondProduct
    (findById_captureStore_prod2 _)
    (by
      show (stockAfter "prod2" secondProduct.totalStock []).lt (JsNum.fin 10) = true
      rw [stockAfter_nil]
      norm_num [JsNum.lt, secondProduct])
  exact ⟨⟨h1.1, h2.1, h3.1, h4.1⟩, h5, h6, h7, h8⟩

/-! ## Properties of the client -/

/-- C25, on the code: whatever is entered in the card-number field is what the field
holds afterwards, unformatted and of any length: the sixteen digits
"4242424242424242" stay without spaces, and twenty digits stay twenty characters. -/
theorem handleInputChange_cardNumber (value : String) :
    (handleInputChange initialPaymentForm "cardNumber" value).get "cardNumber" = some value ∧
    (handleInputChange initialPaymentForm "cardNumber" "4242424242424242").get "cardNumber" =
      some "4242424242424242" ∧
    "4242424242424242" ≠ "4242 4242 4242 4242" ∧
    ((handleInputChange initialPaymentForm "cardNumber" "42424242424242424242").get
      "cardNumber").map String.length = some 20 := by
  refine ⟨?_, by decide, by decide, by decide⟩
  simp [handleInputChange, initialPaymentForm, PaymentForm.get]

/-- C26, on the code: for the cart object `{_id, items}` with no items and an address
selected, `handleInitiateStripePayment` shows no toast and dispatches `createNewOrder`
with an empty list of line items and a total of 0; the toast "Your cart is empty"
comes only when `cartItems` is an empty array. -/
theorem handleInitiateStripePayment_empty_cart (_id : JsVal) (address : ClientAddress)
    (user : Option String) (date : JsVal) :
    (∃ orderData : CreateOrderBody,
      handleInitiateStripePayment (ClientCart.cart _id (some [])) (some address) user date =
        CheckoutAction.createNewOrder orderData ∧
      orderData.cartItems = some [] ∧ orderData.totalAmount = JsVal.num (JsNum.fin 0) ∧
      orderData.cartId = _id) ∧
    handleInitiateStripePayment (ClientCart.cart _id (some [])) (some address) user date ≠
      CheckoutAction.toast "Your cart is empty. Please add items to proceed" ∧
    handleInitiateStripePayment (ClientCart.array []) (some address) user date =
      CheckoutAction.toast "Your cart is empty. Please add items to proceed" := by
  refine ⟨⟨_, rfl, rfl, rfl, rfl⟩, ?_, rfl⟩
  intro h
  simp [handleInitiateStripePayment] at h

/-! ## Repeated captures -/

theorem orderedQuantity_repeated (id : String) (items : List CartItem) :
    ∀ n : ℕ, orderedQuantity id (repeated n items) = n * orderedQuantity id items
  | 0 => by simp [repeated, orderedQuantity_nil]
  | n + 1 => by
    rw [repeated, orderedQuantity_append, orderedQuantity_repeated id items n]
    push_cast
    ring

theorem mem_repeated {item : CartItem} {items : List CartItem} :
    ∀ n : ℕ, item ∈ repeated n items → item ∈ items
  | 0, h => by simp [repeated] at h
  | n + 1, h => by
    rw [repeated, List.mem_append] at h
    rcases h with h | h
    · exact h
    · exact mem_repeated n h

/-- The first part of line items in stock is in stock. -/
theorem inStock_append_left {products : List Product} {a b : List CartItem}
    (h : inStock products (a ++ b)) : inStock products a := by
  intro earlier later item hsplit
  exact h earlier (later ++ b) item (by rw [hsplit]; simp)

/-- The rest of line items in stock is in stock once the loop has run over the first
part. -/
theorem inStock_append_right {env : Env} (hdb : storeAnswers env) (b : List CartItem) :
    ∀ (a : List CartItem) (products : List Product), inStock products (a ++ b) →
      inStock (updateStock env products a).products b
  | [], products, h => by simpa [updateStock] using h
  | item :: rest, products, h => by
    obtain ⟨product, hfind, hq, hrest⟩ := inStock_cons (by simpa using h)
    rw [updateStock_cons_of_stock rest (hdb _) (hdb _) hfind hq]
    exact inStock_append_right hdb b rest _ hrest

/-- Line items are in stock when the first is found and in stock and the others are in
stock once its product is lowered. -/
theorem inStock_cons_of {products : List Product} {item : CartItem} {rest : List CartItem}
    {product : Product} (hfind : Product.findById products item.productId = some product)
    (hq : product.totalStock.lt item.quantity = false)
    (hrest : inStock (Product.save products (product.lowered item.quantity)) rest) :
    inStock products (item :: rest) := by
  intro earlier later it hsplit
  cases earlier with
  | nil =>
    simp only [List.nil_append, List.cons.injEq] at hsplit
    obtain ⟨hit, _⟩ := hsplit
    subst hit
    exact ⟨product, hfind, by rw [stockAfter_nil]; exact hq⟩
  | cons e es =>
    simp only [List.cons_append, List.cons.injEq] at hsplit
    obtain ⟨he, hes⟩ := hsplit
    subst he
    obtain ⟨product2, hfind2, hq2⟩ := hrest es later it hes
    have hid : (product.lowered item.quantity)._id = item.productId :=
      (Product.lowered_id product item.quantity).trans (Product.findById_id hfind)
    have hfind1 : Product.findById products (product.lowered item.quantity)._id =
        some product := by
      rw [hid]; exact hfind
    rw [Product.findById_save_found hfind1, hid] at hfind2
    by_cases hsame : item.productId = it.productId
    · rw [if_pos hsame] at hfind2
      cases hfind2
      refine ⟨product, by rw [← hsame]; exact hfind, ?_⟩
      rw [stockAfter_cons, if_pos hsame]
      exact hq2
    · rw [if_neg hsame] at hfind2
      refine ⟨product2, hfind2, ?_⟩
      rw [stockAfter_cons, if_neg hsame]
      exact hq2

/-- With a store that answers and a payment that is confirmed, `n` captures of an
order whose line items are in stock `n` times over all respond 200, and leave each
product with what the line items, `n` times over, leave of its stock. -/
theorem captureTimes_of_inStock {env : Env} {body : CaptureBody}
    {paymentIntent : PaymentConfirmation} (hdb : storeAnswers env)
    (hconfirm : env.stripe.confirm body.paymentIntentId "pm_card_visa" = some paymentIntent)
    (hstatus : paymentIntent.status = "succeeded") (items : List CartItem) :
    ∀ (n : ℕ) (store : Store) (order : Order),
      Order.findById store.orders body.orderId = some order → order.cartItems = items →
      inStock store.products (repeated n items) →
      (∀ k < n, (capturePayment env body (captureTimes env body k store)).res.status = 200) ∧
      ∀ id : String, Product.findById (captureTimes env body n store).products id =
        (Product.findById store.products id).map
          (fun p => p.withStock (stockAfter id p.totalStock (repeated n items)))
  | 0, store, order, _, _, _ => by
    refine ⟨fun k hk => absurd hk (Nat.not_lt_zero k), fun id => ?_⟩
    simp [captureTimes, repeated, stockAfter_nil, Product.withStock_self]
  | n + 1, store, order, horder, hitems, hstock => by
    have hfirst : inStock store.products order.cartItems := by
      rw [hitems]
      exact inStock_append_left hstock
    have hrun := capturePayment_of_inStock hdb horder hconfirm hstatus hfirst
    have horder1 : Order.findById (capturePayment env body store).store.orders body.orderId =
        some (paidOrder env order body.paymentIntentId) := by
      rw [hrun]
      exact Order.findOrder_save_found
        (show (paidOrder env order body.paymentIntentId)._id = order._id from rfl)
        store.orders horder
    have hproducts1 : (capturePayment env body store).store.products =
        (updateStock env store.products items).products := by
      rw [hrun, hitems]
    have hstock1 : inStock (capturePayment env body store).store.products
        (repeated n items) := by
      rw [hproducts1]
      exact inStock_append_right hdb (repeated n items) items store.products hstock
    obtain ⟨ih1, ih2⟩ := captureTimes_of_inStock hdb hconfirm hstatus items n
      (capturePayment env body store).store (paidOrder env order body.paymentIntentId)
      horder1 hitems hstock1
    refine ⟨fun k hk => ?_, fun id => ?_⟩
    · cases k with
      | zero =>
        show (capturePayment env body store).res.status = 200
        rw [hrun]
      | succ j => exact ih1 j (Nat.lt_of_succ_lt_succ hk)
    · show Product.findById
        (captureTimes env body n (capturePayment env body store).store).products id = _
      rw [ih2 id, hproducts1,
        (updateStock_of_inStock hdb items store.products (inStock_append_left hstock)).2 id]
      cases Product.findById store.products id with
      | none => rfl
      | some p =>
        simp only [Option.map_some']
        rw [Product.withStock_withStock, repeated, stockAfter_append]
        rfl

theorem findById_confirmedStore_order (cartItems : List CartItem) :
    Order.findById (confirmedStore cartItems).orders paymentData.orderId =
      some (confirmedOrder cartItems) := by
  simp [Order.findById, confirmedStore, confirmedOrder, mockOrder, paymentData]

theorem findById_confirmedStore_prod1 (cartItems : List CartItem) :
    Product.findById (confirmedStore cartItems).products "prod1" = some mockProduct := by
  simp [Product.findById, confirmedStore, mockProduct]

theorem findById_wideConfirmedStore_order (cartItems : List CartItem) :
    Order.findById (wideConfirmedStore cartItems).orders paymentData.orderId =
      some (confirmedOrder cartItems) := by
  simp [Order.findById, wideConfirmedStore, confirmedOrder, mockOrder, paymentData]

theorem findById_wideConfirmedStore_prod4 (cartItems : List CartItem) :
    Product.findById (wideConfirmedStore cartItems).products "prod4" = some bulkProduct := by
  simp [Product.findById, wideConfirmedStore, mockProduct, costlyProduct, bulkProduct]

/-- Two units of the mock product twice over are in stock in the store of the tests. -/
theorem inStock_twice (cartItems : List CartItem) :
    inStock (confirmedStore cartItems).products
      (repeated 2 [lineItem "prod1" (JsNum.fin 2)]) := by
  have hfind := findById_confirmedStore_prod1 cartItems
  have hid : (mockProduct.lowered (JsNum.fin 2))._id = "prod1" := rfl
  have hfind1 : Product.findById (confirmedStore cartItems).products
      (mockProduct.lowered (JsNum.fin 2))._id = some mockProduct := by
    rw [hid]; exact hfind
  have hfind2 : Product.findById
      (Product.save (confirmedStore cartItems).products (mockProduct.lowered (JsNum.fin 2)))
      "prod1" = some (mockProduct.lowered (JsNum.fin 2)) := by
    rw [Product.findById_save_found hfind1, if_pos hid]
  show inStock (confirmedStore cartItems).products
    [lineItem "prod1" (JsNum.fin 2), lineItem "prod1" (JsNum.fin 2)]
  refine inStock_cons_of hfind (by norm_num [JsNum.lt, lineItem, mockProduct])
    (inStock_cons_of hfind2 ?_ (inStock_nil _))
  show ((JsNum.fin 10).sub (JsNum.fin 2)).lt (JsNum.fin 2) = false
  rw [ten_less_two]
  norm_num [JsNum.lt]

/-- C27, as stated, fails: the order is already confirmed and paid and asks one unit of
a product with 9007199254740994 in stock; a further capture is answered 200 and leaves
9007199254740992 in stock, which is not the stock lowered by one time the quantity. -/
theorem capturePayment_repeat_counterexample :
    (confirmedOrder [lineItem "prod4" (JsNum.fin 1)]).orderStatus = "confirmed" ∧
    (confirmedOrder [lineItem "prod4" (JsNum.fin 1)]).paymentStatus = "paid" ∧
    inStock (wideConfirmedStore [lineItem "prod4" (JsNum.fin 1)]).products
      [lineItem "prod4" (JsNum.fin 1)] ∧
    (capturePayment (testEnv mockStripe) paymentData
      (wideConfirmedStore [lineItem "prod4" (JsNum.fin 1)])).res.status = 200 ∧
    (Product.findById (wideConfirmedStore [lineItem "prod4" (JsNum.fin 1)]).products
      "prod4").map (fun p => p.totalStock) = some (JsNum.fin 9007199254740994) ∧
    (Product.findById (captureTimes (testEnv mockStripe) paymentData 1
      (wideConfirmedStore [lineItem "prod4" (JsNum.fin 1)])).products "prod4").map
      (fun p => p.totalStock) = some (JsNum.fin 9007199254740992) ∧
    (9007199254740992 : ℚ) ≠ 9007199254740994 - 1 * 1 := by
  have hstock := inStock_prod4 (wideConfirmedStore [lineItem "prod4" (JsNum.fin 1)]).products
    (findById_wideConfirmedStore_prod4 _)
  have hrun := @capturePayment_of_inStock (testEnv mockStripe) paymentData
    (wideConfirmedStore [lineItem "prod4" (JsNum.fin 1)])
    (confirmedOrder [lineItem "prod4" (JsNum.fin 1)])
    { id := JsVal.str "pi_test123", status := "succeeded" } (storeAnswers_test mockStripe)
    (findById_wideConfirmedStore_order _) rfl rfl hstock
  refine ⟨rfl, rfl, hstock, ?_, ?_, ?_, by norm_num⟩
  · rw [hrun]
  · rw [findById_wideConfirmedStore_prod4]; rfl
  · have hproducts : (captureTimes (testEnv mockStripe) paymentData 1
        (wideConfirmedStore [lineItem "prod4" (JsNum.fin 1)])).products =
        (updateStock (testEnv mockStripe)
          (wideConfirmedStore [lineItem "prod4" (JsNum.fin 1)]).products
          [lineItem "prod4" (JsNum.fin 1)]).products := by
      show (capturePayment (testEnv mockStripe) paymentData
        (wideConfirmedStore [lineItem "prod4" (JsNum.fin 1)])).store.products = _
      rw [hrun]
      rfl
    have hstate := (updateStock_of_inStock (storeAnswers_test mockStripe) _ _ hstock).2 "prod4"
    rw [findById_wideConfirmedStore_prod4] at hstate
    rw [hproducts, stockOf_withStock _ _ bulkProduct _ hstate, stockAfter_prod4]

/-- C27, amended. `capturePayment` does not read the status of the order. With a store
that answers and a payment confirmed as succeeded, for an order of any status, hence
also one that is already `confirmed`/`paid`, whose line items are in stock `n` times
over, `n` captures one after the other all respond 200 and leave each product with its
stock from which the quantities the line items ask of it were subtracted `n` times
over, one after the other, each difference being rounded to the nearest double. For a
product whose stock is a whole number up to 2^53 and of which the order asks whole
quantities, that is exactly the stock less `n` times the quantity ordered. -/
theorem capturePayment_ignores_status (env : Env) (body : CaptureBody) (store : Store)
    (order : Order) (paymentIntent : PaymentConfirmation) (n : ℕ) (hdb : storeAnswers env)
    (horder : Order.findById store.orders body.orderId = some order)
    (hconfirm : env.stripe.confirm body.paymentIntentId "pm_card_visa" = some paymentIntent)
    (hstatus : paymentIntent.status = "succeeded")
    (hstock : inStock store.products (repeated n order.cartItems)) :
    (∀ k < n, (capturePayment env body (captureTimes env body k store)).res.status = 200) ∧
    (∀ id : String, Product.findById (captureTimes env body n store).products id =
      (Product.findById store.products id).map
        (fun p => p.withStock (stockAfter id p.totalStock (repeated n order.cartItems)))) ∧
    (∀ (id : String) (product : Product) (s : ℕ),
      Product.findById store.products id = some product → product.totalStock = JsNum.fin s →
      s ≤ 2 ^ 53 →
      (∀ item ∈ order.cartItems, item.productId = id → ∃ q : ℕ, item.quantity = JsNum.fin q) →
      Product.findById (captureTimes env body n store).products id =
        some (product.withStock
          (JsNum.fin (s - n * orderedQuantity id order.cartItems)))) := by
  obtain ⟨h1, h2⟩ := captureTimes_of_inStock hdb hconfirm hstatus order.cartItems n store order
    horder rfl hstock
  refine ⟨h1, h2, ?_⟩
  intro id product s hfind hs hle hq
  rw [h2 id, hfind, Option.map_some', hs,
    (stockAfter_of_inStock_whole (repeated n order.cartItems) store.products hstock id product s
      hfind hs hle (fun item hitem => hq item (mem_repeated n hitem))).2,
    orderedQuantity_repeated]

/-- C27, on the order of the tests already confirmed and paid, 10 in stock and 2
ordered: a capture responds 200, a second one too, and 6 are left. -/
theorem capturePayment_ignores_status_witness :
    (confirmedOrder [lineItem "prod1" (JsNum.fin 2)]).orderStatus = "confirmed" ∧
    (confirmedOrder [lineItem "prod1" (JsNum.fin 2)]).paymentStatus = "paid" ∧
    (capturePayment (testEnv mockStripe) paymentData
      (confirmedStore [lineItem "prod1" (JsNum.fin 2)])).res.status = 200 ∧
    (capturePayment (testEnv mockStripe) paymentData
      (capturePayment (testEnv mockStripe) paymentData
        (confirmedStore [lineItem "prod1" (JsNum.fin 2)])).store).res.status = 200 ∧
    (Product.findById (captureTimes (testEnv mockStripe) paymentData 2
      (confirmedStore [lineItem "prod1" (JsNum.fin 2)])).products "prod1").map
      (fun p => p.totalStock) = some (JsNum.fin 6) := by
  have h := capturePayment_ignores_status (testEnv mockStripe) paymentData
    (confirmedStore [lineItem "prod1" (JsNum.fin 2)])
    (confirmedOrder [lineItem "prod1" (JsNum.fin 2)])
    { id := JsVal.str "pi_test123", status := "succeeded" } 2 (storeAnswers_test mockStripe)
    (findById_confirmedStore_order _) rfl rfl (inStock_twice _)
  refine ⟨rfl, rfl, h.1 0 (by norm_num), h.1 1 (by norm_num), ?_⟩
  have h2 := h.2.2 "prod1" mockProduct 10 (findById_confirmedStore_prod1 _)
    (by norm_num [mockProduct]) (by norm_num)
    (fun item hitem _ => by
      have hi : item = lineItem "prod1" (JsNum.fin 2) := by
        simpa [confirmedOrder, mockOrder] using hitem
      exact ⟨2, by rw [hi]; norm_num [lineItem]⟩)
  rw [h2]
  have hq : orderedQuantity "prod1" (confirmedOrder [lineItem "prod1" (JsNum.fin 2)]).cartItems
      = 2 := by
    simp [orderedQuantity, lineItem, confirmedOrder, mockOrder, JsNum.toRat]
  rw [hq]
  simp only [Option.map_some', Product.withStock]
  norm_num

/-- C28. `capturePayment` never compares the `paymentIntentId` of the request with the
`paymentId` stored on the order. With the mock of `helpers/stripe.js` as payment
collaborator and a store that answers, for every order found whose line items are in
stock and for every `paymentIntentId`, whatever the `paymentId` of the order, the
capture responds 200 with `success: true` and the order is saved with the
`paymentIntentId` of the request as its `paymentId`. -/
theorem capturePayment_any_paymentIntentId (entropy : Entropy) (env : Env)
    (body : CaptureBody) (store : Store) (order : Order)
    (hstripe : env.stripe = stripeInstance entropy) (hdb : storeAnswers env)
    (horder : Order.findById store.orders body.orderId = some order)
    (hstock : inStock store.products order.cartItems) :
    (capturePayment env body store).res.status = 200 ∧
    (capturePayment env body store).res.body.success = true ∧
    Order.findById (capturePayment env body store).store.orders body.orderId =
      some (paidOrder env order body.paymentIntentId) ∧
    (paidOrder env order body.paymentIntentId).paymentId = body.paymentIntentId := by
  have hconfirm : env.stripe.confirm body.paymentIntentId "pm_card_visa" =
      some { id := body.paymentIntentId, status := "succeeded" } := by
    rw [hstripe]
    rfl
  rw [capturePayment_of_inStock hdb horder hconfirm rfl hstock]
  exact ⟨rfl, rfl, Order.findOrder_save_found
    (show (paidOrder env order body.paymentIntentId)._id = order._id from rfl)
    store.orders horder, rfl⟩

/-- C28, on the order of the tests, created with the intent "pi_test123": a capture
that names the intent "pi_forged" responds 200 and the order is saved with "pi_forged"
as `paymentId`. -/
theorem capturePayment_any_paymentIntentId_witness :
    (mockOrder [lineItem "prod1" (JsNum.fin 2)]).paymentId = JsVal.str "pi_test123" ∧
    (capturePayment (testEnv (stripeInstance testEntropy))
      { paymentIntentId := JsVal.str "pi_forged", orderId := JsVal.str "order123" }
      (captureStore [lineItem "prod1" (JsNum.fin 2)])).res.status = 200 ∧
    (Order.findById (capturePayment (testEnv (stripeInstance testEntropy))
      { paymentIntentId := JsVal.str "pi_forged", orderId := JsVal.str "order123" }
      (captureStore [lineItem "prod1" (JsNum.fin 2)])).store.orders
      (JsVal.str "order123")).map
      (fun o => o.paymentId) = some (JsVal.str "pi_forged") := by
  have h := capturePayment_any_paymentIntentId testEntropy
    (testEnv (stripeInstance testEntropy))
    { paymentIntentId := JsVal.str "pi_forged", orderId := JsVal.str "order123" }
    (captureStore [lineItem "prod1" (JsNum.fin 2)]) (mockOrder [lineItem "prod1" (JsNum.fin 2)])
    rfl (storeAnswers_test _) (findById_captureStore_order _)
    (inStock_prod1 _ 2 (by norm_num))
  refine ⟨rfl, h.1, ?_⟩
  have hf : Order.findById (capturePayment (testEnv (stripeInstance testEntropy))
      { paymentIntentId := JsVal.str "pi_forged", orderId := JsVal.str "order123" }
      (captureStore [lineItem "prod1" (JsNum.fin 2)])).store.orders (JsVal.str "order123") = _ :=
    h.2.2.1
  rw [hf]
  rfl

/-! ## The client and the server -/

/-- The total of the checkout page is the `reduce` over the cart items, from 0. -/
theorem totalCartAmount_eq_foldl (_id : JsVal) (items : List ClientCartItem) :
    totalCartAmount (ClientCart.cart _id (some items)) =
      items.foldl
        (fun sum currentItem =>
          sum.add ((if currentItem.salePrice.gt (JsNum.fin 0) then currentItem.salePrice
            else currentItem.price).mul currentItem.quantity))
        (JsNum.fin 0) := by
  cases items with
  | nil => rfl
  | cons item rest => rfl

/-- The `reduce` of the page over cart items that carry the prices of their products is
the sum of the amounts of the line items built from them, from any start. -/
theorem foldl_singleCartItem (products : List Product) :
    ∀ (items : List ClientCartItem) (acc : JsNum),
      (∀ item ∈ items, ∃ product, Product.findById products item.productId = some product ∧
        product.price = item.price ∧ product.salePrice = item.salePrice) →
      items.foldl
        (fun sum currentItem =>
          sum.add ((if currentItem.salePrice.gt (JsNum.fin 0) then currentItem.salePrice
            else currentItem.price).mul currentItem.quantity))
        acc =
      (items.map singleCartItem).foldl (fun sum item => sum.add (lineAmount products item)) acc
  | [], _, _ => rfl
  | item :: rest, acc, h => by
    obtain ⟨product, hfind, hprice, hsale⟩ := h item (List.mem_cons_self _ _)
    have hfind1 : Product.findById products (singleCartItem item).productId = some product :=
      hfind
    have hline : lineAmount products (singleCartItem item) =
        (if item.salePrice.gt (JsNum.fin 0) then item.salePrice else item.price).mul
          item.quantity := by
      rw [lineAmount_found hfind1, effectivePrice, hprice, hsale]
      rfl
    rw [List.map_cons, List.foldl_cons, List.foldl_cons, hline]
    exact foldl_singleCartItem products rest _ (fun i hi => h i (List.mem_cons_of_mem _ hi))

/-- C29. For a cart object whose items carry the `price` and `salePrice` of their
products, the store answering the lookups, and a total that is finite (what a JSON body
carries as a number), the total computed on the checkout page (the `reduce` of doubles)
is the total `createOrder` recomputes (also 0 for an empty or absent item list), and
the order that `handleInitiateStripePayment` builds from the cart declares that total
and passes the amount check of `createOrder`: the payment intent is requested and the
response is not the amount mismatch. -/
theorem client_total_passes_check (env : Env) (store : Store) (_id : JsVal)
    (items : List ClientCartItem) (address : ClientAddress) (user : Option String) (date : JsVal)
    (hsame : ∀ item ∈ items,
      env.dbFails (DbOp.productFindById item.productId) = false ∧
      ∃ product, Product.findById store.products item.productId = some product ∧
        product.price = item.price ∧ product.salePrice = item.salePrice)
    (hfinite : ∃ t : ℚ, totalCartAmount (ClientCart.cart _id (some items)) = JsNum.fin t) :
    totalCartAmount (ClientCart.cart _id (some items)) =
      specTotal store.products (items.map singleCartItem) ∧
    serverTotalAmount env store.products (items.map singleCartItem) (JsNum.fin 0) =
      TotalResult.total (totalCartAmount (ClientCart.cart _id (some items))) ∧
    totalCartAmount (ClientCart.cart _id (some [])) = JsNum.fin 0 ∧
    totalCartAmount (ClientCart.cart _id none) = JsNum.fin 0 ∧
    ∃ orderData : CreateOrderBody,
      handleInitiateStripePayment (ClientCart.cart _id (some items)) (some address) user date =
        CheckoutAction.createNewOrder orderData ∧
      orderData.totalAmount = JsVal.num (totalCartAmount (ClientCart.cart _id (some items))) ∧
      (createOrder env orderData store).stripeCreateCalls =
        [paymentIntentParams orderData.userId
          (totalCartAmount (ClientCart.cart _id (some items)))] ∧
      (createOrder env orderData store).res ≠ amountMismatch := by
  obtain ⟨t, _⟩ := hfinite
  have hexist : productsExist env store.products (items.map singleCartItem) := by
    intro li hli
    obtain ⟨item, hitem, rfl⟩ := List.mem_map.mp hli
    obtain ⟨hdb, product, hfind, _, _⟩ := hsame item hitem
    exact ⟨hdb, product, hfind⟩
  have htotal : totalCartAmount (ClientCart.cart _id (some items)) =
      specTotal store.products (items.map singleCartItem) := by
    rw [totalCartAmount_eq_foldl, foldl_singleCartItem store.products items (JsNum.fin 0)
      (fun item hitem => (hsame item hitem).2)]
    rfl
  have hloop := serverTotalAmount_zero_of_exist hexist
  rw [← htotal] at hloop
  have hact : ∃ orderData : CreateOrderBody,
      handleInitiateStripePayment (ClientCart.cart _id (some items)) (some address) user date =
        CheckoutAction.createNewOrder orderData ∧
      orderData.cartItems = some (items.map singleCartItem) ∧
      orderData.totalAmount =
        JsVal.num (totalCartAmount (ClientCart.cart _id (some items))) :=
    ⟨_, rfl, rfl, rfl⟩
  obtain ⟨orderData, hbuilt, hitems, hdeclared⟩ := hact
  refine ⟨htotal, hloop, rfl, rfl, orderData, hbuilt, hdeclared, ?_⟩
  rw [createOrder_of_total hitems hloop hdeclared, if_neg (not_not.mpr rfl)]
  cases env.stripe.create _ with
  | none => exact ⟨rfl, by simp [createOrderCatch, amountMismatch]⟩
  | some paymentIntent =>
    dsimp only
    split
    · exact ⟨rfl, by simp [createOrderCatch, amountMismatch]⟩
    · exact ⟨rfl, by simp [amountMismatch]⟩

/-- C29, on a cart with two units of the mock product: the page computes 100, the
server recomputes 100. -/
theorem client_total_passes_check_witness :
    totalCartAmount (ClientCart.cart (JsVal.str "cart123") (some [clientItem (JsNum.fin 2)])) =
      JsNum.fin 100 ∧
    serverTotalAmount (testEnv mockStripe) testStore.products
      [singleCartItem (clientItem (JsNum.fin 2))] (JsNum.fin 0) =
      TotalResult.total (JsNum.fin 100) := by
  have e : totalCartAmount (ClientCart.cart (JsVal.str "cart123")
      (some [clientItem (JsNum.fin 2)])) = JsNum.fin 100 := by
    rw [totalCartAmount_eq_foldl]
    simp only [List.foldl_cons, List.foldl_nil, clientItem, JsNum.gt, JsNum.lt]
    simpa using total_of_two_at_50
  have h := client_total_passes_check (testEnv mockStripe) testStore (JsVal.str "cart123")
    [clientItem (JsNum.fin 2)] testAddress (some "user123") JsVal.undefined
    (by
      intro item hitem
      rw [List.mem_singleton] at hitem
      subst hitem
      exact ⟨rfl, mockProduct,
        by simp [Product.findById, testStore, clientItem, mockProduct], rfl, rfl⟩)
    ⟨100, e⟩
  refine ⟨e, ?_⟩
  rw [← e]
  exact h.2.1

/-- C30. `createOrder` accepts an empty cart. For a body whose `cartItems` is the
empty list and whose declared total prints as that of 0 (`toFixed(2)` gives "0.00"),
in any store and whatever the product lookups would answer, when the payment intent
is created and the save accepted: the payment intent is requested once with amount 0,
one order is added, with no line items, `totalAmount` 0 and `pending`/`pending`, and
the response is 201 with `success: true`. -/
theorem createOrder_empty_cart (env : Env) (body : CreateOrderBody) (store : Store)
    (d : JsNum) (paymentIntent : PaymentIntent) (hitems : body.cartItems = some [])
    (hnum : body.totalAmount = JsVal.num d) (hround : d.toFixed2 = (JsNum.fin 0).toFixed2)
    (hpi : env.stripe.create (paymentIntentParams body.userId (JsNum.fin 0)) =
      some paymentIntent)
    (hsave : env.dbFails (DbOp.orderSave env.newOrderId) = false) :
    (createOrder env body store).stripeCreateCalls =
      [{ amount := JsNum.fin 0, currency := "usd",
         metadata := { orderId := "temp_order_id", userId := body.userId } }] ∧
    (createOrder env body store).res =
      { status := 201,
        body := ResBody.created paymentIntent.client_secret env.newOrderId paymentIntent.id } ∧
    (createOrder env body store).res.body.success = true ∧
    ∃ order : Order,
      (createOrder env body store).store.orders = store.orders ++ [order] ∧
      order.cartItems = [] ∧ order.totalAmount = JsNum.fin 0 ∧
      order.orderStatus = "pending" ∧ order.paymentStatus = "pending" := by
  have hloop : serverTotalAmount env store.products [] (JsNum.fin 0) =
      TotalResult.total (JsNum.fin 0) := rfl
  have hparams : paymentIntentParams body.userId (JsNum.fin 0) =
      { amount := JsNum.fin 0, currency := "usd",
        metadata := { orderId := "temp_order_id", userId := body.userId } } := by
    rw [paymentIntentParams, mathRound_0_times_100]
  rw [createOrder_of_total hitems hloop hnum, if_neg (not_not.mpr hround), hpi]
  dsimp only
  rw [if_neg (by simp [hsave]), hparams]
  exact ⟨rfl, rfl, rfl, _, rfl, rfl, rfl, rfl, rfl⟩

/-- C30, on the body with an empty cart and a declared total of 0. -/
theorem createOrder_empty_cart_witness :
    (createOrder (testEnv mockStripe) (orderData (some []) (JsVal.num (JsNum.fin 0)))
      testStore).res =
      { status := 201,
        body := ResBody.created "pi_test123_secret_test" "order123" "pi_test123" } ∧
    (createOrder (testEnv mockStripe) (orderData (some []) (JsVal.num (JsNum.fin 0)))
      testStore).stripeCreateCalls.map (fun params => params.amount) = [JsNum.fin 0] := by
  have h := createOrder_empty_cart (testEnv mockStripe)
    (orderData (some []) (JsVal.num (JsNum.fin 0)))
    testStore (JsNum.fin 0) { id := "pi_test123", client_secret := "pi_test123_secret_test" }
    rfl rfl rfl rfl rfl
  refine ⟨h.2.1, ?_⟩
  rw [h.1]
  rfl

end Trendyx
